import Mathlib

/-!
Verification of the NBA data-ingestion pipeline (repository jpclarkin/NBA).

This file shallowly embeds the ingest-and-reconcile core of the repository:

* `src/nba/ingest/teams_ingest.py`   (`ingest_teams`)
* `src/nba/ingest/games_ingest.py`   (`ingest_games`, `get_team_by_abbreviation`)
* `src/nba/ingest/players_ingest.py` (`ingest_players`, `create_player_from_data`,
                                      `update_player_data`)
* `src/nba/ingest/stats_ingest.py`   (`ingest_team_stats`, `ingest_player_stats`,
                                      `create_team_stats_from_data`, `update_team_stats`,
                                      `create_player_stats_from_data`, `update_player_stats`,
                                      the local `safe_float` / `safe_int` helpers)
* `src/nba/sources/nba_api_client_fixed.py` (`NBAAPIClientFixed._safe_api_call`,
                                      the record normalisation in `get_games` and
                                      `get_team_stats`)
* `src/nba/sources/nba_client.py`    (`NBAAPIClient._get`)
* `src/nba/db/models.py`             (the `Team`, `Game`, `Player`, `TeamStats`,
                                      `PlayerSeasonStats` tables and their constraints)
* `src/nba/db/session.py`            (the session factory: `autocommit=False,
                                      autoflush=False`)

Modelling conventions, fixed once here:

* Python scalar values that flow through loosely-typed record dictionaries are the
  inductive `PyVal` (None / int / float / str / bool).  Python floats are modelled
  as rationals; `float(...)` string parsing uses a simplified decimal grammar
  (optional sign, digits, optional fractional part — no exponents/inf/nan), which
  covers every value the repository's data paths produce.
* A record dictionary is a structure whose fields are `Option`-typed: `none` means
  the key is absent from the dict.  Keys whose values may themselves be Python
  `None` are `Option (Option _)` (outer: key present, inner: value non-null).
* The session of `db/session.py` is created with `autoflush=False`, so queries
  issued during a batch do not see rows staged with `session.add`; they do see
  in-place attribute updates of already-persistent rows, because the identity map
  returns the modified object.  No query in the ingest code filters on a column
  that the same batch modifies, so a session is modelled as `Staged`: the
  committed rows (with in-place updates applied) plus the list of pending adds,
  and lookups search only the committed part.
* `session.commit()` enforces the declared SQLite constraints: UNIQUE on
  `teams.team_id`, `teams.abbreviation`, `players.player_id`, the `games.id`
  primary key, and NOT NULL on `player_season_stats.team_id` for inserted rows
  (SQLite enforces NOT NULL and UNIQUE; foreign keys are off by default and the
  engine never enables them).  A violation is an `IntegrityError`: the wrapper
  `except` clause rolls the whole batch back and re-raises.
* Autoincrement surrogate ids are assigned deterministically from a counter when
  a row is staged; a rollback discards the staged rows together with the counter
  bump, which matches the observable behaviour of flush-time assignment.
* The ingest functions also return the list of touched ORM objects; the claims
  are about the persisted state, so the embedding returns the committed store
  and the (optional) raised error.
-/

namespace NBA

/-! ## Python scalar values -/

/-- A loosely-typed Python scalar as it appears in record dictionaries:
`None`, `int`, `float` (modelled as a rational), `str`, or `bool`. -/
inductive PyVal where
  | vnone : PyVal
  | vint  : Int → PyVal
  | vflt  : ℚ → PyVal
  | vstr  : String → PyVal
  | vbool : Bool → PyVal
  deriving DecidableEq, Repr

/-- Python truthiness of a scalar: `None`, `0`, `0.0`, `""` and `False` are falsy. -/
def PyVal.truthy : PyVal → Bool
  | .vnone => false
  | .vint n => decide (n ≠ 0)
  | .vflt q => decide (q ≠ 0)
  | .vstr s => decide (s ≠ "")
  | .vbool b => b

/-- Digit-string to number; fails on an empty digit list or a non-digit. -/
def parseDigits? (cs : List Char) : Option Nat :=
  if cs.isEmpty then none
  else cs.foldl
    (fun acc c => acc.bind fun n => if c.isDigit then some (10 * n + (c.toNat - 48)) else none)
    (some 0)

/-- `str.strip()` as Python's numeric parsers apply it (ASCII whitespace). -/
def trimChars (cs : List Char) : List Char :=
  ((cs.dropWhile Char.isWhitespace).reverse.dropWhile Char.isWhitespace).reverse

/-- `s.split(sep)` on a character list (Python semantics: `"".split("-") = [""]`). -/
def splitOnChar (sep : Char) : List Char → List (List Char)
  | [] => [[]]
  | c :: cs =>
      match splitOnChar sep cs with
      | [] => if c = sep then [[], []] else [[c]]
      | g :: gs => if c = sep then [] :: g :: gs else (c :: g) :: gs

/-- `s.upper()` for team abbreviations. -/
def pyUpper (s : String) : String :=
  ⟨s.data.map Char.toUpper⟩

/-- Split an optional leading sign off a character list, returning (negative?, rest). -/
def splitSign : List Char → Bool × List Char
  | '-' :: cs => (true, cs)
  | '+' :: cs => (false, cs)
  | cs => (false, cs)

/-- Python `int(s)` on a (stripped) string: optional sign followed by digits only;
`int("2.5")` fails. -/
def parseIntStr? (s : String) : Option Int :=
  let (neg, cs) := splitSign (trimChars s.data)
  (parseDigits? cs).map fun n => if neg then -(n : Int) else (n : Int)

/-- Python `float(s)` on a (stripped) string, simplified decimal grammar:
optional sign, an integer part and/or a fractional part with at least one digit
overall (`"1"`, `"1.5"`, `".5"`, `"1."` parse; `""`, `"abc"`, `"1.2.3"` do not). -/
def parseFloatStr? (s : String) : Option ℚ :=
  let (neg, cs) := splitSign (trimChars s.data)
  let intPart := cs.takeWhile (· ≠ '.')
  let restPart := cs.dropWhile (· ≠ '.')
  let core : Option ℚ :=
    match restPart with
    | [] => (parseDigits? intPart).map fun n => (n : ℚ)
    | '.' :: frac =>
        if frac.all Char.isDigit ∧ intPart.all Char.isDigit ∧
            (intPart ≠ [] ∨ frac ≠ []) then
          some (((parseDigits? intPart).getD 0 : ℚ) +
                ((parseDigits? frac).getD 0 : ℚ) / ((10 : ℚ) ^ frac.length))
        else none
    | _ => none
  core.map fun q => if neg then -q else q

/-- Python `float(value)`: succeeds on numbers and bools, parses strings,
fails (raises) otherwise.  `none` encodes the raised `ValueError`/`TypeError`. -/
def pyFloat? : PyVal → Option ℚ
  | .vint n => some (n : ℚ)
  | .vflt q => some q
  | .vbool b => some (if b then 1 else 0)
  | .vstr s => parseFloatStr? s
  | .vnone => none

/-- Truncation of a rational toward zero, as Python `int(float)` does. -/
def ratTrunc (q : ℚ) : Int := q.num.tdiv (q.den : Int)

/-- Python `int(value)`: ints pass through, floats truncate toward zero, bools
become 0/1, strings must be pure (signed) digit strings. -/
def pyInt? : PyVal → Option Int
  | .vint n => some n
  | .vflt q => some (ratTrunc q)
  | .vbool b => some (if b then 1 else 0)
  | .vstr s => parseIntStr? s
  | .vnone => none

/-- `safe_float` from `stats_ingest.py` (appears identically in
`create_team_stats_from_data`, `update_team_stats`, `create_player_stats_from_data`
and `update_player_stats`): `float(value) if value is not None else None`, with
`ValueError`/`TypeError` caught and turned into `None`. -/
def safe_float (v : PyVal) : Option ℚ :=
  match v with
  | .vnone => none
  | _ => pyFloat? v

/-- `safe_int` from `stats_ingest.py`: `int(value) if value is not None else None`,
with `ValueError`/`TypeError` caught and turned into `None`. -/
def safe_int (v : PyVal) : Option Int :=
  match v with
  | .vnone => none
  | _ => pyInt? v

/-- Python `str(value)` restricted to the shapes the ingest code feeds it
(identifier fields are ints or strings in every fetched record); the float
rendering is approximate and unused by the data paths. -/
def pyStr : PyVal → String
  | .vnone => "None"
  | .vint n => toString n
  | .vflt q => toString q
  | .vstr s => s
  | .vbool b => if b then "True" else "False"

/-- `str(d.get(key, ""))` for a possibly-absent dictionary value; the embedding
collapses an absent key and a JSON null both to `PyVal.vnone`, which this
function renders as the default `""` (a present Python `None` would render
`"None"`; neither string ever matches a stored identifier). -/
def pyStrD : Option PyVal → String
  | none => ""
  | some .vnone => ""
  | some v => pyStr v

/-- Python `a or b` on optional ints (`safe_int(...) or old`):
returns `a` when `a` is truthy (a non-zero int), otherwise `b`. -/
def pyOrInt (a b : Option Int) : Option Int :=
  match a with
  | some n => if n ≠ 0 then some n else b
  | none => b

/-- Python `a or b` on optional floats (`safe_float(...) or old`). -/
def pyOrRat (a b : Option ℚ) : Option ℚ :=
  match a with
  | some q => if q ≠ 0 then some q else b
  | none => b

/-! ## Dates -/

/-- A calendar date as produced by `datetime.strptime(..., "%Y-%m-%d").date()`. -/
structure PyDate where
  year : Nat
  month : Nat
  day : Nat
  deriving DecidableEq, Repr

/-- `datetime.strptime(s, "%Y-%m-%d")`: three dash-separated digit groups with a
plausible month and day; any other shape raises `ValueError` (`none`). -/
def parseDateISO? (s : String) : Option PyDate :=
  match (splitOnChar '-' s.data).map parseDigits? with
  | [some y, some m, some d] =>
      if 1 ≤ m ∧ m ≤ 12 ∧ 1 ≤ d ∧ d ≤ 31 then some ⟨y, m, d⟩ else none
  | _ => none

/-- A `game_date` value inside a fetched record: either a raw string or an
already-constructed date object. -/
inductive DateVal where
  | dstr : String → DateVal
  | ddate : PyDate → DateVal
  deriving DecidableEq, Repr

/-! ## Name splitting (`full_name.split(" ", 1)`) -/

/-- Characters of the first component of `split(" ", 1)`: everything up to the
first space character. -/
def splitFirstChars : List Char → List Char
  | [] => []
  | c :: cs => if c = ' ' then [] else c :: splitFirstChars cs

/-- Characters after the first space of `split(" ", 1)`, or `none` when the
string contains no space (Python then returns a one-element list). -/
def splitLastChars : List Char → Option (List Char)
  | [] => none
  | c :: cs => if c = ' ' then some cs else splitLastChars cs

/-- `name_parts[0]` of `full_name.split(" ", 1)`. -/
def splitFirstName (s : String) : String :=
  ⟨splitFirstChars s.data⟩

/-- `name_parts[1] if len(name_parts) > 1 else ""` of `full_name.split(" ", 1)`. -/
def splitLastName (s : String) : String :=
  match splitLastChars s.data with
  | some cs => ⟨cs⟩
  | none => ""

/-! ## Persisted rows (`db/models.py`)

Only the columns the ingest pipeline reads or writes are modelled; every other
column of the tables is never touched by the code under verification.  `sid` is
the autoincrement surrogate primary key where the table has one; `games.id` is
the externally-sourced game identifier itself (the records carry it as a
string). -/

/-- A row of the `teams` table. -/
structure Team where
  sid : Nat
  team_id : String
  name : String
  abbreviation : String
  city : Option String
  state : Option String
  conference : Option String
  division : Option String
  deriving DecidableEq, Repr

/-- A row of the `games` table. -/
structure Game where
  id : String
  game_date : Option DateVal
  season : Option Int
  season_type : Option String
  home_team_id : Option Nat
  away_team_id : Option Nat
  home_team_abbr : Option String
  away_team_abbr : Option String
  home_score : Option Int
  away_score : Option Int
  home_win : Option Bool
  arena : Option String
  attendance : Option Int
  duration_minutes : Option Int
  deriving DecidableEq, Repr

/-- A row of the `players` table (the columns `ingest_players` writes). -/
structure Player where
  sid : Nat
  player_id : String
  name : String
  first_name : String
  last_name : String
  team_id : Option Nat
  position : Option String
  height : Option String
  weight : Option Int
  birth_date : Option PyDate
  birth_place : Option String
  college : Option String
  draft_year : Option Int
  draft_round : Option Int
  draft_number : Option Int
  is_active : Bool
  jersey_number : Option String
  deriving DecidableEq, Repr

/-- A row of the `team_stats` table; `team_id` is NOT NULL and the create path
always resolves it, so it is a plain `Nat`. -/
structure TeamStats where
  team_id : Nat
  season : Int
  season_type : String
  games_played : Option Int
  wins : Option Int
  losses : Option Int
  win_percentage : Option ℚ
  points_per_game : Option ℚ
  field_goal_percentage : Option ℚ
  three_point_percentage : Option ℚ
  free_throw_percentage : Option ℚ
  offensive_rebounds_per_game : Option ℚ
  defensive_rebounds_per_game : Option ℚ
  assists_per_game : Option ℚ
  steals_per_game : Option ℚ
  blocks_per_game : Option ℚ
  turnovers_per_game : Option ℚ
  personal_fouls_per_game : Option ℚ
  pace : Option ℚ
  offensive_rating : Option ℚ
  defensive_rating : Option ℚ
  net_rating : Option ℚ
  deriving DecidableEq, Repr

/-- A row of the `player_season_stats` table; the column `team_id` is declared
NOT NULL but `create_player_stats_from_data` can stage `None` there, so it is
`Option Nat` and the commit-time constraint check rejects a `none`. -/
structure PlayerSeasonStats where
  player_id : Nat
  team_id : Option Nat
  season : Int
  season_type : String
  games_played : Option Int
  games_started : Option Int
  minutes_per_game : Option ℚ
  points_per_game : Option ℚ
  rebounds_per_game : Option ℚ
  assists_per_game : Option ℚ
  steals_per_game : Option ℚ
  blocks_per_game : Option ℚ
  turnovers_per_game : Option ℚ
  personal_fouls_per_game : Option ℚ
  field_goal_percentage : Option ℚ
  three_point_percentage : Option ℚ
  free_throw_percentage : Option ℚ
  true_shooting_percentage : Option ℚ
  effective_field_goal_percentage : Option ℚ
  offensive_rebound_percentage : Option ℚ
  defensive_rebound_percentage : Option ℚ
  assist_percentage : Option ℚ
  turnover_percentage : Option ℚ
  usage_percentage : Option ℚ
  player_efficiency_rating : Option ℚ
  deriving DecidableEq, Repr

/-! ## Fetched record dictionaries

A field of type `Option α` is `some v` when the key is present in the dict with
value `v`, and `none` when the key is absent; `Option (Option α)` additionally
allows a present key to hold Python `None`. -/

/-- A record produced by `get_teams` (keys of the dict built in
`nba_api_client_fixed.get_teams`; all values are strings). -/
structure TeamRecord where
  team_id : Option String
  name : Option String
  abbreviation : Option String
  city : Option String
  state : Option String
  conference : Option String
  division : Option String
  deriving DecidableEq, Repr

/-- A record produced by `get_games` (both client variants); `game_date` may be
a raw string or a date object, scores and metadata may be present-but-null. -/
structure GameRecord where
  game_id : Option String
  game_date : Option (Option DateVal)
  season : Option Int
  season_type : Option String
  home_team_abbr : Option String
  away_team_abbr : Option String
  home_score : Option (Option Int)
  away_score : Option (Option Int)
  home_win : Option (Option Bool)
  arena : Option (Option String)
  attendance : Option (Option Int)
  duration_minutes : Option (Option Int)
  deriving DecidableEq, Repr

/-- A record produced by `get_players`; `team_id` may be present-but-null and
`weight` is loosely typed (the parse guards handle it). -/
structure PlayerRecord where
  player_id : Option String
  name : Option String
  team_id : Option (Option String)
  position : Option String
  height : Option String
  weight : Option PyVal
  birth_date : Option String
  birth_place : Option String
  college : Option String
  draft_year : Option PyVal
  draft_round : Option PyVal
  draft_number : Option PyVal
  is_active : Option Bool
  jersey_number : Option String
  deriving DecidableEq, Repr

/-- A team-stats record as consumed by `ingest_team_stats`: a dict keyed by the
upstream header names; each field is the loosely-typed value of that key, with
`PyVal.vnone` standing for an absent key or a JSON null (`.get` collapses the
two for every use site in the code). -/
structure TeamStatRecord where
  tEAM_ID : PyVal
  gP : PyVal
  w : PyVal
  l : PyVal
  w_PCT : PyVal
  pTS : PyVal
  fG_PCT : PyVal
  fG3_PCT : PyVal
  fT_PCT : PyVal
  oREB : PyVal
  dREB : PyVal
  aST : PyVal
  sTL : PyVal
  bLK : PyVal
  tOV : PyVal
  pF : PyVal
  pACE : PyVal
  oFFRTG : PyVal
  dEFRTG : PyVal
  nETRTG : PyVal
  deriving DecidableEq, Repr

/-- A player-stats record as consumed by `ingest_player_stats`. -/
structure PlayerStatRecord where
  pLAYER_ID : PyVal
  tEAM_ID : PyVal
  gP : PyVal
  gS : PyVal
  mIN : PyVal
  pTS : PyVal
  rEB : PyVal
  aST : PyVal
  sTL : PyVal
  bLK : PyVal
  tOV : PyVal
  pF : PyVal
  fG_PCT : PyVal
  fG3_PCT : PyVal
  fT_PCT : PyVal
  tS_PCT : PyVal
  eFG_PCT : PyVal
  oREB_PCT : PyVal
  dREB_PCT : PyVal
  aST_PCT : PyVal
  tOV_PCT : PyVal
  uSG_PCT : PyVal
  pER : PyVal
  deriving DecidableEq, Repr

/-! ## Store and session model -/

/-- The committed database state, plus the autoincrement counters of the two
tables whose surrogate ids other rows reference. -/
structure Store where
  nextTeamSid : Nat
  nextPlayerSid : Nat
  teams : List Team
  players : List Player
  games : List Game
  teamStats : List TeamStats
  playerStats : List PlayerSeasonStats
  deriving DecidableEq, Repr

/-- The session state for one table during a batch: `rows` are the committed
rows with in-place updates applied (visible to queries through the identity
map), `added` are rows staged with `session.add` (invisible to queries because
`autoflush=False`), `next` is the autoincrement counter. -/
structure Staged (α : Type) where
  rows : List α
  added : List α
  next : Nat
  deriving DecidableEq, Repr

/-- The errors the embedded code can raise. -/
inductive PyErr where
  /-- `KeyError` from a `d[k]` access on a missing key. -/
  | keyError : PyErr
  /-- `ValueError` from `datetime.strptime` on a malformed date string. -/
  | valueError : PyErr
  /-- `IntegrityError`: a commit violating a UNIQUE or NOT NULL constraint. -/
  | integrityError : PyErr
  /-- `TypeError` from the SQLite `Date` bind processor at flush: a `Date`
  column bound to a value that is not a Python `date` object. -/
  | typeError : PyErr
  /-- a raw transport-level exception from the HTTP library, carrying a message. -/
  | transport : String → PyErr
  /-- a decode failure from `resp.json()` on a malformed 200 payload. -/
  | jsonDecode : PyErr
  /-- `NBAAPIError`, the dedicated fetch-error type of `nba_client.py`. -/
  | nbaApiError : PyErr
  deriving DecidableEq, Repr

/-- Is an exception the dedicated fetch-error type (`NBAAPIError`)? -/
def PyErr.isFetchError : PyErr → Bool
  | .nbaApiError => true
  | _ => false

/-- Mutate the first row matching `p` (what a `.first()` lookup followed by
attribute assignment does); later matches are untouched. -/
def updateFirst (p : α → Bool) (f : α → α) : List α → List α
  | [] => []
  | x :: xs => if p x then f x :: xs else x :: updateFirst p f xs

/-- `d.get(k)` composed over present-but-null: flattens the two `Option` layers. -/
def getJoin (v : Option (Option α)) : Option α :=
  match v with
  | some (some x) => some x
  | _ => none

/-- Copy a present dict value over a nullable column, keep the column otherwise. -/
def setIfPresent (new : Option α) (old : Option α) : Option α :=
  match new with
  | some v => some v
  | none => old

/-! ## `teams_ingest.ingest_teams` -/

/-- Row predicate of the lookup `Team.team_id == team_data["team_id"]`. -/
def teamMatches (tid : String) (t : Team) : Bool := t.team_id == tid

/-- The update branch of `ingest_teams`: `for key, value in team_data.items():
if hasattr(existing_team, key): setattr(existing_team, key, value)`.  Every key
a `get_teams` record can carry is an attribute of `Team`, so each present key
overwrites the column with the raw dict value. -/
def applyTeamUpdate (t : Team) (r : TeamRecord) : Team :=
  { t with
    team_id := r.team_id.getD t.team_id
    name := r.name.getD t.name
    abbreviation := r.abbreviation.getD t.abbreviation
    city := setIfPresent r.city t.city
    state := setIfPresent r.state t.state
    conference := setIfPresent r.conference t.conference
    division := setIfPresent r.division t.division }

/-- The create branch of `ingest_teams`: `Team(team_id=..., name=..., abbreviation=...,
city=team_data.get("city"), ...)`; `team_id`, `name` and `abbreviation` are indexed
directly and are supplied by the caller of this constructor. -/
def newTeamFromRecord (sid : Nat) (tid nm ab : String) (r : TeamRecord) : Team :=
  { sid := sid, team_id := tid, name := nm, abbreviation := ab,
    city := r.city, state := r.state, conference := r.conference, division := r.division }

/-- One iteration of the `for team_data in teams_data` loop of `ingest_teams`:
look up by external id (a `KeyError` on a missing `"team_id"` key aborts the
batch), update the existing row in place, or stage a new row. -/
def teamStep (st : Staged Team) (r : TeamRecord) : Except PyErr (Staged Team) :=
  match r.team_id with
  | none => .error .keyError
  | some tid =>
    match st.rows.find? (teamMatches tid) with
    | some _ =>
        .ok { st with rows := updateFirst (teamMatches tid) (fun t => applyTeamUpdate t r) st.rows }
    | none =>
        match r.name, r.abbreviation with
        | some nm, some ab =>
            .ok { st with added := st.added ++ [newTeamFromRecord st.next tid nm ab r],
                          next := st.next + 1 }
        | _, _ => .error .keyError

/-- The whole record loop of `ingest_teams`. -/
def teamLoop (st : Staged Team) : List TeamRecord → Except PyErr (Staged Team)
  | [] => .ok st
  | r :: rest =>
    match teamStep st r with
    | .ok st2 => teamLoop st2 rest
    | .error e => .error e

/-- `session.commit()` for a teams batch: flush the staged adds and enforce the
UNIQUE constraints on `teams.team_id` and `teams.abbreviation`. -/
def commitTeams (s : Store) (st : Staged Team) : Except PyErr Store :=
  if (((st.rows ++ st.added).map (·.team_id)).Nodup ∧
      ((st.rows ++ st.added).map (·.abbreviation)).Nodup) then
    .ok { s with teams := st.rows ++ st.added, nextTeamSid := st.next }
  else .error .integrityError

/-- `ingest_teams(session)`: process the batch, commit on success; on any raised
error roll the whole transaction back (the store is unchanged) and re-raise. -/
def ingest_teams (s : Store) (batch : List TeamRecord) : Store × Option PyErr :=
  match teamLoop ⟨s.teams, [], s.nextTeamSid⟩ batch with
  | .error e => (s, some e)
  | .ok st =>
      match commitTeams s st with
      | .ok s2 => (s2, none)
      | .error e => (s, some e)

/-! ## `games_ingest.ingest_games` -/

/-- Row predicate of the lookup `Game.id == game_data["game_id"]`. -/
def gameMatches (gid : String) (g : Game) : Bool := g.id == gid

/-- `get_team_by_abbreviation` from `games_ingest.py`: first team whose
`abbreviation` equals the upper-cased argument. -/
def get_team_by_abbreviation (teams : List Team) (ab : String) : Option Team :=
  teams.find? (fun t => t.abbreviation == pyUpper ab)

/-- The update branch of `ingest_games`: the generic `setattr` loop.  The key
`"game_id"` is skipped because `Game` has no attribute of that name (its primary
key is `id`); every other key of a `get_games` record is an attribute and is
overwritten with the raw dict value — note that no field is re-derived here. -/
def applyGameUpdate (g : Game) (r : GameRecord) : Game :=
  { g with
    game_date := r.game_date.getD g.game_date
    season := setIfPresent r.season g.season
    season_type := setIfPresent r.season_type g.season_type
    home_team_abbr := setIfPresent r.home_team_abbr g.home_team_abbr
    away_team_abbr := setIfPresent r.away_team_abbr g.away_team_abbr
    home_score := r.home_score.getD g.home_score
    away_score := r.away_score.getD g.away_score
    home_win := r.home_win.getD g.home_win
    arena := r.arena.getD g.arena
    attendance := r.attendance.getD g.attendance
    duration_minutes := r.duration_minutes.getD g.duration_minutes }

/-- The `game_date` handling of the create branch: a truthy string is parsed
with `strptime` (a parse failure raises `ValueError` and aborts the batch), a
date object is used as is, anything else leaves the field `None`. -/
def parseRecordGameDate (v : Option DateVal) : Except PyErr (Option PyDate) :=
  match v with
  | none => .ok none
  | some (.dstr s) =>
      if s = "" then .ok none
      else
        match parseDateISO? s with
        | some d => .ok (some d)
        | none => .error .valueError
  | some (.ddate d) => .ok (some d)

/-- The `home_win` derivation of the create branch of `ingest_games`:
`home_score > away_score` when both are present and non-null, else `None`. -/
def derivedHomeWin (r : GameRecord) : Option Bool :=
  match getJoin r.home_score, getJoin r.away_score with
  | some h, some a => some (decide (h > a))
  | _, _ => none

/-- The create branch of `ingest_games`: resolve the team references by
abbreviation (null when not found), parse the date, derive `home_win`, and
build the row with `season`/`season_type` taken from the function arguments. -/
def newGameFromRecord (season : Int) (stype : String) (teams : List Team)
    (gid ha aa : String) (gd : Option PyDate) (r : GameRecord) : Game :=
  { id := gid
    game_date := gd.map DateVal.ddate
    season := some season
    season_type := some stype
    home_team_id := (get_team_by_abbreviation teams ha).map (·.sid)
    away_team_id := (get_team_by_abbreviation teams aa).map (·.sid)
    home_team_abbr := some ha
    away_team_abbr := some aa
    home_score := getJoin r.home_score
    away_score := getJoin r.away_score
    home_win := derivedHomeWin r
    arena := getJoin r.arena
    attendance := getJoin r.attendance
    duration_minutes := getJoin r.duration_minutes }

/-- One iteration of the `for game_data in games_data` loop of `ingest_games`. -/
def gameStep (season : Int) (stype : String) (teams : List Team)
    (st : Staged Game) (r : GameRecord) : Except PyErr (Staged Game) :=
  match r.game_id with
  | none => .error .keyError
  | some gid =>
    match st.rows.find? (gameMatches gid) with
    | some _ =>
        .ok { st with rows := updateFirst (gameMatches gid) (fun g => applyGameUpdate g r) st.rows }
    | none =>
        match r.home_team_abbr, r.away_team_abbr with
        | some ha, some aa =>
            match parseRecordGameDate (getJoin r.game_date) with
            | .error e => .error e
            | .ok gd =>
                .ok { st with added := st.added ++ [newGameFromRecord season stype teams gid ha aa gd r] }
        | _, _ => .error .keyError

/-- The whole record loop of `ingest_games`. -/
def gameLoop (season : Int) (stype : String) (teams : List Team)
    (st : Staged Game) : List GameRecord → Except PyErr (Staged Game)
  | [] => .ok st
  | r :: rest =>
    match gameStep season stype teams st r with
    | .ok st2 => gameLoop season stype teams st2 rest
    | .error e => .error e

/-- Is a `game_date` column value a raw string (rather than a date object or
null)?  The SQLite `Date` bind processor rejects exactly these at flush. -/
def isStrDate : Option DateVal → Bool
  | some (.dstr _) => true
  | _ => false

/-- `session.commit()` for a games batch.  The flush first binds every written
row's columns — the SQLite `Date` type accepts only `date` objects or null for
`games.game_date`, so a raw string raises `TypeError` — and the database then
enforces the `games.id` primary key.  The real flush writes only the new and
the dirty rows; the check here ranges over the whole session because on every
store the program can produce the two coincide: the create path always stores
a parsed date or null, and a previously committed row passed this same check,
so a string-valued `game_date` can sit only in a row written by this batch. -/
def commitGames (s : Store) (st : Staged Game) : Except PyErr Store :=
  if (st.rows ++ st.added).all (fun g => !(isStrDate g.game_date)) then
    if ((st.rows ++ st.added).map (·.id)).Nodup then
      .ok { s with games := st.rows ++ st.added }
    else .error .integrityError
  else .error .typeError

/-- `ingest_games(season, season_type, session)` with rollback-and-reraise on
any error during processing or commit. -/
def ingest_games (season : Int) (stype : String) (s : Store) (batch : List GameRecord) :
    Store × Option PyErr :=
  match gameLoop season stype s.teams ⟨s.games, [], 0⟩ batch with
  | .error e => (s, some e)
  | .ok st =>
      match commitGames s st with
      | .ok s2 => (s2, none)
      | .error e => (s, some e)

/-! ## `players_ingest.ingest_players` -/

/-- Row predicate of the lookup `Player.player_id == player_data.get("player_id")`. -/
def playerMatches (pid : String) (p : Player) : Bool := p.player_id == pid

/-- The `if player_data.get(key): try: int(...) except: pass` idiom used for
`weight` and the draft fields: parse only a present truthy value, absorb
failures into `None`. -/
def parseGuardedInt (v : Option PyVal) : Option Int :=
  match v with
  | some x => if x.truthy then pyInt? x else none
  | none => none

/-- `create_player_from_data`: split the full name on the first space, parse
birth date and numeric fields best-effort, resolve the team reference by the
(stringified) external team id when truthy, and default `is_active` to `True`.
All exceptions inside are caught per helper, so construction is total. -/
def create_player_from_data (teams : List Team) (sid : Nat) (r : PlayerRecord) : Player :=
  let team : Option Team :=
    match getJoin r.team_id with
    | some tid => if tid ≠ "" then teams.find? (fun t => t.team_id == tid) else none
    | none => none
  let birth : Option PyDate :=
    match r.birth_date with
    | some s => if s ≠ "" then parseDateISO? s else none
    | none => none
  let full_name := r.name.getD ""
  { sid := sid
    player_id := r.player_id.getD ""
    name := full_name
    first_name := splitFirstName full_name
    last_name := splitLastName full_name
    team_id := team.map (·.sid)
    position := r.position
    height := r.height
    weight := parseGuardedInt r.weight
    birth_date := birth
    birth_place := r.birth_place
    college := r.college
    draft_year := parseGuardedInt r.draft_year
    draft_round := parseGuardedInt r.draft_round
    draft_number := parseGuardedInt r.draft_number
    is_active := r.is_active.getD true
    jersey_number := r.jersey_number }

/-- `if player_data.get(key): obj.field = value` — copy a truthy present string
over a non-null column. -/
def mergeStr (new : Option String) (old : String) : String :=
  match new with
  | some v => if v ≠ "" then v else old
  | none => old

/-- The same guard feeding a derived value `f v` into a column (used for the
first/last name splits that accompany a name assignment). -/
def mergeNamePart (new : Option String) (old : String) (f : String → String) : String :=
  match new with
  | some v => if v ≠ "" then f v else old
  | none => old

/-- `if player_data.get(key): obj.field = value` over a nullable column. -/
def mergeOptStr (new : Option String) (old : Option String) : Option String :=
  match new with
  | some v => if v ≠ "" then some v else old
  | none => old

/-- `if player_data.get("weight"): try: obj.weight = int(value) except: pass`. -/
def mergeWeight (new : Option PyVal) (old : Option Int) : Option Int :=
  match new with
  | some v =>
      if v.truthy then
        match pyInt? v with
        | some n => some n
        | none => old
      else old
  | none => old

/-- `update_player_data`: every handled field is copied only when its dict value
is truthy (`is_active` is the one presence-checked exception); `weight` is
additionally guarded by an `int(...)` parse whose failure leaves the column
unchanged.  Fields outside this set are never touched by the update path.  The
source performs these guarded assignments sequentially; they write disjoint
columns, so the simultaneous record update below is the same function. -/
def update_player_data (p : Player) (r : PlayerRecord) : Player :=
  { p with
    name := mergeStr r.name p.name
    first_name := mergeNamePart r.name p.first_name splitFirstName
    last_name := mergeNamePart r.name p.last_name splitLastName
    position := mergeOptStr r.position p.position
    height := mergeOptStr r.height p.height
    weight := mergeWeight r.weight p.weight
    jersey_number := mergeOptStr r.jersey_number p.jersey_number
    is_active := r.is_active.getD p.is_active }

/-- One iteration of the `for player_data in players_data` loop of
`ingest_players`; a record without a `player_id` key compares the column
against SQL NULL, matches nothing, and goes down the create path. -/
def playerStep (teams : List Team) (st : Staged Player) (r : PlayerRecord) : Staged Player :=
  match r.player_id with
  | some pid =>
      match st.rows.find? (playerMatches pid) with
      | some _ =>
          { st with rows := updateFirst (playerMatches pid) (fun p => update_player_data p r) st.rows }
      | none =>
          { st with added := st.added ++ [create_player_from_data teams st.next r],
                    next := st.next + 1 }
  | none =>
      { st with added := st.added ++ [create_player_from_data teams st.next r],
                next := st.next + 1 }

/-- The whole record loop of `ingest_players` (no per-record step can raise). -/
def playerLoop (teams : List Team) (st : Staged Player) : List PlayerRecord → Staged Player
  | [] => st
  | r :: rest => playerLoop teams (playerStep teams st r) rest

/-- `session.commit()` for a players batch: enforce UNIQUE on `players.player_id`. -/
def commitPlayers (s : Store) (st : Staged Player) : Except PyErr Store :=
  if (((st.rows ++ st.added).map (·.player_id)).Nodup) then
    .ok { s with players := st.rows ++ st.added, nextPlayerSid := st.next }
  else .error .integrityError

/-- `ingest_players(season, team_id, session)` with rollback on commit failure. -/
def ingest_players (s : Store) (batch : List PlayerRecord) : Store × Option PyErr :=
  match commitPlayers s (playerLoop s.teams ⟨s.players, [], s.nextPlayerSid⟩ batch) with
  | .ok s2 => (s2, none)
  | .error e => (s, some e)

/-! ## `stats_ingest.ingest_team_stats` -/

/-- Row predicate of the lookup on `(TeamStats.team_id, season, season_type)`. -/
def teamStatsMatches (teamSid : Nat) (season : Int) (stype : String) (ts : TeamStats) : Bool :=
  ts.team_id == teamSid && ts.season == season && ts.season_type == stype

/-- `create_team_stats_from_data`: every statistic goes through `safe_int` /
`safe_float`, so a missing or unparsable value is stored as `None`. -/
def create_team_stats_from_data (r : TeamStatRecord) (teamSid : Nat)
    (season : Int) (stype : String) : TeamStats :=
  { team_id := teamSid
    season := season
    season_type := stype
    games_played := safe_int r.gP
    wins := safe_int r.w
    losses := safe_int r.l
    win_percentage := safe_float r.w_PCT
    points_per_game := safe_float r.pTS
    field_goal_percentage := safe_float r.fG_PCT
    three_point_percentage := safe_float r.fG3_PCT
    free_throw_percentage := safe_float r.fT_PCT
    offensive_rebounds_per_game := safe_float r.oREB
    defensive_rebounds_per_game := safe_float r.dREB
    assists_per_game := safe_float r.aST
    steals_per_game := safe_float r.sTL
    blocks_per_game := safe_float r.bLK
    turnovers_per_game := safe_float r.tOV
    personal_fouls_per_game := safe_float r.pF
    pace := safe_float r.pACE
    offensive_rating := safe_float r.oFFRTG
    defensive_rating := safe_float r.dEFRTG
    net_rating := safe_float r.nETRTG }

/-- `update_team_stats`: each column is assigned
`safe_x(stat_data.get(KEY)) or existing` — a truthiness-based merge, so a parse
result of `None`, `0` or `0.0` keeps the stored value. -/
def update_team_stats (ts : TeamStats) (r : TeamStatRecord) : TeamStats :=
  { ts with
    games_played := pyOrInt (safe_int r.gP) ts.games_played
    wins := pyOrInt (safe_int r.w) ts.wins
    losses := pyOrInt (safe_int r.l) ts.losses
    win_percentage := pyOrRat (safe_float r.w_PCT) ts.win_percentage
    points_per_game := pyOrRat (safe_float r.pTS) ts.points_per_game
    field_goal_percentage := pyOrRat (safe_float r.fG_PCT) ts.field_goal_percentage
    three_point_percentage := pyOrRat (safe_float r.fG3_PCT) ts.three_point_percentage
    free_throw_percentage := pyOrRat (safe_float r.fT_PCT) ts.free_throw_percentage
    offensive_rebounds_per_game := pyOrRat (safe_float r.oREB) ts.offensive_rebounds_per_game
    defensive_rebounds_per_game := pyOrRat (safe_float r.dREB) ts.defensive_rebounds_per_game
    assists_per_game := pyOrRat (safe_float r.aST) ts.assists_per_game
    steals_per_game := pyOrRat (safe_float r.sTL) ts.steals_per_game
    blocks_per_game := pyOrRat (safe_float r.bLK) ts.blocks_per_game
    turnovers_per_game := pyOrRat (safe_float r.tOV) ts.turnovers_per_game
    personal_fouls_per_game := pyOrRat (safe_float r.pF) ts.personal_fouls_per_game
    pace := pyOrRat (safe_float r.pACE) ts.pace
    offensive_rating := pyOrRat (safe_float r.oFFRTG) ts.offensive_rating
    defensive_rating := pyOrRat (safe_float r.dEFRTG) ts.defensive_rating
    net_rating := pyOrRat (safe_float r.nETRTG) ts.net_rating }

/-- One iteration of the `for stat_data in stats_data` loop of
`ingest_team_stats`: a record whose `str(stat_data.get("TEAM_ID", ""))` matches
no stored team is skipped (`continue`) without raising. -/
def teamStatStep (season : Int) (stype : String) (teams : List Team)
    (st : Staged TeamStats) (r : TeamStatRecord) : Staged TeamStats :=
  match teams.find? (fun t => t.team_id == pyStrD (some r.tEAM_ID)) with
  | none => st
  | some t =>
      match st.rows.find? (teamStatsMatches t.sid season stype) with
      | some _ =>
          { st with rows := updateFirst (teamStatsMatches t.sid season stype)
                              (fun ts => update_team_stats ts r) st.rows }
      | none =>
          { st with added := st.added ++ [create_team_stats_from_data r t.sid season stype] }

/-- The whole record loop of `ingest_team_stats`. -/
def teamStatLoop (season : Int) (stype : String) (teams : List Team)
    (st : Staged TeamStats) : List TeamStatRecord → Staged TeamStats
  | [] => st
  | r :: rest => teamStatLoop season stype teams (teamStatStep season stype teams st r) rest

/-- `ingest_team_stats(season, season_type, session)`: the per-record helpers
swallow their exceptions and `team_stats` has no UNIQUE constraint and no
violable NOT NULL on this path, so the function is total. -/
def ingest_team_stats (season : Int) (stype : String) (s : Store)
    (batch : List TeamStatRecord) : Store :=
  { s with teamStats :=
      (teamStatLoop season stype s.teams ⟨s.teamStats, [], 0⟩ batch).rows ++
      (teamStatLoop season stype s.teams ⟨s.teamStats, [], 0⟩ batch).added }

/-! ## `stats_ingest.ingest_player_stats` -/

/-- Row predicate of the lookup on `(PlayerSeasonStats.player_id, season, season_type)`. -/
def playerStatsMatches (pSid : Nat) (season : Int) (stype : String)
    (ps : PlayerSeasonStats) : Bool :=
  ps.player_id == pSid && ps.season == season && ps.season_type == stype

/-- `create_player_stats_from_data`. -/
def create_player_stats_from_data (r : PlayerStatRecord) (pSid : Nat)
    (teamSid : Option Nat) (season : Int) (stype : String) : PlayerSeasonStats :=
  { player_id := pSid
    team_id := teamSid
    season := season
    season_type := stype
    games_played := safe_int r.gP
    games_started := safe_int r.gS
    minutes_per_game := safe_float r.mIN
    points_per_game := safe_float r.pTS
    rebounds_per_game := safe_float r.rEB
    assists_per_game := safe_float r.aST
    steals_per_game := safe_float r.sTL
    blocks_per_game := safe_float r.bLK
    turnovers_per_game := safe_float r.tOV
    personal_fouls_per_game := safe_float r.pF
    field_goal_percentage := safe_float r.fG_PCT
    three_point_percentage := safe_float r.fG3_PCT
    free_throw_percentage := safe_float r.fT_PCT
    true_shooting_percentage := safe_float r.tS_PCT
    effective_field_goal_percentage := safe_float r.eFG_PCT
    offensive_rebound_percentage := safe_float r.oREB_PCT
    defensive_rebound_percentage := safe_float r.dREB_PCT
    assist_percentage := safe_float r.aST_PCT
    turnover_percentage := safe_float r.tOV_PCT
    usage_percentage := safe_float r.uSG_PCT
    player_efficiency_rating := safe_float r.pER }

/-- `update_player_stats`: the same truthiness-based `or` merge as
`update_team_stats`, over the player statistic columns. -/
def update_player_stats (ps : PlayerSeasonStats) (r : PlayerStatRecord) : PlayerSeasonStats :=
  { ps with
    games_played := pyOrInt (safe_int r.gP) ps.games_played
    games_started := pyOrInt (safe_int r.gS) ps.games_started
    minutes_per_game := pyOrRat (safe_float r.mIN) ps.minutes_per_game
    points_per_game := pyOrRat (safe_float r.pTS) ps.points_per_game
    rebounds_per_game := pyOrRat (safe_float r.rEB) ps.rebounds_per_game
    assists_per_game := pyOrRat (safe_float r.aST) ps.assists_per_game
    steals_per_game := pyOrRat (safe_float r.sTL) ps.steals_per_game
    blocks_per_game := pyOrRat (safe_float r.bLK) ps.blocks_per_game
    turnovers_per_game := pyOrRat (safe_float r.tOV) ps.turnovers_per_game
    personal_fouls_per_game := pyOrRat (safe_float r.pF) ps.personal_fouls_per_game
    field_goal_percentage := pyOrRat (safe_float r.fG_PCT) ps.field_goal_percentage
    three_point_percentage := pyOrRat (safe_float r.fG3_PCT) ps.three_point_percentage
    free_throw_percentage := pyOrRat (safe_float r.fT_PCT) ps.free_throw_percentage
    true_shooting_percentage := pyOrRat (safe_float r.tS_PCT) ps.true_shooting_percentage
    effective_field_goal_percentage := pyOrRat (safe_float r.eFG_PCT) ps.effective_field_goal_percentage
    offensive_rebound_percentage := pyOrRat (safe_float r.oREB_PCT) ps.offensive_rebound_percentage
    defensive_rebound_percentage := pyOrRat (safe_float r.dREB_PCT) ps.defensive_rebound_percentage
    assist_percentage := pyOrRat (safe_float r.aST_PCT) ps.assist_percentage
    turnover_percentage := pyOrRat (safe_float r.tOV_PCT) ps.turnover_percentage
    usage_percentage := pyOrRat (safe_float r.uSG_PCT) ps.usage_percentage
    player_efficiency_rating := pyOrRat (safe_float r.pER) ps.player_efficiency_rating }

/-- One iteration of the record loop of `ingest_player_stats`: a record whose
`str(stat_data.get("PLAYER_ID", ""))` matches no stored player is skipped; the
team reference is resolved only when `stat_data.get("TEAM_ID")` is truthy and
may stay null on the created row. -/
def playerStatStep (season : Int) (stype : String) (teams : List Team) (players : List Player)
    (st : Staged PlayerSeasonStats) (r : PlayerStatRecord) : Staged PlayerSeasonStats :=
  match players.find? (fun p => p.player_id == pyStrD (some r.pLAYER_ID)) with
  | none => st
  | some p =>
      let team : Option Team :=
        if r.tEAM_ID.truthy then teams.find? (fun t => t.team_id == pyStr r.tEAM_ID) else none
      match st.rows.find? (playerStatsMatches p.sid season stype) with
      | some _ =>
          { st with rows := updateFirst (playerStatsMatches p.sid season stype)
                              (fun ps => update_player_stats ps r) st.rows }
      | none =>
          { st with added := st.added ++
              [create_player_stats_from_data r p.sid (team.map (·.sid)) season stype] }

/-- The whole record loop of `ingest_player_stats`. -/
def playerStatLoop (season : Int) (stype : String) (teams : List Team) (players : List Player)
    (st : Staged PlayerSeasonStats) : List PlayerStatRecord → Staged PlayerSeasonStats
  | [] => st
  | r :: rest =>
      playerStatLoop season stype teams players (playerStatStep season stype teams players st r) rest

/-- `session.commit()` for a player-stats batch: `player_season_stats.team_id`
is declared NOT NULL, so flushing a staged row whose team reference could not
be resolved raises `IntegrityError`. -/
def commitPlayerStats (s : Store) (st : Staged PlayerSeasonStats) : Except PyErr Store :=
  if st.added.all (fun ps => ps.team_id.isSome) then
    .ok { s with playerStats := st.rows ++ st.added }
  else .error .integrityError

/-- `ingest_player_stats(season, season_type, team_id, session)` with rollback
on commit failure. -/
def ingest_player_stats (season : Int) (stype : String) (s : Store)
    (batch : List PlayerStatRecord) : Store × Option PyErr :=
  match commitPlayerStats s (playerStatLoop season stype s.teams s.players
      ⟨s.playerStats, [], 0⟩ batch) with
  | .ok s2 => (s2, none)
  | .error e => (s, some e)

/-! ## `nba_api_client_fixed.NBAAPIClientFixed._safe_api_call`

`for attempt in range(self.max_retries): try: return api_call(...) except e:
if attempt == self.max_retries - 1: raise e; sleep(...)`.  The wrapper counts
one attempt per invocation of the backing call; on the final failed attempt the
*raw* exception object is re-raised.  With `max_retries = 0` the loop body
never runs and the function falls through, returning Python `None` (`none` in
the outer `Option`). -/

/-- The retry loop of `_safe_api_call`, by attempt index `i` and remaining
attempts; returns the outcome (`none` = fell through returning Python `None`)
and the number of attempts made. -/
def safeGo (call : Nat → Except PyErr α) : Nat → Nat → Option (Except PyErr α) × Nat
  | _, 0 => (none, 0)
  | i, n + 1 =>
    match call i with
    | .ok a => (some (.ok a), 1)
    | .error e =>
        if n = 0 then (some (.error e), 1)
        else
          let res := safeGo call (i + 1) n
          (res.1, res.2 + 1)

/-- `_safe_api_call(api_call, ...)` with the configured `max_retries`. -/
def safeApiCall (maxRetries : Nat) (call : Nat → Except PyErr α) :
    Option (Except PyErr α) × Nat :=
  safeGo call 0 maxRetries

/-! ## `nba_client.NBAAPIClient._get` -/

/-- What one HTTP request can come back with: a 200 whose body parses (or not),
another status code, a timeout, or a transport-level request exception. -/
inductive HttpEvent (α : Type) where
  | ok (payload : Option α)
  | status (code : Nat)
  | timeout
  | reqError (msg : String)

/-- The status codes `_get` sleeps on and retries. -/
def retryableStatus (c : Nat) : Bool :=
  c == 429 || c == 500 || c == 502 || c == 503 || c == 504

/-- The retry loop of `_get`: a 200 returns `resp.json()` (a malformed body
raises the raw decode error, which none of the handlers catch); a retryable
status sleeps and continues, with the fall-through after the loop raising
`NBAAPIError`; any other status raises `NBAAPIError` at once; a timeout or
request exception retries until the last attempt and then raises `NBAAPIError`.
Returns the outcome and the number of HTTP requests issued. -/
def clientGetGo (events : Nat → HttpEvent α) : Nat → Nat → Except PyErr α × Nat
  | _, 0 => (.error .nbaApiError, 0)
  | i, n + 1 =>
    match events i with
    | .ok (some a) => (.ok a, 1)
    | .ok none => (.error .jsonDecode, 1)
    | .status c =>
        if retryableStatus c then
          let res := clientGetGo events (i + 1) n
          (res.1, res.2 + 1)
        else (.error .nbaApiError, 1)
    | .timeout =>
        if n = 0 then (.error .nbaApiError, 1)
        else
          let res := clientGetGo events (i + 1) n
          (res.1, res.2 + 1)
    | .reqError _ =>
        if n = 0 then (.error .nbaApiError, 1)
        else
          let res := clientGetGo events (i + 1) n
          (res.1, res.2 + 1)

/-- `NBAAPIClient._get(endpoint, params)` with the configured `max_retries`. -/
def clientGet (maxRetries : Nat) (events : Nat → HttpEvent α) : Except PyErr α × Nat :=
  clientGetGo events 0 maxRetries

/-! ## Record normalisation in `NBAAPIClientFixed.get_games` / `get_team_stats` -/

/-- One row of the scoreboard dataframe as `get_games` reads it; an `Option`
field is `none` when `pd.notna` is false for that cell. -/
structure ScoreboardRow where
  gAME_ID : PyVal
  gAME_DATE_EST : Option DateVal
  hOME_TEAM_ABBREVIATION : String
  vISITOR_TEAM_ABBREVIATION : String
  hOME_TEAM_SCORE : Option Int
  vISITOR_TEAM_SCORE : Option Int
  aRENA : Option String
  aTTENDANCE : Option Int
  deriving DecidableEq, Repr

/-- The dict built per row in `get_games` (lines 149–167 of
`nba_api_client_fixed.py`): a missing score or attendance becomes `0`, a
missing arena becomes `""`, and `home_win` is `False` unless both raw scores
are present, in which case it is recomputed from the 0-defaulted coercions. -/
def normalizeGameRow (season : Int) (stype : String) (row : ScoreboardRow) : GameRecord :=
  let hs := row.hOME_TEAM_SCORE.getD 0
  let aw := row.vISITOR_TEAM_SCORE.getD 0
  { game_id := some (pyStr row.gAME_ID)
    game_date := some row.gAME_DATE_EST
    season := some season
    season_type := some stype
    home_team_abbr := some row.hOME_TEAM_ABBREVIATION
    away_team_abbr := some row.vISITOR_TEAM_ABBREVIATION
    home_score := some (some hs)
    away_score := some (some aw)
    home_win := some (some
      (if row.hOME_TEAM_SCORE.isSome && row.vISITOR_TEAM_SCORE.isSome
       then decide (hs > aw) else false))
    arena := some (some (row.aRENA.getD ""))
    attendance := some (some (row.aTTENDANCE.getD 0))
    duration_minutes := none }

/-- One row of the league team-stats dataframe as `get_team_stats` reads it. -/
structure TeamStatsApiRow where
  tEAM_ID : PyVal
  tEAM_NAME : String
  gP : Option Int
  w : Option Int
  l : Option Int
  w_PCT : Option ℚ
  pTS : Option ℚ
  rEB : Option ℚ
  aST : Option ℚ
  sTL : Option ℚ
  bLK : Option ℚ
  tOV : Option ℚ
  fG_PCT : Option ℚ
  fG3_PCT : Option ℚ
  fT_PCT : Option ℚ
  deriving DecidableEq, Repr

/-- The dict built per row in `get_team_stats` (lines 194–213): every counting
statistic defaults to `0` and every rate statistic to `0.0` when the cell is
missing — the normalized record has no way to express absence. -/
structure NormalizedTeamStat where
  team_id : String
  team_name : String
  season : Int
  season_type : String
  games_played : Int
  wins : Int
  losses : Int
  win_percentage : ℚ
  points_per_game : ℚ
  rebounds_per_game : ℚ
  assists_per_game : ℚ
  steals_per_game : ℚ
  blocks_per_game : ℚ
  turnovers_per_game : ℚ
  field_goal_percentage : ℚ
  three_point_percentage : ℚ
  free_throw_percentage : ℚ
  deriving DecidableEq, Repr

/-- The normalisation of `get_team_stats`. -/
def normalizeTeamStatRow (season : Int) (stype : String) (row : TeamStatsApiRow) :
    NormalizedTeamStat :=
  { team_id := pyStr row.tEAM_ID
    team_name := row.tEAM_NAME
    season := season
    season_type := stype
    games_played := row.gP.getD 0
    wins := row.w.getD 0
    losses := row.l.getD 0
    win_percentage := row.w_PCT.getD 0
    points_per_game := row.pTS.getD 0
    rebounds_per_game := row.rEB.getD 0
    assists_per_game := row.aST.getD 0
    steals_per_game := row.sTL.getD 0
    blocks_per_game := row.bLK.getD 0
    turnovers_per_game := row.tOV.getD 0
    field_goal_percentage := row.fG_PCT.getD 0
    three_point_percentage := row.fG3_PCT.getD 0
    free_throw_percentage := row.fT_PCT.getD 0 }

/-! ## Sequences of ingest invocations -/

/-- One ingest invocation, as the CLI front-end can issue them in any order. -/
inductive IngestOp where
  | opTeams (batch : List TeamRecord)
  | opGames (season : Int) (stype : String) (batch : List GameRecord)
  | opPlayers (batch : List PlayerRecord)
  | opTeamStats (season : Int) (stype : String) (batch : List TeamStatRecord)
  | opPlayerStats (season : Int) (stype : String) (batch : List PlayerStatRecord)

/-- The store after one ingest invocation (a raised error leaves the rolled-back
store behind, which is what the next invocation sees). -/
def runOp (s : Store) : IngestOp → Store
  | .opTeams b => (ingest_teams s b).1
  | .opGames season stype b => (ingest_games season stype s b).1
  | .opPlayers b => (ingest_players s b).1
  | .opTeamStats season stype b => ingest_team_stats season stype s b
  | .opPlayerStats season stype b => (ingest_player_stats season stype s b).1

/-- The store after a sequence of ingest invocations. -/
def runOps (s : Store) : List IngestOp → Store
  | [] => s
  | op :: rest => runOps (runOp s op) rest

/-- No two persisted rows share an external identifier (`teams.team_id`,
`players.player_id`, `games.id`). -/
def ExtIdsUnique (s : Store) : Prop :=
  (s.teams.map (·.team_id)).Nodup ∧ (s.players.map (·.player_id)).Nodup ∧
    (s.games.map (·.id)).Nodup

instance : DecidablePred ExtIdsUnique := fun s => by
  unfold ExtIdsUnique; infer_instance

/-! ## Predicates used by the theorems -/

/-- The spec's per-row derived-field invariant for games, as a decidable check:
with both scores present `home_win` must equal `home_score > away_score`, and
with either score missing `home_win` must be null. -/
def gameDerivedOk (g : Game) : Bool :=
  match g.home_score, g.away_score with
  | some h, some a => g.home_win == some (decide (h > a))
  | _, _ => g.home_win == none

/-- A team row has absorbed a record: every key present in the record already
holds the record's value, so the `setattr` update loop leaves the row fixed. -/
def TeamAbsorbed (r : TeamRecord) (t : Team) : Prop :=
  (∀ v, r.team_id = some v → t.team_id = v) ∧
  (∀ v, r.name = some v → t.name = v) ∧
  (∀ v, r.abbreviation = some v → t.abbreviation = v) ∧
  (∀ v, r.city = some v → t.city = some v) ∧
  (∀ v, r.state = some v → t.state = some v) ∧
  (∀ v, r.conference = some v → t.conference = some v) ∧
  (∀ v, r.division = some v → t.division = some v)

/-- A game row has absorbed a record (w.r.t. the raw `setattr` update loop). -/
def GameAbsorbed (r : GameRecord) (g : Game) : Prop :=
  (∀ v, r.game_date = some v → g.game_date = v) ∧
  (∀ v, r.season = some v → g.season = some v) ∧
  (∀ v, r.season_type = some v → g.season_type = some v) ∧
  (∀ v, r.home_team_abbr = some v → g.home_team_abbr = some v) ∧
  (∀ v, r.away_team_abbr = some v → g.away_team_abbr = some v) ∧
  (∀ v, r.home_score = some v → g.home_score = v) ∧
  (∀ v, r.away_score = some v → g.away_score = v) ∧
  (∀ v, r.home_win = some v → g.home_win = v) ∧
  (∀ v, r.arena = some v → g.arena = v) ∧
  (∀ v, r.attendance = some v → g.attendance = v) ∧
  (∀ v, r.duration_minutes = some v → g.duration_minutes = v)

/-- A games record whose raw dict values agree with what the create path
derives from it: no raw string date (the create path stores the parsed date,
the update path would store the string), a `home_win` value equal to the
derived one, and `season`/`season_type` values equal to the ingest arguments
(the create path takes them from the arguments, the update path from the
record). -/
def GameCoherent (season : Int) (stype : String) (r : GameRecord) : Prop :=
  (∀ u, r.game_date ≠ some (some (DateVal.dstr u))) ∧
  (∀ v, r.home_win = some v → v = derivedHomeWin r) ∧
  (∀ v, r.season = some v → v = season) ∧
  (∀ v, r.season_type = some v → v = stype)

/-- A player row has absorbed a record w.r.t. `update_player_data`'s
truthiness-guarded field copies. -/
def PlayerAbsorbed (r : PlayerRecord) (p : Player) : Prop :=
  (∀ nm, r.name = some nm → nm ≠ "" →
     p.name = nm ∧ p.first_name = splitFirstName nm ∧ p.last_name = splitLastName nm) ∧
  (∀ v, r.position = some v → v ≠ "" → p.position = some v) ∧
  (∀ v, r.height = some v → v ≠ "" → p.height = some v) ∧
  (∀ v n, r.weight = some v → v.truthy = true → pyInt? v = some n → p.weight = some n) ∧
  (∀ v, r.jersey_number = some v → v ≠ "" → p.jersey_number = some v) ∧
  (∀ b, r.is_active = some b → p.is_active = b)

/-- A team-stats row has absorbed a record w.r.t. the truthiness-based `or`
merge of `update_team_stats`: every truthily-parsed statistic already holds the
parsed value. -/
def TeamStatsAbsorbed (r : TeamStatRecord) (ts : TeamStats) : Prop :=
  (∀ n, safe_int r.gP = some n → n ≠ 0 → ts.games_played = some n) ∧
  (∀ n, safe_int r.w = some n → n ≠ 0 → ts.wins = some n) ∧
  (∀ n, safe_int r.l = some n → n ≠ 0 → ts.losses = some n) ∧
  (∀ q, safe_float r.w_PCT = some q → q ≠ 0 → ts.win_percentage = some q) ∧
  (∀ q, safe_float r.pTS = some q → q ≠ 0 → ts.points_per_game = some q) ∧
  (∀ q, safe_float r.fG_PCT = some q → q ≠ 0 → ts.field_goal_percentage = some q) ∧
  (∀ q, safe_float r.fG3_PCT = some q → q ≠ 0 → ts.three_point_percentage = some q) ∧
  (∀ q, safe_float r.fT_PCT = some q → q ≠ 0 → ts.free_throw_percentage = some q) ∧
  (∀ q, safe_float r.oREB = some q → q ≠ 0 → ts.offensive_rebounds_per_game = some q) ∧
  (∀ q, safe_float r.dREB = some q → q ≠ 0 → ts.defensive_rebounds_per_game = some q) ∧
  (∀ q, safe_float r.aST = some q → q ≠ 0 → ts.assists_per_game = some q) ∧
  (∀ q, safe_float r.sTL = some q → q ≠ 0 → ts.steals_per_game = some q) ∧
  (∀ q, safe_float r.bLK = some q → q ≠ 0 → ts.blocks_per_game = some q) ∧
  (∀ q, safe_float r.tOV = some q → q ≠ 0 → ts.turnovers_per_game = some q) ∧
  (∀ q, safe_float r.pF = some q → q ≠ 0 → ts.personal_fouls_per_game = some q) ∧
  (∀ q, safe_float r.pACE = some q → q ≠ 0 → ts.pace = some q) ∧
  (∀ q, safe_float r.oFFRTG = some q → q ≠ 0 → ts.offensive_rating = some q) ∧
  (∀ q, safe_float r.dEFRTG = some q → q ≠ 0 → ts.defensive_rating = some q) ∧
  (∀ q, safe_float r.nETRTG = some q → q ≠ 0 → ts.net_rating = some q)

/-- A player-stats row has absorbed a record w.r.t. `update_player_stats`. -/
def PlayerStatsAbsorbed (r : PlayerStatRecord) (ps : PlayerSeasonStats) : Prop :=
  (∀ n, safe_int r.gP = some n → n ≠ 0 → ps.games_played = some n) ∧
  (∀ n, safe_int r.gS = some n → n ≠ 0 → ps.games_started = some n) ∧
  (∀ q, safe_float r.mIN = some q → q ≠ 0 → ps.minutes_per_game = some q) ∧
  (∀ q, safe_float r.pTS = some q → q ≠ 0 → ps.points_per_game = some q) ∧
  (∀ q, safe_float r.rEB = some q → q ≠ 0 → ps.rebounds_per_game = some q) ∧
  (∀ q, safe_float r.aST = some q → q ≠ 0 → ps.assists_per_game = some q) ∧
  (∀ q, safe_float r.sTL = some q → q ≠ 0 → ps.steals_per_game = some q) ∧
  (∀ q, safe_float r.bLK = some q → q ≠ 0 → ps.blocks_per_game = some q) ∧
  (∀ q, safe_float r.tOV = some q → q ≠ 0 → ps.turnovers_per_game = some q) ∧
  (∀ q, safe_float r.pF = some q → q ≠ 0 → ps.personal_fouls_per_game = some q) ∧
  (∀ q, safe_float r.fG_PCT = some q → q ≠ 0 → ps.field_goal_percentage = some q) ∧
  (∀ q, safe_float r.fG3_PCT = some q → q ≠ 0 → ps.three_point_percentage = some q) ∧
  (∀ q, safe_float r.fT_PCT = some q → q ≠ 0 → ps.free_throw_percentage = some q) ∧
  (∀ q, safe_float r.tS_PCT = some q → q ≠ 0 → ps.true_shooting_percentage = some q) ∧
  (∀ q, safe_float r.eFG_PCT = some q → q ≠ 0 → ps.effective_field_goal_percentage = some q) ∧
  (∀ q, safe_float r.oREB_PCT = some q → q ≠ 0 → ps.offensive_rebound_percentage = some q) ∧
  (∀ q, safe_float r.dREB_PCT = some q → q ≠ 0 → ps.defensive_rebound_percentage = some q) ∧
  (∀ q, safe_float r.aST_PCT = some q → q ≠ 0 → ps.assist_percentage = some q) ∧
  (∀ q, safe_float r.tOV_PCT = some q → q ≠ 0 → ps.turnover_percentage = some q) ∧
  (∀ q, safe_float r.uSG_PCT = some q → q ≠ 0 → ps.usage_percentage = some q) ∧
  (∀ q, safe_float r.pER = some q → q ≠ 0 → ps.player_efficiency_rating = some q)

/-- The spec's reading of name splitting, written from the spec's own words for
comparison with the code: "first-name = first whitespace-delimited token". -/
def specFirstWhitespaceToken (s : String) : String :=
  ⟨(s.data.dropWhile Char.isWhitespace).takeWhile (fun c => !c.isWhitespace)⟩

/-! ## Concrete sample data for witnesses and counterexamples -/

/-- The empty store (a freshly initialised database). -/
def storeEmpty : Store :=
  { nextTeamSid := 1, nextPlayerSid := 1, teams := [], players := [],
    games := [], teamStats := [], playerStats := [] }

/-- A full teams record as `get_teams` produces it. -/
def lakersRecord : TeamRecord :=
  { team_id := some "1610612747", name := some "Los Angeles Lakers",
    abbreviation := some "LAL", city := some "Los Angeles", state := some "CA",
    conference := some "West", division := some "Pacific" }

/-- A second teams record with a distinct identifier and abbreviation. -/
def celticsRecord : TeamRecord :=
  { team_id := some "1610612738", name := some "Boston Celtics",
    abbreviation := some "BOS", city := some "Boston", state := some "MA",
    conference := some "East", division := some "Atlantic" }

/-- Scenario 2, first ingest: a game with `home_score=108`, `away_score=104`. -/
def gameRec108 : GameRecord :=
  { game_id := some "0022300001", game_date := none, season := none, season_type := none,
    home_team_abbr := some "LAL", away_team_abbr := some "BOS",
    home_score := some (some 108), away_score := some (some 104),
    home_win := none, arena := none, attendance := none, duration_minutes := none }

/-- Scenario 2, re-ingest: the same external game id with `away_score=110` and
no `home_score` supplied. -/
def gameRecAway110 : GameRecord :=
  { game_id := some "0022300001", game_date := none, season := none, season_type := none,
    home_team_abbr := none, away_team_abbr := none,
    home_score := none, away_score := some (some 110),
    home_win := none, arena := none, attendance := none, duration_minutes := none }

/-- A games record whose `game_date` is a raw (parseable) date string, as both
client variants deliver it. -/
def gameRecStrDate : GameRecord :=
  { game_id := some "0022300002", game_date := some (some (DateVal.dstr "2024-01-15")),
    season := none, season_type := none,
    home_team_abbr := some "LAL", away_team_abbr := some "BOS",
    home_score := none, away_score := none,
    home_win := none, arena := none, attendance := none, duration_minutes := none }

/-- A games record whose `game_date` string does not parse: `strptime` raises. -/
def gameRecBadDate : GameRecord :=
  { game_id := some "0022300003", game_date := some (some (DateVal.dstr "not-a-date")),
    season := none, season_type := none,
    home_team_abbr := some "MIA", away_team_abbr := some "NYK",
    home_score := none, away_score := none,
    home_win := none, arena := none, attendance := none, duration_minutes := none }

/-- A coherent games record (already-parsed date, no derived keys). -/
def gameRecCoherent : GameRecord :=
  { game_id := some "0022300004", game_date := some (some (DateVal.ddate ⟨2024, 1, 15⟩)),
    season := none, season_type := none,
    home_team_abbr := some "LAL", away_team_abbr := some "BOS",
    home_score := some (some 120), away_score := some (some 113),
    home_win := none, arena := some (some "Crypto.com Arena"),
    attendance := some (some 18997), duration_minutes := none }

/-- Scenario 3: a player record with full name `"LeBron James"`. -/
def lebronRecord : PlayerRecord :=
  { player_id := some "2544", name := some "LeBron James", team_id := none,
    position := some "F", height := some "6-9", weight := some (PyVal.vint 250),
    birth_date := none, birth_place := none, college := none,
    draft_year := none, draft_round := none, draft_number := none,
    is_active := some true, jersey_number := some "23" }

/-- A player record whose full name contains a tab, not a space. -/
def lebronTabRecord : PlayerRecord :=
  { player_id := some "2544", name := some "LeBron\tJames", team_id := none,
    position := none, height := none, weight := none,
    birth_date := none, birth_place := none, college := none,
    draft_year := none, draft_round := none, draft_number := none,
    is_active := none, jersey_number := none }

/-- An update record that carries a present-but-empty `position`. -/
def emptyPositionRecord : PlayerRecord :=
  { player_id := some "2544", name := none, team_id := none, position := some "",
    height := none, weight := none, birth_date := none, birth_place := none,
    college := none, draft_year := none, draft_round := none, draft_number := none,
    is_active := none, jersey_number := none }

/-- A stored player row with a non-empty position, for the update scenarios. -/
def storedPlayerRow : Player :=
  { sid := 1, player_id := "2544", name := "LeBron James", first_name := "LeBron",
    last_name := "James", team_id := none, position := some "G", height := none,
    weight := none, birth_date := none, birth_place := none, college := none,
    draft_year := none, draft_round := none, draft_number := none,
    is_active := true, jersey_number := none }

/-- A store holding one committed team, for the stats scenarios. -/
def storeWithTeam : Store :=
  { nextTeamSid := 6, nextPlayerSid := 1,
    teams := [{ sid := 5, team_id := "77", name := "Los Angeles Lakers",
                abbreviation := "LAL", city := none, state := none,
                conference := none, division := none }],
    players := [], games := [], teamStats := [], playerStats := [] }

/-- A store holding one committed team and one committed player. -/
def storeWithPlayer : Store :=
  { storeWithTeam with nextPlayerSid := 4, players := [storedPlayerRow] }

/-- A team-stats record whose `TEAM_ID` matches the team of `storeWithTeam`. -/
def statRecKnown : TeamStatRecord :=
  { tEAM_ID := PyVal.vint 77, gP := PyVal.vint 82, w := PyVal.vint 50, l := PyVal.vint 32,
    w_PCT := PyVal.vflt (61/100), pTS := PyVal.vflt 115, fG_PCT := PyVal.vnone,
    fG3_PCT := PyVal.vnone, fT_PCT := PyVal.vnone, oREB := PyVal.vnone, dREB := PyVal.vnone,
    aST := PyVal.vnone, sTL := PyVal.vnone, bLK := PyVal.vnone, tOV := PyVal.vnone,
    pF := PyVal.vnone, pACE := PyVal.vnone, oFFRTG := PyVal.vnone, dEFRTG := PyVal.vnone,
    nETRTG := PyVal.vnone }

/-- Scenario 5: a team-stats record for a team not present in the store. -/
def statRecUnknownTeam : TeamStatRecord :=
  { statRecKnown with tEAM_ID := PyVal.vint 99 }

/-- A player-stats record whose `PLAYER_ID` matches `storedPlayerRow` and whose
`TEAM_ID` matches the team of `storeWithTeam`. -/
def pstatRecKnown : PlayerStatRecord :=
  { pLAYER_ID := PyVal.vstr "2544", tEAM_ID := PyVal.vint 77,
    gP := PyVal.vint 71, gS := PyVal.vint 71, mIN := PyVal.vflt 35,
    pTS := PyVal.vflt (257/10), rEB := PyVal.vflt (73/10), aST := PyVal.vflt (83/10),
    sTL := PyVal.vnone, bLK := PyVal.vnone, tOV := PyVal.vnone, pF := PyVal.vnone,
    fG_PCT := PyVal.vnone, fG3_PCT := PyVal.vnone, fT_PCT := PyVal.vnone,
    tS_PCT := PyVal.vnone, eFG_PCT := PyVal.vnone, oREB_PCT := PyVal.vnone,
    dREB_PCT := PyVal.vnone, aST_PCT := PyVal.vnone, tOV_PCT := PyVal.vnone,
    uSG_PCT := PyVal.vnone, pER := PyVal.vnone }

/-- A player-stats record for a player not present in the store. -/
def pstatRecUnknownPlayer : PlayerStatRecord :=
  { pstatRecKnown with pLAYER_ID := PyVal.vstr "9999" }

/-- Scenario 4's backing source: every call raises a raw transport exception. -/
def alwaysTransportFail : Nat → Except PyErr Unit :=
  fun _ => .error (.transport "connection refused")

/-- A backing transport that times out on every request. -/
def alwaysTimeout : Nat → HttpEvent Unit :=
  fun _ => .timeout

/-- A backing transport that answers every request with a 404. -/
def always404 : Nat → HttpEvent Unit :=
  fun _ => .status 404

/-- A scoreboard row whose home score cell is missing (`pd.notna` false). -/
def sbRowMissingHome : ScoreboardRow :=
  { gAME_ID := PyVal.vstr "0022301234", gAME_DATE_EST := none,
    hOME_TEAM_ABBREVIATION := "LAL", vISITOR_TEAM_ABBREVIATION := "BOS",
    hOME_TEAM_SCORE := none, vISITOR_TEAM_SCORE := some 99,
    aRENA := none, aTTENDANCE := none }

/-- A scoreboard row whose visitor score cell is missing (`pd.notna` false)
while the home score is present; the date cell is a JSON null (`None` in the
object-dtype frame), which `get_games` copies through raw, so the update
path's `setattr` re-writes `None` and the flush stays clean. -/
def sbRowMissingAway : ScoreboardRow :=
  { gAME_ID := PyVal.vstr "0022300777", gAME_DATE_EST := none,
    hOME_TEAM_ABBREVIATION := "LAL", vISITOR_TEAM_ABBREVIATION := "BOS",
    hOME_TEAM_SCORE := some 103, vISITOR_TEAM_SCORE := none,
    aRENA := none, aTTENDANCE := none }

/-- The record `get_games` fetches from `sbRowMissingAway`: the missing away
score defaults to `0` while `home_win` stays `False` (the `pd.notna` guard saw
a missing raw cell) — so the record's `home_win` contradicts
`home_score > away_score` over its own 0-defaulted scores. -/
def gameRecMismatch : GameRecord :=
  normalizeGameRow 2023 "Regular Season" sbRowMissingAway

/-- The game row that the create path stages for `gameRec108`. -/
def gameRow108 : Game :=
  newGameFromRecord 2023 "Regular Season" [] "0022300001" "LAL" "BOS" none gameRec108

/-- A stored team-stats row with non-zero statistics. -/
def tsRowStored : TeamStats :=
  create_team_stats_from_data statRecKnown 5 2023 "Regular Season"

/-- An update record whose statistics all parse to `0`/`0.0` (legitimate
zero-valued statistics). -/
def statRecZeros : TeamStatRecord :=
  { tEAM_ID := PyVal.vint 77, gP := PyVal.vint 0, w := PyVal.vint 0, l := PyVal.vint 0,
    w_PCT := PyVal.vflt 0, pTS := PyVal.vflt 0, fG_PCT := PyVal.vflt 0,
    fG3_PCT := PyVal.vflt 0, fT_PCT := PyVal.vflt 0, oREB := PyVal.vflt 0,
    dREB := PyVal.vflt 0, aST := PyVal.vflt 0, sTL := PyVal.vflt 0, bLK := PyVal.vflt 0,
    tOV := PyVal.vflt 0, pF := PyVal.vflt 0, pACE := PyVal.vflt 0,
    oFFRTG := PyVal.vflt 0, dEFRTG := PyVal.vflt 0, nETRTG := PyVal.vflt 0 }

/-- A league team-stats row whose points cell is missing. -/
def tsRowMissingPts : TeamStatsApiRow :=
  { tEAM_ID := PyVal.vint 77, tEAM_NAME := "Los Angeles Lakers",
    gP := some 82, w := none, l := none, w_PCT := none, pTS := none,
    rEB := none, aST := none, sTL := none, bLK := none, tOV := none,
    fG_PCT := none, fG3_PCT := none, fT_PCT := none }

/-! ## Helper lemmas: `updateFirst`, `find?`, merges, splitting -/

theorem updateFirst_eq_self (p : α → Bool) (f : α → α) :
    ∀ l : List α, (∀ y, l.find? p = some y → f y = y) → updateFirst p f l = l := by
  intro l
  induction l with
  | nil => intro _; rfl
  | cons x xs ih =>
    intro h
    by_cases hp : p x
    · have hx : f x = x := h x (List.find?_cons_of_pos _ hp)
      simp [updateFirst, hp, hx]
    · have hfind : (x :: xs).find? p = xs.find? p := List.find?_cons_of_neg _ hp
      simp only [updateFirst, if_neg hp]
      rw [ih fun y hy => h y (hfind ▸ hy)]

theorem find?_updateFirst_self (p : α → Bool) (f : α → α)
    (hf : ∀ x, p x = true → p (f x) = true) :
    ∀ l : List α, (updateFirst p f l).find? p = (l.find? p).map f := by
  intro l
  induction l with
  | nil => rfl
  | cons x xs ih =>
    by_cases hp : p x
    · simp [updateFirst, hp, List.find?_cons_of_pos _ (hf x hp), List.find?_cons_of_pos _ hp]
    · have hp' : ¬ p x = true := hp
      simp only [updateFirst, if_neg hp, List.find?_cons_of_neg _ hp']
      exact ih

theorem find?_updateFirst_disjoint (p q : α → Bool) (f : α → α)
    (h1 : ∀ x, q x = true → p x = false) (h2 : ∀ x, q x = true → p (f x) = false) :
    ∀ l : List α, (updateFirst q f l).find? p = l.find? p := by
  intro l
  induction l with
  | nil => rfl
  | cons x xs ih =>
    by_cases hq : q x
    · have hpx : ¬ p x = true := by simp [h1 x hq]
      have hpf : ¬ p (f x) = true := by simp [h2 x hq]
      simp only [updateFirst, if_pos hq]
      rw [List.find?_cons_of_neg _ hpf, List.find?_cons_of_neg _ hpx]
    · by_cases hp : p x
      · simp only [updateFirst, if_neg hq]
        rw [List.find?_cons_of_pos _ hp, List.find?_cons_of_pos _ hp]
      · simp only [updateFirst, if_neg hq]
        rw [List.find?_cons_of_neg _ hp, List.find?_cons_of_neg _ hp]
        exact ih

theorem length_updateFirst (p : α → Bool) (f : α → α) :
    ∀ l : List α, (updateFirst p f l).length = l.length := by
  intro l
  induction l with
  | nil => rfl
  | cons x xs ih =>
    by_cases hp : p x <;> simp [updateFirst, hp, ih]

theorem mem_updateFirst (p : α → Bool) (f : α → α) :
    ∀ l : List α, ∀ z ∈ updateFirst p f l, z ∈ l ∨ ∃ y ∈ l, z = f y := by
  intro l
  induction l with
  | nil => intro z hz; cases hz
  | cons x xs ih =>
    intro z hz
    by_cases hp : p x
    · simp only [updateFirst, if_pos hp, List.mem_cons] at hz
      rcases hz with hz | hz
      · exact Or.inr ⟨x, List.mem_cons_self x xs, hz⟩
      · exact Or.inl (List.mem_cons_of_mem _ hz)
    · simp only [updateFirst, if_neg hp, List.mem_cons] at hz
      rcases hz with hz | hz
      · exact Or.inl (hz ▸ List.mem_cons_self x xs)
      · rcases ih z hz with h | ⟨y, hy, hzy⟩
        · exact Or.inl (List.mem_cons_of_mem _ h)
        · exact Or.inr ⟨y, List.mem_cons_of_mem _ hy, hzy⟩

theorem map_updateFirst (g : α → β) (p : α → Bool) (f : α → α)
    (hg : ∀ x, p x = true → g (f x) = g x) :
    ∀ l : List α, (updateFirst p f l).map g = l.map g := by
  intro l
  induction l with
  | nil => rfl
  | cons x xs ih =>
    by_cases hp : p x
    · simp [updateFirst, hp, hg x hp]
    · simp [updateFirst, hp, ih]

theorem getD_of_absorbed {o : Option α} {x : α} (h : ∀ v, o = some v → x = v) :
    o.getD x = x := by
  cases o with
  | none => rfl
  | some v => simpa using (h v rfl).symm

theorem setIfPresent_of_absorbed {o : Option α} {x : Option α}
    (h : ∀ v, o = some v → x = some v) : setIfPresent o x = x := by
  cases o with
  | none => rfl
  | some v => simpa [setIfPresent] using (h v rfl).symm

theorem getJoin_some (v : Option α) : getJoin (some v) = v := by
  cases v <;> rfl

theorem pyOrInt_absorbed {a b : Option Int} (h : ∀ n, a = some n → n ≠ 0 → b = some n) :
    pyOrInt a b = b := by
  cases a with
  | none => rfl
  | some n =>
    by_cases hn : n = 0
    · simp [pyOrInt, hn]
    · simpa [pyOrInt, hn] using (h n rfl hn).symm

theorem pyOrRat_absorbed {a b : Option ℚ} (h : ∀ q, a = some q → q ≠ 0 → b = some q) :
    pyOrRat a b = b := by
  cases a with
  | none => rfl
  | some q =>
    by_cases hq : q = 0
    · simp [pyOrRat, hq]
    · simpa [pyOrRat, hq] using (h q rfl hq).symm

theorem pyOrInt_keep_of_falsy {a b : Option Int} (h : a = none ∨ a = some 0) :
    pyOrInt a b = b := by
  rcases h with h | h <;> simp [pyOrInt, h]

theorem pyOrRat_keep_of_falsy {a b : Option ℚ} (h : a = none ∨ a = some 0) :
    pyOrRat a b = b := by
  rcases h with h | h <;> simp [pyOrRat, h]

theorem pyOrInt_of_truthy {n : Int} (b : Option Int) (h : n ≠ 0) :
    pyOrInt (some n) b = some n := by
  simp [pyOrInt, h]

theorem pyOrRat_of_truthy {q : ℚ} (b : Option ℚ) (h : q ≠ 0) :
    pyOrRat (some q) b = some q := by
  simp [pyOrRat, h]

theorem splitFirstChars_no_space : ∀ cs : List Char, ' ' ∉ splitFirstChars cs := by
  intro cs
  induction cs with
  | nil => simp [splitFirstChars]
  | cons c cs ih =>
    by_cases hc : c = ' '
    · simp [splitFirstChars, hc]
    · simp only [splitFirstChars, if_neg hc, List.mem_cons]
      rintro (h | h)
      · exact hc h.symm
      · exact ih h

theorem splitLastChars_none_iff : ∀ cs : List Char, splitLastChars cs = none ↔ ' ' ∉ cs := by
  intro cs
  induction cs with
  | nil => simp [splitLastChars]
  | cons c cs ih =>
    by_cases hc : c = ' '
    · simp [splitLastChars, hc]
    · simp only [splitLastChars, if_neg hc, List.mem_cons]
      rw [ih]
      constructor
      · intro h hm
        rcases hm with hm | hm
        · exact hc hm.symm
        · exact h hm
      · intro h hm
        exact h (Or.inr hm)

theorem splitFirstChars_of_no_space :
    ∀ cs : List Char, ' ' ∉ cs → splitFirstChars cs = cs := by
  intro cs
  induction cs with
  | nil => intro _; rfl
  | cons c cs ih =>
    intro h
    have hc : c ≠ ' ' := fun hc => h (hc ▸ List.mem_cons_self c cs)
    simp only [splitFirstChars, if_neg hc]
    rw [ih fun hm => h (List.mem_cons_of_mem _ hm)]

theorem splitChars_reconstruct :
    ∀ cs ls : List Char, splitLastChars cs = some ls →
      cs = splitFirstChars cs ++ ' ' :: ls := by
  intro cs
  induction cs with
  | nil => intro ls h; cases h
  | cons c cs ih =>
    intro ls h
    by_cases hc : c = ' '
    · simp only [splitLastChars, if_pos hc] at h
      cases h
      simp [splitFirstChars, hc]
    · simp only [splitLastChars, if_neg hc] at h
      simp only [splitFirstChars, if_neg hc, List.cons_append]
      rw [← ih ls h]

/-! ## Teams: absorption and replay -/

theorem applyTeamUpdate_of_absorbed {r : TeamRecord} {t : Team}
    (h : TeamAbsorbed r t) : applyTeamUpdate t r = t := by
  obtain ⟨h1, h2, h3, h4, h5, h6, h7⟩ := h
  unfold applyTeamUpdate
  rw [getD_of_absorbed h1, getD_of_absorbed h2, getD_of_absorbed h3,
      setIfPresent_of_absorbed h4, setIfPresent_of_absorbed h5,
      setIfPresent_of_absorbed h6, setIfPresent_of_absorbed h7]

theorem applyTeamUpdate_absorbs (t : Team) (r : TeamRecord) :
    TeamAbsorbed r (applyTeamUpdate t r) := by
  refine ⟨?_, ?_, ?_, ?_, ?_, ?_, ?_⟩ <;> intro v hv <;>
    simp [applyTeamUpdate, hv, setIfPresent]

theorem applyTeamUpdate_team_id {r : TeamRecord} {tid : String} (t : Team)
    (h : r.team_id = some tid) : (applyTeamUpdate t r).team_id = tid := by
  simp [applyTeamUpdate, h]

theorem newTeam_absorbed {r : TeamRecord} {tid nm ab : String} (sid : Nat)
    (h1 : r.team_id = some tid) (h2 : r.name = some nm) (h3 : r.abbreviation = some ab) :
    TeamAbsorbed r (newTeamFromRecord sid tid nm ab r) :=
  ⟨fun _ hv => Option.some.inj (h1.symm.trans hv),
   fun _ hv => Option.some.inj (h2.symm.trans hv),
   fun _ hv => Option.some.inj (h3.symm.trans hv),
   fun _ hv => hv, fun _ hv => hv, fun _ hv => hv, fun _ hv => hv⟩

theorem teamStep_ok_id {st st2 : Staged Team} {r : TeamRecord}
    (h : teamStep st r = .ok st2) : ∃ tid, r.team_id = some tid := by
  cases hid : r.team_id with
  | none => simp [teamStep, hid] at h
  | some tid => exact ⟨tid, rfl⟩

theorem teamStep_absorbs {st st2 : Staged Team} {r : TeamRecord} {tid : String}
    (hid : r.team_id = some tid)
    (hfresh : st.added.find? (teamMatches tid) = none)
    (h : teamStep st r = .ok st2) :
    ∃ y, (st2.rows ++ st2.added).find? (teamMatches tid) = some y ∧ TeamAbsorbed r y := by
  simp only [teamStep, hid] at h
  cases hrow : st.rows.find? (teamMatches tid) with
  | some y0 =>
    simp only [hrow] at h
    cases h
    have hupd : (updateFirst (teamMatches tid) (fun t => applyTeamUpdate t r)
        st.rows).find? (teamMatches tid) = some (applyTeamUpdate y0 r) := by
      rw [find?_updateFirst_self _ _ ?hf, hrow]
      · rfl
      case hf =>
        intro x _
        simp [teamMatches, applyTeamUpdate_team_id x hid]
    refine ⟨applyTeamUpdate y0 r, ?_, applyTeamUpdate_absorbs y0 r⟩
    rw [List.find?_append, hupd]
    rfl
  | none =>
    simp only [hrow] at h
    cases hnm : r.name with
    | none => simp only [hnm] at h; cases h
    | some nm =>
      simp only [hnm] at h
      cases habb : r.abbreviation with
      | none => simp only [habb] at h; cases h
      | some ab =>
        simp only [habb] at h
        cases h
        refine ⟨newTeamFromRecord st.next tid nm ab r, ?_, newTeam_absorbed _ hid hnm habb⟩
        rw [List.find?_append, hrow, List.find?_append, hfresh]
        simp [List.find?, teamMatches, newTeamFromRecord]

theorem teamStep_frame {st st2 : Staged Team} {r : TeamRecord} {k tid : String}
    (hid : r.team_id = some k) (hne : k ≠ tid)
    (h : teamStep st r = .ok st2) :
    (st2.rows ++ st2.added).find? (teamMatches tid) =
      (st.rows ++ st.added).find? (teamMatches tid) := by
  simp only [teamStep, hid] at h
  cases hrow : st.rows.find? (teamMatches k) with
  | some y0 =>
    simp only [hrow] at h
    cases h
    rw [List.find?_append, List.find?_append]
    congr 1
    apply find?_updateFirst_disjoint
    · intro x hx
      have hxk : x.team_id = k := by simpa [teamMatches] using hx
      simp [teamMatches, hxk, hne]
    · intro x _
      simp [teamMatches, applyTeamUpdate_team_id x hid, hne]
  | none =>
    simp only [hrow] at h
    cases hnm : r.name with
    | none => simp only [hnm] at h; cases h
    | some nm =>
      simp only [hnm] at h
      cases habb : r.abbreviation with
      | none => simp only [habb] at h; cases h
      | some ab =>
        simp only [habb] at h
        cases h
        have hbeq : (k == tid) = false := beq_eq_false_iff_ne.mpr hne
        have hnew : [newTeamFromRecord st.next k nm ab r].find? (teamMatches tid) = none := by
          simp [List.find?, teamMatches, newTeamFromRecord, hbeq]
        rw [List.find?_append, List.find?_append, List.find?_append, hnew, Option.or_none]

theorem teamStep_fresh {st st2 : Staged Team} {r : TeamRecord} {k tid : String}
    (hid : r.team_id = some k) (hne : k ≠ tid)
    (h : teamStep st r = .ok st2)
    (hfresh : st.added.find? (teamMatches tid) = none) :
    st2.added.find? (teamMatches tid) = none := by
  simp only [teamStep, hid] at h
  cases hrow : st.rows.find? (teamMatches k) with
  | some y0 => simp only [hrow] at h; cases h; exact hfresh
  | none =>
    simp only [hrow] at h
    cases hnm : r.name with
    | none => simp only [hnm] at h; cases h
    | some nm =>
      simp only [hnm] at h
      cases habb : r.abbreviation with
      | none => simp only [habb] at h; cases h
      | some ab =>
        simp only [habb] at h
        cases h
        have hbeq : (k == tid) = false := beq_eq_false_iff_ne.mpr hne
        rw [List.find?_append, hfresh]
        simp [List.find?, teamMatches, newTeamFromRecord, hbeq]

theorem teamLoop_frame {tid : String} (B : List TeamRecord) :
    ∀ st st2, teamLoop st B = .ok st2 →
      (∀ r ∈ B, ∀ k, r.team_id = some k → k ≠ tid) →
      (st2.rows ++ st2.added).find? (teamMatches tid) =
        (st.rows ++ st.added).find? (teamMatches tid) := by
  induction B with
  | nil => intro st st2 h _; cases h; rfl
  | cons r rest ih =>
    intro st st2 h hB
    unfold teamLoop at h
    cases hstep : teamStep st r with
    | error e => simp only [hstep] at h; cases h
    | ok st1 =>
      simp only [hstep] at h
      obtain ⟨k, hk⟩ := teamStep_ok_id hstep
      have hne := hB r (List.mem_cons_self r rest) k hk
      rw [ih st1 st2 h fun r2 hr2 => hB r2 (List.mem_cons_of_mem _ hr2)]
      exact teamStep_frame hk hne hstep

theorem teamLoop_absorbs (B : List TeamRecord) :
    ∀ st st2, teamLoop st B = .ok st2 →
      (B.filterMap TeamRecord.team_id).Nodup →
      (∀ r ∈ B, ∀ tid, r.team_id = some tid → st.added.find? (teamMatches tid) = none) →
      ∀ r ∈ B, ∃ tid, r.team_id = some tid ∧
        ∃ y, (st2.rows ++ st2.added).find? (teamMatches tid) = some y ∧ TeamAbsorbed r y := by
  induction B with
  | nil => intro st st2 _ _ _ r hr; cases hr
  | cons r0 rest ih =>
    intro st st2 h hnd hfresh r hr
    unfold teamLoop at h
    cases hstep : teamStep st r0 with
    | error e => simp only [hstep] at h; cases h
    | ok st1 =>
      simp only [hstep] at h
      obtain ⟨k0, hk0⟩ := teamStep_ok_id hstep
      have hndc : (k0 :: rest.filterMap TeamRecord.team_id).Nodup := by
        rw [List.filterMap_cons, hk0] at hnd
        exact hnd
      have hk0notin : k0 ∉ rest.filterMap TeamRecord.team_id := (List.nodup_cons.mp hndc).1
      have hnd' : (rest.filterMap TeamRecord.team_id).Nodup := (List.nodup_cons.mp hndc).2
      rcases List.mem_cons.mp hr with hreq | hrtl
      · subst hreq
        refine ⟨k0, hk0, ?_⟩
        obtain ⟨y, hy, hyabs⟩ :=
          teamStep_absorbs hk0 (hfresh r (List.mem_cons_self r rest) k0 hk0) hstep
        refine ⟨y, ?_, hyabs⟩
        rw [teamLoop_frame rest st1 st2 h ?hrest]
        · exact hy
        case hrest =>
          intro r2 hr2 k hk he
          subst he
          exact hk0notin (List.mem_filterMap.mpr ⟨r2, hr2, hk⟩)
      · have hfresh1 : ∀ r2 ∈ rest, ∀ tid, r2.team_id = some tid →
            st1.added.find? (teamMatches tid) = none := by
          intro r2 hr2 tid htid
          have hne : k0 ≠ tid := by
            intro he
            subst he
            exact hk0notin (List.mem_filterMap.mpr ⟨r2, hr2, htid⟩)
          exact teamStep_fresh hk0 hne hstep
            (hfresh r2 (List.mem_cons_of_mem _ hr2) tid htid)
        exact ih st1 st2 h hnd' hfresh1 r hrtl

theorem teamLoop_absorbed_id (B : List TeamRecord) :
    ∀ st, (∀ r ∈ B, ∃ tid, r.team_id = some tid ∧
        ∃ y, st.rows.find? (teamMatches tid) = some y ∧ TeamAbsorbed r y) →
      teamLoop st B = .ok st := by
  induction B with
  | nil => intro st _; rfl
  | cons r rest ih =>
    intro st h
    obtain ⟨tid, hid, y, hy, hyabs⟩ := h r (List.mem_cons_self r rest)
    have hupd : updateFirst (teamMatches tid) (fun t => applyTeamUpdate t r) st.rows
        = st.rows := by
      apply updateFirst_eq_self
      intro z hz
      rw [hy] at hz
      cases hz
      exact applyTeamUpdate_of_absorbed hyabs
    have hstep : teamStep st r = .ok st := by
      simp only [teamStep, hid, hy, hupd]
    unfold teamLoop
    simp only [hstep]
    exact ih st fun r2 hr2 => h r2 (List.mem_cons_of_mem _ hr2)

theorem commitTeams_ok {s s2 : Store} {st : Staged Team} (h : commitTeams s st = .ok s2) :
    ((st.rows ++ st.added).map (·.team_id)).Nodup ∧
      ((st.rows ++ st.added).map (·.abbreviation)).Nodup ∧
      s2 = { s with teams := st.rows ++ st.added, nextTeamSid := st.next } := by
  unfold commitTeams at h
  split at h
  case isTrue hcond => cases h; exact ⟨hcond.1, hcond.2, rfl⟩
  case isFalse => cases h

theorem ingest_teams_idem (s : Store) (B : List TeamRecord)
    (hnd : (B.filterMap TeamRecord.team_id).Nodup) :
    (ingest_teams (ingest_teams s B).1 B).1 = (ingest_teams s B).1 := by
  cases h1 : teamLoop ⟨s.teams, [], s.nextTeamSid⟩ B with
  | error e =>
    have hrun : ingest_teams s B = (s, some e) := by simp [ingest_teams, h1]
    rw [hrun]
    show (ingest_teams s B).1 = s
    rw [hrun]
  | ok st =>
    cases h2 : commitTeams s st with
    | error e =>
      have hrun : ingest_teams s B = (s, some e) := by simp [ingest_teams, h1, h2]
      rw [hrun]
      show (ingest_teams s B).1 = s
      rw [hrun]
    | ok s2 =>
      obtain ⟨hnd1, hnd2, hs2⟩ := commitTeams_ok h2
      have hrun : ingest_teams s B = (s2, none) := by simp [ingest_teams, h1, h2]
      have habs := teamLoop_absorbs B _ _ h1 hnd
        (fun _ _ _ _ => rfl)
      have hloop2 : teamLoop ⟨s2.teams, [], s2.nextTeamSid⟩ B =
          .ok ⟨s2.teams, [], s2.nextTeamSid⟩ := by
        apply teamLoop_absorbed_id
        intro r hr
        obtain ⟨tid, hid, y, hy, hyabs⟩ := habs r hr
        exact ⟨tid, hid, y, by rw [hs2]; exact hy, hyabs⟩
      have hcommit2 : commitTeams s2 ⟨s2.teams, [], s2.nextTeamSid⟩ = .ok s2 := by
        unfold commitTeams
        have hall : s2.teams ++ ([] : List Team) = s2.teams := List.append_nil _
        rw [if_pos]
        · simp only [hall]
        · constructor
          · rw [hall, hs2]; exact hnd1
          · rw [hall, hs2]; exact hnd2
      have hrun2 : ingest_teams s2 B = (s2, none) := by
        simp [ingest_teams, hloop2, hcommit2]
      rw [hrun]
      show (ingest_teams s2 B).1 = s2
      rw [hrun2]

/-! ## Games: absorption and replay -/

theorem applyGameUpdate_of_absorbed {r : GameRecord} {g : Game}
    (h : GameAbsorbed r g) : applyGameUpdate g r = g := by
  obtain ⟨h1, h2, h3, h4, h5, h6, h7, h8, h9, h10, h11⟩ := h
  unfold applyGameUpdate
  rw [getD_of_absorbed h1, setIfPresent_of_absorbed h2, setIfPresent_of_absorbed h3,
      setIfPresent_of_absorbed h4, setIfPresent_of_absorbed h5,
      getD_of_absorbed h6, getD_of_absorbed h7, getD_of_absorbed h8,
      getD_of_absorbed h9, getD_of_absorbed h10, getD_of_absorbed h11]

theorem applyGameUpdate_absorbs (g : Game) (r : GameRecord) :
    GameAbsorbed r (applyGameUpdate g r) := by
  refine ⟨?_, ?_, ?_, ?_, ?_, ?_, ?_, ?_, ?_, ?_, ?_⟩ <;> intro v hv <;>
    simp [applyGameUpdate, hv, setIfPresent]

theorem applyGameUpdate_id (g : Game) (r : GameRecord) :
    (applyGameUpdate g r).id = g.id := rfl

theorem newGame_absorbed {season : Int} {stype : String} {teams : List Team}
    {r : GameRecord} {gid ha aa : String} {gd : Option PyDate}
    (hcoh : GameCoherent season stype r)
    (hha : r.home_team_abbr = some ha) (haa : r.away_team_abbr = some aa)
    (hpd : parseRecordGameDate (getJoin r.game_date) = .ok gd) :
    GameAbsorbed r (newGameFromRecord season stype teams gid ha aa gd r) := by
  obtain ⟨hc1, hc2, hc3, hc4⟩ := hcoh
  refine ⟨?_, ?_, ?_, ?_, ?_, ?_, ?_, ?_, ?_, ?_, ?_⟩
  · intro v hv
    rw [hv, getJoin_some] at hpd
    show gd.map DateVal.ddate = v
    cases v with
    | none => cases hpd; rfl
    | some dv =>
      cases dv with
      | dstr u => exact absurd hv (hc1 u)
      | ddate d => cases hpd; rfl
  · intro v hv
    show some season = some v
    rw [hc3 v hv]
  · intro v hv
    show some stype = some v
    rw [hc4 v hv]
  · intro v hv
    show some ha = some v
    rw [Option.some.inj (hha.symm.trans hv)]
  · intro v hv
    show some aa = some v
    rw [Option.some.inj (haa.symm.trans hv)]
  · intro v hv
    show getJoin r.home_score = v
    rw [hv, getJoin_some]
  · intro v hv
    show getJoin r.away_score = v
    rw [hv, getJoin_some]
  · intro v hv
    show derivedHomeWin r = v
    rw [hc2 v hv]
  · intro v hv
    show getJoin r.arena = v
    rw [hv, getJoin_some]
  · intro v hv
    show getJoin r.attendance = v
    rw [hv, getJoin_some]
  · intro v hv
    show getJoin r.duration_minutes = v
    rw [hv, getJoin_some]

theorem gameStep_ok_id {season : Int} {stype : String} {teams : List Team}
    {st st2 : Staged Game} {r : GameRecord}
    (h : gameStep season stype teams st r = .ok st2) : ∃ gid, r.game_id = some gid := by
  cases hid : r.game_id with
  | none => simp [gameStep, hid] at h
  | some gid => exact ⟨gid, rfl⟩

theorem newGameFromRecord_id (season : Int) (stype : String) (teams : List Team)
    (gid ha aa : String) (gd : Option PyDate) (r : GameRecord) :
    (newGameFromRecord season stype teams gid ha aa gd r).id = gid := rfl

theorem gameStep_absorbs {season : Int} {stype : String} {teams : List Team}
    {st st2 : Staged Game} {r : GameRecord} {gid : String}
    (hid : r.game_id = some gid)
    (hcoh : GameCoherent season stype r)
    (hfresh : st.added.find? (gameMatches gid) = none)
    (h : gameStep season stype teams st r = .ok st2) :
    ∃ y, (st2.rows ++ st2.added).find? (gameMatches gid) = some y ∧ GameAbsorbed r y := by
  simp only [gameStep, hid] at h
  cases hrow : st.rows.find? (gameMatches gid) with
  | some y0 =>
    simp only [hrow] at h
    cases h
    have hupd : (updateFirst (gameMatches gid) (fun g => applyGameUpdate g r)
        st.rows).find? (gameMatches gid) = some (applyGameUpdate y0 r) := by
      rw [find?_updateFirst_self _ _ ?hf, hrow]
      · rfl
      case hf =>
        intro x hx
        simpa [gameMatches, applyGameUpdate_id] using hx
    refine ⟨applyGameUpdate y0 r, ?_, applyGameUpdate_absorbs y0 r⟩
    rw [List.find?_append, hupd]
    rfl
  | none =>
    simp only [hrow] at h
    cases hha : r.home_team_abbr with
    | none => simp only [hha] at h; cases h
    | some ha =>
      simp only [hha] at h
      cases haa : r.away_team_abbr with
      | none => simp only [haa] at h; cases h
      | some aa =>
        simp only [haa] at h
        cases hpd : parseRecordGameDate (getJoin r.game_date) with
        | error e => simp only [hpd] at h; cases h
        | ok gd =>
          simp only [hpd] at h
          cases h
          refine ⟨newGameFromRecord season stype teams gid ha aa gd r, ?_,
            newGame_absorbed hcoh hha haa hpd⟩
          rw [List.find?_append, hrow, List.find?_append, hfresh]
          simp [List.find?, gameMatches, newGameFromRecord]

theorem gameStep_frame {season : Int} {stype : String} {teams : List Team}
    {st st2 : Staged Game} {r : GameRecord} {k tid : String}
    (hid : r.game_id = some k) (hne : k ≠ tid)
    (h : gameStep season stype teams st r = .ok st2) :
    (st2.rows ++ st2.added).find? (gameMatches tid) =
      (st.rows ++ st.added).find? (gameMatches tid) := by
  simp only [gameStep, hid] at h
  cases hrow : st.rows.find? (gameMatches k) with
  | some y0 =>
    simp only [hrow] at h
    cases h
    rw [List.find?_append, List.find?_append]
    congr 1
    apply find?_updateFirst_disjoint
    · intro x hx
      have hxk : x.id = k := by simpa [gameMatches] using hx
      simp [gameMatches, hxk, hne]
    · intro x hx
      have hxk : x.id = k := by simpa [gameMatches] using hx
      simp [gameMatches, applyGameUpdate_id, hxk, hne]
  | none =>
    simp only [hrow] at h
    cases hha : r.home_team_abbr with
    | none => simp only [hha] at h; cases h
    | some ha =>
      simp only [hha] at h
      cases haa : r.away_team_abbr with
      | none => simp only [haa] at h; cases h
      | some aa =>
        simp only [haa] at h
        cases hpd : parseRecordGameDate (getJoin r.game_date) with
        | error e => simp only [hpd] at h; cases h
        | ok gd =>
          simp only [hpd] at h
          cases h
          have hbeq : (k == tid) = false := beq_eq_false_iff_ne.mpr hne
          have hnew : [newGameFromRecord season stype teams k ha aa gd r].find?
              (gameMatches tid) = none := by
            simp [List.find?, gameMatches, newGameFromRecord, hbeq]
          rw [List.find?_append, List.find?_append, List.find?_append, hnew, Option.or_none]

theorem gameStep_fresh {season : Int} {stype : String} {teams : List Team}
    {st st2 : Staged Game} {r : GameRecord} {k tid : String}
    (hid : r.game_id = some k) (hne : k ≠ tid)
    (h : gameStep season stype teams st r = .ok st2)
    (hfresh : st.added.find? (gameMatches tid) = none) :
    st2.added.find? (gameMatches tid) = none := by
  simp only [gameStep, hid] at h
  cases hrow : st.rows.find? (gameMatches k) with
  | some y0 => simp only [hrow] at h; cases h; exact hfresh
  | none =>
    simp only [hrow] at h
    cases hha : r.home_team_abbr with
    | none => simp only [hha] at h; cases h
    | some ha =>
      simp only [hha] at h
      cases haa : r.away_team_abbr with
      | none => simp only [haa] at h; cases h
      | some aa =>
        simp only [haa] at h
        cases hpd : parseRecordGameDate (getJoin r.game_date) with
        | error e => simp only [hpd] at h; cases h
        | ok gd =>
          simp only [hpd] at h
          cases h
          have hbeq : (k == tid) = false := beq_eq_false_iff_ne.mpr hne
          rw [List.find?_append, hfresh]
          simp [List.find?, gameMatches, newGameFromRecord, hbeq]

theorem gameLoop_frame {season : Int} {stype : String} {teams : List Team} {tid : String}
    (B : List GameRecord) :
    ∀ st st2, gameLoop season stype teams st B = .ok st2 →
      (∀ r ∈ B, ∀ k, r.game_id = some k → k ≠ tid) →
      (st2.rows ++ st2.added).find? (gameMatches tid) =
        (st.rows ++ st.added).find? (gameMatches tid) := by
  induction B with
  | nil => intro st st2 h _; cases h; rfl
  | cons r rest ih =>
    intro st st2 h hB
    unfold gameLoop at h
    cases hstep : gameStep season stype teams st r with
    | error e => simp only [hstep] at h; cases h
    | ok st1 =>
      simp only [hstep] at h
      obtain ⟨k, hk⟩ := gameStep_ok_id hstep
      have hne := hB r (List.mem_cons_self r rest) k hk
      rw [ih st1 st2 h fun r2 hr2 => hB r2 (List.mem_cons_of_mem _ hr2)]
      exact gameStep_frame hk hne hstep

theorem gameLoop_absorbs {season : Int} {stype : String} {teams : List Team}
    (B : List GameRecord) :
    ∀ st st2, gameLoop season stype teams st B = .ok st2 →
      (B.filterMap GameRecord.game_id).Nodup →
      (∀ r ∈ B, GameCoherent season stype r) →
      (∀ r ∈ B, ∀ gid, r.game_id = some gid → st.added.find? (gameMatches gid) = none) →
      ∀ r ∈ B, ∃ gid, r.game_id = some gid ∧
        ∃ y, (st2.rows ++ st2.added).find? (gameMatches gid) = some y ∧ GameAbsorbed r y := by
  induction B with
  | nil => intro st st2 _ _ _ _ r hr; cases hr
  | cons r0 rest ih =>
    intro st st2 h hnd hcoh hfresh r hr
    unfold gameLoop at h
    cases hstep : gameStep season stype teams st r0 with
    | error e => simp only [hstep] at h; cases h
    | ok st1 =>
      simp only [hstep] at h
      obtain ⟨k0, hk0⟩ := gameStep_ok_id hstep
      have hndc : (k0 :: rest.filterMap GameRecord.game_id).Nodup := by
        rw [List.filterMap_cons, hk0] at hnd
        exact hnd
      have hk0notin : k0 ∉ rest.filterMap GameRecord.game_id := (List.nodup_cons.mp hndc).1
      have hnd' : (rest.filterMap GameRecord.game_id).Nodup := (List.nodup_cons.mp hndc).2
      rcases List.mem_cons.mp hr with hreq | hrtl
      · subst hreq
        refine ⟨k0, hk0, ?_⟩
        obtain ⟨y, hy, hyabs⟩ := gameStep_absorbs hk0 (hcoh r (List.mem_cons_self r rest))
          (hfresh r (List.mem_cons_self r rest) k0 hk0) hstep
        refine ⟨y, ?_, hyabs⟩
        rw [gameLoop_frame rest st1 st2 h ?hrest]
        · exact hy
        case hrest =>
          intro r2 hr2 k hk he
          subst he
          exact hk0notin (List.mem_filterMap.mpr ⟨r2, hr2, hk⟩)
      · have hfresh1 : ∀ r2 ∈ rest, ∀ gid, r2.game_id = some gid →
            st1.added.find? (gameMatches gid) = none := by
          intro r2 hr2 gid hgid
          have hne : k0 ≠ gid := by
            intro he
            subst he
            exact hk0notin (List.mem_filterMap.mpr ⟨r2, hr2, hgid⟩)
          exact gameStep_fresh hk0 hne hstep
            (hfresh r2 (List.mem_cons_of_mem _ hr2) gid hgid)
        exact ih st1 st2 h hnd' (fun r2 hr2 => hcoh r2 (List.mem_cons_of_mem _ hr2))
          hfresh1 r hrtl

theorem gameLoop_absorbed_id {season : Int} {stype : String} {teams : List Team}
    (B : List GameRecord) :
    ∀ st, (∀ r ∈ B, ∃ gid, r.game_id = some gid ∧
        ∃ y, st.rows.find? (gameMatches gid) = some y ∧ GameAbsorbed r y) →
      gameLoop season stype teams st B = .ok st := by
  induction B with
  | nil => intro st _; rfl
  | cons r rest ih =>
    intro st h
    obtain ⟨gid, hid, y, hy, hyabs⟩ := h r (List.mem_cons_self r rest)
    have hupd : updateFirst (gameMatches gid) (fun g => applyGameUpdate g r) st.rows
        = st.rows := by
      apply updateFirst_eq_self
      intro z hz
      rw [hy] at hz
      cases hz
      exact applyGameUpdate_of_absorbed hyabs
    have hstep : gameStep season stype teams st r = .ok st := by
      simp only [gameStep, hid, hy, hupd]
    unfold gameLoop
    simp only [hstep]
    exact ih st fun r2 hr2 => h r2 (List.mem_cons_of_mem _ hr2)

theorem commitGames_ok {s s2 : Store} {st : Staged Game} (h : commitGames s st = .ok s2) :
    (st.rows ++ st.added).all (fun g => !(isStrDate g.game_date)) = true ∧
      ((st.rows ++ st.added).map (·.id)).Nodup ∧
      s2 = { s with games := st.rows ++ st.added } := by
  unfold commitGames at h
  split at h
  case isTrue hfl =>
    split at h
    case isTrue hcond => cases h; exact ⟨hfl, hcond, rfl⟩
    case isFalse => cases h
  case isFalse => cases h

theorem ingest_games_idem (season : Int) (stype : String) (s : Store) (B : List GameRecord)
    (hnd : (B.filterMap GameRecord.game_id).Nodup)
    (hcoh : ∀ r ∈ B, GameCoherent season stype r) :
    (ingest_games season stype (ingest_games season stype s B).1 B).1 =
      (ingest_games season stype s B).1 := by
  cases h1 : gameLoop season stype s.teams ⟨s.games, [], 0⟩ B with
  | error e =>
    have hrun : ingest_games season stype s B = (s, some e) := by simp [ingest_games, h1]
    rw [hrun]
    show (ingest_games season stype s B).1 = s
    rw [hrun]
  | ok st =>
    cases h2 : commitGames s st with
    | error e =>
      have hrun : ingest_games season stype s B = (s, some e) := by
        simp [ingest_games, h1, h2]
      rw [hrun]
      show (ingest_games season stype s B).1 = s
      rw [hrun]
    | ok s2 =>
      obtain ⟨hfl1, hnd1, hs2⟩ := commitGames_ok h2
      have hrun : ingest_games season stype s B = (s2, none) := by
        simp [ingest_games, h1, h2]
      have habs := gameLoop_absorbs B _ _ h1 hnd hcoh (fun _ _ _ _ => rfl)
      have hteams2 : s2.teams = s.teams := by rw [hs2]
      have hloop2 : gameLoop season stype s2.teams ⟨s2.games, [], 0⟩ B =
          .ok ⟨s2.games, [], 0⟩ := by
        apply gameLoop_absorbed_id
        intro r hr
        obtain ⟨gid, hid, y, hy, hyabs⟩ := habs r hr
        exact ⟨gid, hid, y, by rw [hs2]; exact hy, hyabs⟩
      have hall : s2.games ++ ([] : List Game) = s2.games := List.append_nil _
      have hfl2 : (s2.games ++ ([] : List Game)).all
          (fun g => !(isStrDate g.game_date)) = true := by
        rw [hall, hs2]
        exact hfl1
      have hnd2 : ((s2.games ++ ([] : List Game)).map (·.id)).Nodup := by
        rw [hall, hs2]
        exact hnd1
      have hcommit2 : commitGames s2 ⟨s2.games, [], 0⟩ = .ok s2 := by
        unfold commitGames
        rw [if_pos hfl2, if_pos hnd2]
        simp only [hall]
      have hrun2 : ingest_games season stype s2 B = (s2, none) := by
        simp [ingest_games, hloop2, hcommit2]
      rw [hrun]
      show (ingest_games season stype s2 B).1 = s2
      rw [hrun2]

/-! ## Players: absorption and replay -/

theorem mergeStr_of_absorbed {new : Option String} {old : String}
    (h : ∀ v, new = some v → v ≠ "" → old = v) : mergeStr new old = old := by
  cases hnew : new with
  | none => rfl
  | some v =>
    by_cases hv : v = ""
    · simp [mergeStr, hv]
    · simp only [mergeStr, if_pos hv]
      exact (h v hnew hv).symm

theorem mergeNamePart_of_absorbed {new : Option String} {old : String} {f : String → String}
    (h : ∀ v, new = some v → v ≠ "" → old = f v) : mergeNamePart new old f = old := by
  cases hnew : new with
  | none => rfl
  | some v =>
    by_cases hv : v = ""
    · simp [mergeNamePart, hv]
    · simp only [mergeNamePart, if_pos hv]
      exact (h v hnew hv).symm

theorem mergeOptStr_of_absorbed {new : Option String} {old : Option String}
    (h : ∀ v, new = some v → v ≠ "" → old = some v) : mergeOptStr new old = old := by
  cases hnew : new with
  | none => rfl
  | some v =>
    by_cases hv : v = ""
    · simp [mergeOptStr, hv]
    · simp only [mergeOptStr, if_pos hv]
      exact (h v hnew hv).symm

theorem mergeWeight_of_absorbed {new : Option PyVal} {old : Option Int}
    (h : ∀ v n, new = some v → v.truthy = true → pyInt? v = some n → old = some n) :
    mergeWeight new old = old := by
  cases hnew : new with
  | none => rfl
  | some v =>
    by_cases hv : v.truthy = true
    · simp only [mergeWeight, if_pos hv]
      cases hn : pyInt? v with
      | none => rfl
      | some n => exact (h v n hnew hv hn).symm
    · simp [mergeWeight, hv]

theorem update_player_data_of_absorbed {r : PlayerRecord} {p : Player}
    (h : PlayerAbsorbed r p) : update_player_data p r = p := by
  obtain ⟨h1, h2, h3, h4, h5, h6⟩ := h
  unfold update_player_data
  rw [mergeStr_of_absorbed fun v hv hne => (h1 v hv hne).1,
      mergeNamePart_of_absorbed fun v hv hne => (h1 v hv hne).2.1,
      mergeNamePart_of_absorbed fun v hv hne => (h1 v hv hne).2.2,
      mergeOptStr_of_absorbed h2, mergeOptStr_of_absorbed h3,
      mergeWeight_of_absorbed h4, mergeOptStr_of_absorbed h5,
      getD_of_absorbed h6]

theorem update_player_data_absorbs (p : Player) (r : PlayerRecord) :
    PlayerAbsorbed r (update_player_data p r) := by
  refine ⟨?_, ?_, ?_, ?_, ?_, ?_⟩
  · intro nm hnm hne
    refine ⟨?_, ?_, ?_⟩ <;>
      simp [update_player_data, mergeStr, mergeNamePart, hnm, hne]
  · intro v hv hne
    simp [update_player_data, mergeOptStr, hv, hne]
  · intro v hv hne
    simp [update_player_data, mergeOptStr, hv, hne]
  · intro v n hv htr hn
    simp [update_player_data, mergeWeight, hv, htr, hn]
  · intro v hv hne
    simp [update_player_data, mergeOptStr, hv, hne]
  · intro b hb
    simp [update_player_data, hb]

theorem update_player_data_player_id (p : Player) (r : PlayerRecord) :
    (update_player_data p r).player_id = p.player_id := rfl

theorem create_player_absorbs (teams : List Team) (sid : Nat) (r : PlayerRecord) :
    PlayerAbsorbed r (create_player_from_data teams sid r) := by
  refine ⟨?_, ?_, ?_, ?_, ?_, ?_⟩
  · intro nm hnm _
    refine ⟨?_, ?_, ?_⟩ <;> simp [create_player_from_data, hnm]
  · intro v hv _
    simp [create_player_from_data, hv]
  · intro v hv _
    simp [create_player_from_data, hv]
  · intro v n hv htr hn
    simp [create_player_from_data, parseGuardedInt, hv, htr, hn]
  · intro v hv _
    simp [create_player_from_data, hv]
  · intro b hb
    simp [create_player_from_data, hb]

theorem create_player_player_id {r : PlayerRecord} {pid : String} (teams : List Team)
    (sid : Nat) (h : r.player_id = some pid) :
    (create_player_from_data teams sid r).player_id = pid := by
  simp [create_player_from_data, h]

theorem playerStep_absorbs {teams : List Team} {st : Staged Player} {r : PlayerRecord}
    {pid : String} (hid : r.player_id = some pid)
    (hfresh : st.added.find? (playerMatches pid) = none) :
    ∃ y, ((playerStep teams st r).rows ++ (playerStep teams st r).added).find?
        (playerMatches pid) = some y ∧ PlayerAbsorbed r y := by
  unfold playerStep
  rw [hid]
  cases hrow : st.rows.find? (playerMatches pid) with
  | some y0 =>
    simp only [hrow]
    have hupd : (updateFirst (playerMatches pid) (fun p => update_player_data p r)
        st.rows).find? (playerMatches pid) = some (update_player_data y0 r) := by
      rw [find?_updateFirst_self _ _ ?hf, hrow]
      · rfl
      case hf =>
        intro x hx
        simpa [playerMatches, update_player_data_player_id] using hx
    refine ⟨update_player_data y0 r, ?_, update_player_data_absorbs y0 r⟩
    rw [List.find?_append, hupd]
    rfl
  | none =>
    simp only [hrow]
    refine ⟨create_player_from_data teams st.next r, ?_, create_player_absorbs teams st.next r⟩
    rw [List.find?_append, hrow, List.find?_append, hfresh]
    simp [List.find?, playerMatches, create_player_player_id teams st.next hid]

theorem playerStep_frame {teams : List Team} {st : Staged Player} {r : PlayerRecord}
    {k tid : String} (hid : r.player_id = some k) (hne : k ≠ tid) :
    ((playerStep teams st r).rows ++ (playerStep teams st r).added).find?
        (playerMatches tid) = (st.rows ++ st.added).find? (playerMatches tid) := by
  unfold playerStep
  rw [hid]
  cases hrow : st.rows.find? (playerMatches k) with
  | some y0 =>
    simp only [hrow]
    rw [List.find?_append, List.find?_append]
    congr 1
    apply find?_updateFirst_disjoint
    · intro x hx
      have hxk : x.player_id = k := by simpa [playerMatches] using hx
      simp [playerMatches, hxk, hne]
    · intro x hx
      have hxk : x.player_id = k := by simpa [playerMatches] using hx
      simp [playerMatches, update_player_data_player_id, hxk, hne]
  | none =>
    simp only [hrow]
    have hbeq : (k == tid) = false := beq_eq_false_iff_ne.mpr hne
    have hnew : [create_player_from_data teams st.next r].find? (playerMatches tid)
        = none := by
      simp [List.find?, playerMatches, create_player_player_id teams st.next hid, hbeq]
    rw [List.find?_append, List.find?_append, List.find?_append, hnew, Option.or_none]

theorem playerStep_fresh {teams : List Team} {st : Staged Player} {r : PlayerRecord}
    {k tid : String} (hid : r.player_id = some k) (hne : k ≠ tid)
    (hfresh : st.added.find? (playerMatches tid) = none) :
    (playerStep teams st r).added.find? (playerMatches tid) = none := by
  unfold playerStep
  rw [hid]
  cases hrow : st.rows.find? (playerMatches k) with
  | some y0 => simp only [hrow]; exact hfresh
  | none =>
    simp only [hrow]
    have hbeq : (k == tid) = false := beq_eq_false_iff_ne.mpr hne
    rw [List.find?_append, hfresh]
    simp [List.find?, playerMatches, create_player_player_id teams st.next hid, hbeq]

theorem playerLoop_frame {teams : List Team} {tid : String} (B : List PlayerRecord) :
    ∀ st, (∀ r ∈ B, ∀ k, r.player_id = some k → k ≠ tid) →
      (∀ r ∈ B, ∃ k, r.player_id = some k) →
      ((playerLoop teams st B).rows ++ (playerLoop teams st B).added).find?
          (playerMatches tid) = (st.rows ++ st.added).find? (playerMatches tid) := by
  induction B with
  | nil => intro st _ _; rfl
  | cons r rest ih =>
    intro st hB hids
    obtain ⟨k, hk⟩ := hids r (List.mem_cons_self r rest)
    have hne := hB r (List.mem_cons_self r rest) k hk
    unfold playerLoop
    rw [ih (playerStep teams st r) (fun r2 hr2 => hB r2 (List.mem_cons_of_mem _ hr2))
        (fun r2 hr2 => hids r2 (List.mem_cons_of_mem _ hr2))]
    exact playerStep_frame hk hne

theorem playerLoop_absorbs {teams : List Team} (B : List PlayerRecord) :
    ∀ st, (∀ r ∈ B, ∃ pid, r.player_id = some pid) →
      (B.filterMap PlayerRecord.player_id).Nodup →
      (∀ r ∈ B, ∀ pid, r.player_id = some pid →
        st.added.find? (playerMatches pid) = none) →
      ∀ r ∈ B, ∃ pid, r.player_id = some pid ∧
        ∃ y, ((playerLoop teams st B).rows ++ (playerLoop teams st B).added).find?
            (playerMatches pid) = some y ∧ PlayerAbsorbed r y := by
  induction B with
  | nil => intro st _ _ _ r hr; cases hr
  | cons r0 rest ih =>
    intro st hids hnd hfresh r hr
    obtain ⟨k0, hk0⟩ := hids r0 (List.mem_cons_self r0 rest)
    have hndc : (k0 :: rest.filterMap PlayerRecord.player_id).Nodup := by
      rw [List.filterMap_cons, hk0] at hnd
      exact hnd
    have hk0notin : k0 ∉ rest.filterMap PlayerRecord.player_id := (List.nodup_cons.mp hndc).1
    have hnd' : (rest.filterMap PlayerRecord.player_id).Nodup := (List.nodup_cons.mp hndc).2
    unfold playerLoop
    rcases List.mem_cons.mp hr with hreq | hrtl
    · subst hreq
      refine ⟨k0, hk0, ?_⟩
      obtain ⟨y, hy, hyabs⟩ :=
        @playerStep_absorbs teams st r k0 hk0
          (hfresh r (List.mem_cons_self r rest) k0 hk0)
      refine ⟨y, ?_, hyabs⟩
      rw [playerLoop_frame rest (playerStep teams st r) ?hrest
          (fun r2 hr2 => hids r2 (List.mem_cons_of_mem _ hr2))]
      · exact hy
      case hrest =>
        intro r2 hr2 k hk he
        subst he
        exact hk0notin (List.mem_filterMap.mpr ⟨r2, hr2, hk⟩)
    · have hfresh1 : ∀ r2 ∈ rest, ∀ pid, r2.player_id = some pid →
          (playerStep teams st r0).added.find? (playerMatches pid) = none := by
        intro r2 hr2 pid hpid
        have hne : k0 ≠ pid := by
          intro he
          subst he
          exact hk0notin (List.mem_filterMap.mpr ⟨r2, hr2, hpid⟩)
        exact playerStep_fresh hk0 hne (hfresh r2 (List.mem_cons_of_mem _ hr2) pid hpid)
      exact ih (playerStep teams st r0)
        (fun r2 hr2 => hids r2 (List.mem_cons_of_mem _ hr2)) hnd' hfresh1 r hrtl

theorem playerLoop_absorbed_id {teams : List Team} (B : List PlayerRecord) :
    ∀ st, (∀ r ∈ B, ∃ pid, r.player_id = some pid ∧
        ∃ y, st.rows.find? (playerMatches pid) = some y ∧ PlayerAbsorbed r y) →
      playerLoop teams st B = st := by
  induction B with
  | nil => intro st _; rfl
  | cons r rest ih =>
    intro st h
    obtain ⟨pid, hid, y, hy, hyabs⟩ := h r (List.mem_cons_self r rest)
    have hupd : updateFirst (playerMatches pid) (fun p => update_player_data p r) st.rows
        = st.rows := by
      apply updateFirst_eq_self
      intro z hz
      rw [hy] at hz
      cases hz
      exact update_player_data_of_absorbed hyabs
    have hstep : playerStep teams st r = st := by
      simp only [playerStep, hid, hy, hupd]
    unfold playerLoop
    rw [hstep]
    exact ih st fun r2 hr2 => h r2 (List.mem_cons_of_mem _ hr2)

theorem commitPlayers_ok {s s2 : Store} {st : Staged Player}
    (h : commitPlayers s st = .ok s2) :
    ((st.rows ++ st.added).map (·.player_id)).Nodup ∧
      s2 = { s with players := st.rows ++ st.added, nextPlayerSid := st.next } := by
  unfold commitPlayers at h
  split at h
  case isTrue hcond => cases h; exact ⟨hcond, rfl⟩
  case isFalse => cases h

theorem ingest_players_idem (s : Store) (B : List PlayerRecord)
    (hids : ∀ r ∈ B, ∃ pid, r.player_id = some pid)
    (hnd : (B.filterMap PlayerRecord.player_id).Nodup) :
    (ingest_players (ingest_players s B).1 B).1 = (ingest_players s B).1 := by
  cases h2 : commitPlayers s (playerLoop s.teams ⟨s.players, [], s.nextPlayerSid⟩ B) with
  | error e =>
    have hrun : ingest_players s B = (s, some e) := by simp [ingest_players, h2]
    rw [hrun]
    show (ingest_players s B).1 = s
    rw [hrun]
  | ok s2 =>
    obtain ⟨hnd1, hs2⟩ := commitPlayers_ok h2
    have hrun : ingest_players s B = (s2, none) := by simp [ingest_players, h2]
    have habs := @playerLoop_absorbs s.teams B
      ⟨s.players, [], s.nextPlayerSid⟩ hids hnd (fun _ _ _ _ => rfl)
    have hloop2 : playerLoop s2.teams ⟨s2.players, [], s2.nextPlayerSid⟩ B =
        ⟨s2.players, [], s2.nextPlayerSid⟩ := by
      apply playerLoop_absorbed_id
      intro r hr
      obtain ⟨pid, hid, y, hy, hyabs⟩ := habs r hr
      exact ⟨pid, hid, y, by rw [hs2]; exact hy, hyabs⟩
    have hcommit2 : commitPlayers s2 ⟨s2.players, [], s2.nextPlayerSid⟩ = .ok s2 := by
      unfold commitPlayers
      have hall : s2.players ++ ([] : List Player) = s2.players := List.append_nil _
      rw [if_pos]
      · simp only [hall]
      · rw [hall, hs2]
        exact hnd1
    have hrun2 : ingest_players s2 B = (s2, none) := by
      simp [ingest_players, hloop2, hcommit2]
    rw [hrun]
    show (ingest_players s2 B).1 = s2
    rw [hrun2]

/-! ## Team stats: absorption and replay -/

theorem update_team_stats_of_absorbed {r : TeamStatRecord} {ts : TeamStats}
    (h : TeamStatsAbsorbed r ts) : update_team_stats ts r = ts := by
  obtain ⟨a1, a2, a3, a4, a5, a6, a7, a8, a9, a10, a11, a12, a13, a14, a15, a16,
    a17, a18, a19⟩ := h
  unfold update_team_stats
  rw [pyOrInt_absorbed a1, pyOrInt_absorbed a2, pyOrInt_absorbed a3,
      pyOrRat_absorbed a4, pyOrRat_absorbed a5, pyOrRat_absorbed a6,
      pyOrRat_absorbed a7, pyOrRat_absorbed a8, pyOrRat_absorbed a9,
      pyOrRat_absorbed a10, pyOrRat_absorbed a11, pyOrRat_absorbed a12,
      pyOrRat_absorbed a13, pyOrRat_absorbed a14, pyOrRat_absorbed a15,
      pyOrRat_absorbed a16, pyOrRat_absorbed a17, pyOrRat_absorbed a18,
      pyOrRat_absorbed a19]

theorem update_team_stats_absorbs (ts : TeamStats) (r : TeamStatRecord) :
    TeamStatsAbsorbed r (update_team_stats ts r) := by
  refine ⟨?_, ?_, ?_, ?_, ?_, ?_, ?_, ?_, ?_, ?_, ?_, ?_, ?_, ?_, ?_, ?_, ?_, ?_, ?_⟩ <;>
    intro q hq hne <;> simp [update_team_stats, hq, pyOrInt, pyOrRat, hne]

theorem create_team_stats_absorbs (r : TeamStatRecord) (teamSid : Nat)
    (season : Int) (stype : String) :
    TeamStatsAbsorbed r (create_team_stats_from_data r teamSid season stype) := by
  refine ⟨?_, ?_, ?_, ?_, ?_, ?_, ?_, ?_, ?_, ?_, ?_, ?_, ?_, ?_, ?_, ?_, ?_, ?_, ?_⟩ <;>
    intro q hq hne <;> simp [create_team_stats_from_data, hq]

theorem update_team_stats_matches (sid : Nat) (season : Int) (stype : String)
    (ts : TeamStats) (r : TeamStatRecord) :
    teamStatsMatches sid season stype (update_team_stats ts r) =
      teamStatsMatches sid season stype ts := rfl

theorem create_team_stats_matches_self (r : TeamStatRecord) (teamSid : Nat)
    (season : Int) (stype : String) :
    teamStatsMatches teamSid season stype (create_team_stats_from_data r teamSid season stype)
      = true := by
  simp [teamStatsMatches, create_team_stats_from_data]

theorem teamStatStep_skip {season : Int} {stype : String} {teams : List Team}
    {st : Staged TeamStats} {r : TeamStatRecord}
    (h : teams.find? (fun t => t.team_id == pyStrD (some r.tEAM_ID)) = none) :
    teamStatStep season stype teams st r = st := by
  simp [teamStatStep, h]

theorem teamStatStep_absorbs {season : Int} {stype : String} {teams : List Team}
    {st : Staged TeamStats} {r : TeamStatRecord} {t : Team}
    (hl : teams.find? (fun t2 => t2.team_id == pyStrD (some r.tEAM_ID)) = some t)
    (hfresh : st.added.find? (teamStatsMatches t.sid season stype) = none) :
    ∃ y, ((teamStatStep season stype teams st r).rows ++
        (teamStatStep season stype teams st r).added).find?
          (teamStatsMatches t.sid season stype) = some y ∧ TeamStatsAbsorbed r y := by
  unfold teamStatStep
  rw [hl]
  cases hrow : st.rows.find? (teamStatsMatches t.sid season stype) with
  | some y0 =>
    simp only [hrow]
    have hupd : (updateFirst (teamStatsMatches t.sid season stype)
        (fun ts => update_team_stats ts r) st.rows).find?
          (teamStatsMatches t.sid season stype) = some (update_team_stats y0 r) := by
      rw [find?_updateFirst_self _ _ ?hf, hrow]
      · rfl
      case hf =>
        intro x hx
        rw [update_team_stats_matches]
        exact hx
    refine ⟨update_team_stats y0 r, ?_, update_team_stats_absorbs y0 r⟩
    rw [List.find?_append, hupd]
    rfl
  | none =>
    simp only [hrow]
    refine ⟨create_team_stats_from_data r t.sid season stype, ?_,
      create_team_stats_absorbs r t.sid season stype⟩
    rw [List.find?_append, hrow, List.find?_append, hfresh]
    simp [List.find?, create_team_stats_matches_self]

theorem teamStatStep_frame {season : Int} {stype : String} {teams : List Team}
    {st : Staged TeamStats} {r : TeamStatRecord} {sid0 : Nat}
    (hcase : teams.find? (fun t2 => t2.team_id == pyStrD (some r.tEAM_ID)) = none ∨
      ∃ t, teams.find? (fun t2 => t2.team_id == pyStrD (some r.tEAM_ID)) = some t ∧
        t.sid ≠ sid0) :
    ((teamStatStep season stype teams st r).rows ++
        (teamStatStep season stype teams st r).added).find?
          (teamStatsMatches sid0 season stype) =
      (st.rows ++ st.added).find? (teamStatsMatches sid0 season stype) := by
  rcases hcase with hl | ⟨t, hl, hne⟩
  · rw [teamStatStep_skip hl]
  · unfold teamStatStep
    rw [hl]
    cases hrow : st.rows.find? (teamStatsMatches t.sid season stype) with
    | some y0 =>
      simp only [hrow]
      rw [List.find?_append, List.find?_append]
      congr 1
      apply find?_updateFirst_disjoint
      · intro x hx
        have hxk : x.team_id = t.sid := by
          have := hx
          simp only [teamStatsMatches, Bool.and_eq_true, beq_iff_eq] at this
          exact this.1.1
        have hbeq : (x.team_id == sid0) = false := by
          rw [hxk]
          exact beq_eq_false_iff_ne.mpr hne
        simp [teamStatsMatches, hbeq]
      · intro x hx
        have hxk : x.team_id = t.sid := by
          simp only [teamStatsMatches, Bool.and_eq_true, beq_iff_eq] at hx
          exact hx.1.1
        have hbeq : ((update_team_stats x r).team_id == sid0) = false := by
          show (x.team_id == sid0) = false
          rw [hxk]
          exact beq_eq_false_iff_ne.mpr hne
        simp [teamStatsMatches, hbeq]
    | none =>
      simp only [hrow]
      have hbeq : (t.sid == sid0) = false := beq_eq_false_iff_ne.mpr hne
      have hnew : [create_team_stats_from_data r t.sid season stype].find?
          (teamStatsMatches sid0 season stype) = none := by
        simp [List.find?, teamStatsMatches, create_team_stats_from_data, hbeq]
      rw [List.find?_append, List.find?_append, List.find?_append, hnew, Option.or_none]

theorem teamStatStep_fresh {season : Int} {stype : String} {teams : List Team}
    {st : Staged TeamStats} {r : TeamStatRecord} {sid0 : Nat}
    (hcase : teams.find? (fun t2 => t2.team_id == pyStrD (some r.tEAM_ID)) = none ∨
      ∃ t, teams.find? (fun t2 => t2.team_id == pyStrD (some r.tEAM_ID)) = some t ∧
        t.sid ≠ sid0)
    (hfresh : st.added.find? (teamStatsMatches sid0 season stype) = none) :
    (teamStatStep season stype teams st r).added.find?
        (teamStatsMatches sid0 season stype) = none := by
  rcases hcase with hl | ⟨t, hl, hne⟩
  · rw [teamStatStep_skip hl]
    exact hfresh
  · unfold teamStatStep
    rw [hl]
    cases hrow : st.rows.find? (teamStatsMatches t.sid season stype) with
    | some y0 => simp only [hrow]; exact hfresh
    | none =>
      simp only [hrow]
      have hbeq : (t.sid == sid0) = false := beq_eq_false_iff_ne.mpr hne
      rw [List.find?_append, hfresh]
      simp [List.find?, teamStatsMatches, create_team_stats_from_data, hbeq]

theorem teamStatLoop_frame {season : Int} {stype : String} {teams : List Team} {sid0 : Nat}
    (B : List TeamStatRecord) :
    ∀ st, (∀ r ∈ B,
        teams.find? (fun t2 => t2.team_id == pyStrD (some r.tEAM_ID)) = none ∨
        ∃ t, teams.find? (fun t2 => t2.team_id == pyStrD (some r.tEAM_ID)) = some t ∧
          t.sid ≠ sid0) →
      ((teamStatLoop season stype teams st B).rows ++
          (teamStatLoop season stype teams st B).added).find?
            (teamStatsMatches sid0 season stype) =
        (st.rows ++ st.added).find? (teamStatsMatches sid0 season stype) := by
  induction B with
  | nil => intro st _; rfl
  | cons r rest ih =>
    intro st hB
    unfold teamStatLoop
    rw [ih (teamStatStep season stype teams st r)
        (fun r2 hr2 => hB r2 (List.mem_cons_of_mem _ hr2))]
    exact teamStatStep_frame (hB r (List.mem_cons_self r rest))

theorem teamStatLoop_absorbs {season : Int} {stype : String} {teams : List Team}
    (B : List TeamStatRecord) :
    ∀ st, (B.map fun r => pyStrD (some r.tEAM_ID)).Nodup →
      (teams.map (·.sid)).Nodup →
      (∀ r ∈ B, ∀ t, teams.find? (fun t2 => t2.team_id == pyStrD (some r.tEAM_ID)) = some t →
        st.added.find? (teamStatsMatches t.sid season stype) = none) →
      ∀ r ∈ B, ∀ t, teams.find? (fun t2 => t2.team_id == pyStrD (some r.tEAM_ID)) = some t →
        ∃ y, ((teamStatLoop season stype teams st B).rows ++
            (teamStatLoop season stype teams st B).added).find?
              (teamStatsMatches t.sid season stype) = some y ∧ TeamStatsAbsorbed r y := by
  induction B with
  | nil => intro st _ _ _ r hr; cases hr
  | cons r0 rest ih =>
    intro st hnd hsids hfresh r hr t ht
    have hndk : ((pyStrD (some r0.tEAM_ID)) ∉ rest.map fun r2 => pyStrD (some r2.tEAM_ID)) ∧
        (rest.map fun r2 => pyStrD (some r2.tEAM_ID)).Nodup := by
      rw [List.map_cons] at hnd
      exact List.nodup_cons.mp hnd
    have hdiff : ∀ r2 ∈ rest, ∀ t2,
        teams.find? (fun t3 => t3.team_id == pyStrD (some r2.tEAM_ID)) = some t2 →
        ∀ t0, teams.find? (fun t3 => t3.team_id == pyStrD (some r0.tEAM_ID)) = some t0 →
        t2.sid ≠ t0.sid := by
      intro r2 hr2 t2 ht2 t0 ht0 hsid
      have h2id : t2.team_id = pyStrD (some r2.tEAM_ID) := by
        have := List.find?_some ht2
        simpa [beq_iff_eq] using this
      have h0id : t0.team_id = pyStrD (some r0.tEAM_ID) := by
        have := List.find?_some ht0
        simpa [beq_iff_eq] using this
      have heq : t2 = t0 := by
        have hm2 := List.mem_of_find?_eq_some ht2
        have hm0 := List.mem_of_find?_eq_some ht0
        exact List.inj_on_of_nodup_map hsids hm2 hm0 hsid
      have hstr : pyStrD (some r2.tEAM_ID) = pyStrD (some r0.tEAM_ID) := by
        rw [← h2id, ← h0id, heq]
      apply hndk.1
      rw [← hstr]
      exact List.mem_map.mpr ⟨r2, hr2, rfl⟩
    unfold teamStatLoop
    rcases List.mem_cons.mp hr with hreq | hrtl
    · subst hreq
      obtain ⟨y, hy, hyabs⟩ := @teamStatStep_absorbs season stype teams st r t ht
        (hfresh r (List.mem_cons_self r rest) t ht)
      refine ⟨y, ?_, hyabs⟩
      rw [teamStatLoop_frame rest (teamStatStep season stype teams st r) ?hrest]
      · exact hy
      case hrest =>
        intro r2 hr2
        cases hl2 : teams.find? (fun t3 => t3.team_id == pyStrD (some r2.tEAM_ID)) with
        | none => exact Or.inl rfl
        | some t2 => exact Or.inr ⟨t2, rfl, hdiff r2 hr2 t2 hl2 t ht⟩
    · have hfresh1 : ∀ r2 ∈ rest, ∀ t2,
          teams.find? (fun t3 => t3.team_id == pyStrD (some r2.tEAM_ID)) = some t2 →
          (teamStatStep season stype teams st r0).added.find?
            (teamStatsMatches t2.sid season stype) = none := by
        intro r2 hr2 t2 ht2
        apply teamStatStep_fresh ?_ (hfresh r2 (List.mem_cons_of_mem _ hr2) t2 ht2)
        cases hl0 : teams.find? (fun t3 => t3.team_id == pyStrD (some r0.tEAM_ID)) with
        | none => exact Or.inl rfl
        | some t0 => exact Or.inr ⟨t0, rfl, Ne.symm (hdiff r2 hr2 t2 ht2 t0 hl0)⟩
      exact ih (teamStatStep season stype teams st r0) hndk.2 hsids hfresh1 r hrtl t ht

theorem teamStatLoop_absorbed_id {season : Int} {stype : String} {teams : List Team}
    (B : List TeamStatRecord) :
    ∀ st, (∀ r ∈ B, ∀ t,
        teams.find? (fun t2 => t2.team_id == pyStrD (some r.tEAM_ID)) = some t →
        ∃ y, st.rows.find? (teamStatsMatches t.sid season stype) = some y ∧
          TeamStatsAbsorbed r y) →
      teamStatLoop season stype teams st B = st := by
  induction B with
  | nil => intro st _; rfl
  | cons r rest ih =>
    intro st h
    have hstep : teamStatStep season stype teams st r = st := by
      cases hl : teams.find? (fun t2 => t2.team_id == pyStrD (some r.tEAM_ID)) with
      | none => exact teamStatStep_skip hl
      | some t =>
        obtain ⟨y, hy, hyabs⟩ := h r (List.mem_cons_self r rest) t hl
        have hupd : updateFirst (teamStatsMatches t.sid season stype)
            (fun ts => update_team_stats ts r) st.rows = st.rows := by
          apply updateFirst_eq_self
          intro z hz
          rw [hy] at hz
          cases hz
          exact update_team_stats_of_absorbed hyabs
        simp only [teamStatStep, hl, hy, hupd]
    unfold teamStatLoop
    rw [hstep]
    exact ih st fun r2 hr2 => h r2 (List.mem_cons_of_mem _ hr2)

theorem ingest_team_stats_idem (season : Int) (stype : String) (s : Store)
    (B : List TeamStatRecord)
    (hnd : (B.map fun r => pyStrD (some r.tEAM_ID)).Nodup)
    (hsids : (s.teams.map (·.sid)).Nodup) :
    ingest_team_stats season stype (ingest_team_stats season stype s B) B =
      ingest_team_stats season stype s B := by
  have habs := @teamStatLoop_absorbs season stype s.teams
    B ⟨s.teamStats, [], 0⟩ hnd hsids (fun _ _ _ _ => rfl)
  have hloop2 : teamStatLoop season stype s.teams
      ⟨(ingest_team_stats season stype s B).teamStats, [], 0⟩ B =
      ⟨(ingest_team_stats season stype s B).teamStats, [], 0⟩ := by
    apply teamStatLoop_absorbed_id
    intro r hr t ht
    exact habs r hr t ht
  show { ingest_team_stats season stype s B with
      teamStats :=
        (teamStatLoop season stype s.teams
          ⟨(ingest_team_stats season stype s B).teamStats, [], 0⟩ B).rows ++
        (teamStatLoop season stype s.teams
          ⟨(ingest_team_stats season stype s B).teamStats, [], 0⟩ B).added } =
    ingest_team_stats season stype s B
  rw [hloop2]
  simp

/-! ## Player stats: absorption and replay -/

theorem update_player_stats_of_absorbed {r : PlayerStatRecord} {ps : PlayerSeasonStats}
    (h : PlayerStatsAbsorbed r ps) : update_player_stats ps r = ps := by
  obtain ⟨a1, a2, a3, a4, a5, a6, a7, a8, a9, a10, a11, a12, a13, a14, a15, a16,
    a17, a18, a19, a20, a21⟩ := h
  unfold update_player_stats
  rw [pyOrInt_absorbed a1, pyOrInt_absorbed a2, pyOrRat_absorbed a3,
      pyOrRat_absorbed a4, pyOrRat_absorbed a5, pyOrRat_absorbed a6,
      pyOrRat_absorbed a7, pyOrRat_absorbed a8, pyOrRat_absorbed a9,
      pyOrRat_absorbed a10, pyOrRat_absorbed a11, pyOrRat_absorbed a12,
      pyOrRat_absorbed a13, pyOrRat_absorbed a14, pyOrRat_absorbed a15,
      pyOrRat_absorbed a16, pyOrRat_absorbed a17, pyOrRat_absorbed a18,
      pyOrRat_absorbed a19, pyOrRat_absorbed a20, pyOrRat_absorbed a21]

theorem update_player_stats_absorbs (ps : PlayerSeasonStats) (r : PlayerStatRecord) :
    PlayerStatsAbsorbed r (update_player_stats ps r) := by
  refine ⟨?_, ?_, ?_, ?_, ?_, ?_, ?_, ?_, ?_, ?_, ?_, ?_, ?_, ?_, ?_, ?_, ?_, ?_, ?_,
    ?_, ?_⟩ <;> intro q hq hne <;> simp [update_player_stats, hq, pyOrInt, pyOrRat, hne]

theorem create_player_stats_absorbs (r : PlayerStatRecord) (pSid : Nat)
    (teamSid : Option Nat) (season : Int) (stype : String) :
    PlayerStatsAbsorbed r (create_player_stats_from_data r pSid teamSid season stype) := by
  refine ⟨?_, ?_, ?_, ?_, ?_, ?_, ?_, ?_, ?_, ?_, ?_, ?_, ?_, ?_, ?_, ?_, ?_, ?_, ?_,
    ?_, ?_⟩ <;> intro q hq hne <;> simp [create_player_stats_from_data, hq]

theorem update_player_stats_matches (sid : Nat) (season : Int) (stype : String)
    (ps : PlayerSeasonStats) (r : PlayerStatRecord) :
    playerStatsMatches sid season stype (update_player_stats ps r) =
      playerStatsMatches sid season stype ps := rfl

theorem create_player_stats_matches_self (r : PlayerStatRecord) (pSid : Nat)
    (teamSid : Option Nat) (season : Int) (stype : String) :
    playerStatsMatches pSid season stype
      (create_player_stats_from_data r pSid teamSid season stype) = true := by
  simp [playerStatsMatches, create_player_stats_from_data]

theorem playerStatStep_skip {season : Int} {stype : String} {teams : List Team}
    {players : List Player} {st : Staged PlayerSeasonStats} {r : PlayerStatRecord}
    (h : players.find? (fun p => p.player_id == pyStrD (some r.pLAYER_ID)) = none) :
    playerStatStep season stype teams players st r = st := by
  simp [playerStatStep, h]

theorem playerStatStep_absorbs {season : Int} {stype : String} {teams : List Team}
    {players : List Player} {st : Staged PlayerSeasonStats} {r : PlayerStatRecord}
    {p : Player}
    (hl : players.find? (fun p2 => p2.player_id == pyStrD (some r.pLAYER_ID)) = some p)
    (hfresh : st.added.find? (playerStatsMatches p.sid season stype) = none) :
    ∃ y, ((playerStatStep season stype teams players st r).rows ++
        (playerStatStep season stype teams players st r).added).find?
          (playerStatsMatches p.sid season stype) = some y ∧ PlayerStatsAbsorbed r y := by
  unfold playerStatStep
  rw [hl]
  cases hrow : st.rows.find? (playerStatsMatches p.sid season stype) with
  | some y0 =>
    simp only [hrow]
    have hupd : (updateFirst (playerStatsMatches p.sid season stype)
        (fun ps => update_player_stats ps r) st.rows).find?
          (playerStatsMatches p.sid season stype) = some (update_player_stats y0 r) := by
      rw [find?_updateFirst_self _ _ ?hf, hrow]
      · rfl
      case hf =>
        intro x hx
        rw [update_player_stats_matches]
        exact hx
    refine ⟨update_player_stats y0 r, ?_, update_player_stats_absorbs y0 r⟩
    rw [List.find?_append, hupd]
    rfl
  | none =>
    simp only [hrow]
    refine ⟨create_player_stats_from_data r p.sid
      ((if r.tEAM_ID.truthy then teams.find? (fun t => t.team_id == pyStr r.tEAM_ID)
        else none).map (·.sid)) season stype, ?_, create_player_stats_absorbs _ _ _ _ _⟩
    rw [List.find?_append, hrow, List.find?_append, hfresh]
    simp [List.find?, create_player_stats_matches_self]

theorem playerStatStep_frame {season : Int} {stype : String} {teams : List Team}
    {players : List Player} {st : Staged PlayerSeasonStats} {r : PlayerStatRecord}
    {sid0 : Nat}
    (hcase : players.find? (fun p2 => p2.player_id == pyStrD (some r.pLAYER_ID)) = none ∨
      ∃ p, players.find? (fun p2 => p2.player_id == pyStrD (some r.pLAYER_ID)) = some p ∧
        p.sid ≠ sid0) :
    ((playerStatStep season stype teams players st r).rows ++
        (playerStatStep season stype teams players st r).added).find?
          (playerStatsMatches sid0 season stype) =
      (st.rows ++ st.added).find? (playerStatsMatches sid0 season stype) := by
  rcases hcase with hl | ⟨p, hl, hne⟩
  · rw [playerStatStep_skip hl]
  · unfold playerStatStep
    rw [hl]
    cases hrow : st.rows.find? (playerStatsMatches p.sid season stype) with
    | some y0 =>
      simp only [hrow]
      rw [List.find?_append, List.find?_append]
      congr 1
      apply find?_updateFirst_disjoint
      · intro x hx
        have hxk : x.player_id = p.sid := by
          simp only [playerStatsMatches, Bool.and_eq_true, beq_iff_eq] at hx
          exact hx.1.1
        have hbeq : (x.player_id == sid0) = false := by
          rw [hxk]
          exact beq_eq_false_iff_ne.mpr hne
        simp [playerStatsMatches, hbeq]
      · intro x hx
        have hxk : x.player_id = p.sid := by
          simp only [playerStatsMatches, Bool.and_eq_true, beq_iff_eq] at hx
          exact hx.1.1
        have hbeq : ((update_player_stats x r).player_id == sid0) = false := by
          show (x.player_id == sid0) = false
          rw [hxk]
          exact beq_eq_false_iff_ne.mpr hne
        simp [playerStatsMatches, hbeq]
    | none =>
      simp only [hrow]
      have hbeq : (p.sid == sid0) = false := beq_eq_false_iff_ne.mpr hne
      have hnew : [create_player_stats_from_data r p.sid
          ((if r.tEAM_ID.truthy then teams.find? (fun t => t.team_id == pyStr r.tEAM_ID)
            else none).map (·.sid)) season stype].find?
            (playerStatsMatches sid0 season stype) = none := by
        simp [List.find?, playerStatsMatches, create_player_stats_from_data, hbeq]
      rw [List.find?_append, List.find?_append, List.find?_append, hnew, Option.or_none]

theorem playerStatStep_fresh {season : Int} {stype : String} {teams : List Team}
    {players : List Player} {st : Staged PlayerSeasonStats} {r : PlayerStatRecord}
    {sid0 : Nat}
    (hcase : players.find? (fun p2 => p2.player_id == pyStrD (some r.pLAYER_ID)) = none ∨
      ∃ p, players.find? (fun p2 => p2.player_id == pyStrD (some r.pLAYER_ID)) = some p ∧
        p.sid ≠ sid0)
    (hfresh : st.added.find? (playerStatsMatches sid0 season stype) = none) :
    (playerStatStep season stype teams players st r).added.find?
        (playerStatsMatches sid0 season stype) = none := by
  rcases hcase with hl | ⟨p, hl, hne⟩
  · rw [playerStatStep_skip hl]
    exact hfresh
  · unfold playerStatStep
    rw [hl]
    cases hrow : st.rows.find? (playerStatsMatches p.sid season stype) with
    | some y0 => simp only [hrow]; exact hfresh
    | none =>
      simp only [hrow]
      have hbeq : (p.sid == sid0) = false := beq_eq_false_iff_ne.mpr hne
      rw [List.find?_append, hfresh]
      simp [List.find?, playerStatsMatches, create_player_stats_from_data, hbeq]

theorem playerStatLoop_frame {season : Int} {stype : String} {teams : List Team}
    {players : List Player} {sid0 : Nat} (B : List PlayerStatRecord) :
    ∀ st, (∀ r ∈ B,
        players.find? (fun p2 => p2.player_id == pyStrD (some r.pLAYER_ID)) = none ∨
        ∃ p, players.find? (fun p2 => p2.player_id == pyStrD (some r.pLAYER_ID)) = some p ∧
          p.sid ≠ sid0) →
      ((playerStatLoop season stype teams players st B).rows ++
          (playerStatLoop season stype teams players st B).added).find?
            (playerStatsMatches sid0 season stype) =
        (st.rows ++ st.added).find? (playerStatsMatches sid0 season stype) := by
  induction B with
  | nil => intro st _; rfl
  | cons r rest ih =>
    intro st hB
    unfold playerStatLoop
    rw [ih (playerStatStep season stype teams players st r)
        (fun r2 hr2 => hB r2 (List.mem_cons_of_mem _ hr2))]
    exact playerStatStep_frame (hB r (List.mem_cons_self r rest))

theorem playerStatLoop_absorbs {season : Int} {stype : String} {teams : List Team}
    {players : List Player} (B : List PlayerStatRecord) :
    ∀ st, (B.map fun r => pyStrD (some r.pLAYER_ID)).Nodup →
      (players.map (·.sid)).Nodup →
      (∀ r ∈ B, ∀ p,
        players.find? (fun p2 => p2.player_id == pyStrD (some r.pLAYER_ID)) = some p →
        st.added.find? (playerStatsMatches p.sid season stype) = none) →
      ∀ r ∈ B, ∀ p,
        players.find? (fun p2 => p2.player_id == pyStrD (some r.pLAYER_ID)) = some p →
        ∃ y, ((playerStatLoop season stype teams players st B).rows ++
            (playerStatLoop season stype teams players st B).added).find?
              (playerStatsMatches p.sid season stype) = some y ∧ PlayerStatsAbsorbed r y := by
  induction B with
  | nil => intro st _ _ _ r hr; cases hr
  | cons r0 rest ih =>
    intro st hnd hsids hfresh r hr p hp
    have hndk : ((pyStrD (some r0.pLAYER_ID)) ∉
          rest.map fun r2 => pyStrD (some r2.pLAYER_ID)) ∧
        (rest.map fun r2 => pyStrD (some r2.pLAYER_ID)).Nodup := by
      rw [List.map_cons] at hnd
      exact List.nodup_cons.mp hnd
    have hdiff : ∀ r2 ∈ rest, ∀ p2,
        players.find? (fun p3 => p3.player_id == pyStrD (some r2.pLAYER_ID)) = some p2 →
        ∀ p0, players.find? (fun p3 => p3.player_id == pyStrD (some r0.pLAYER_ID)) = some p0 →
        p2.sid ≠ p0.sid := by
      intro r2 hr2 p2 hp2 p0 hp0 hsid
      have h2id : p2.player_id = pyStrD (some r2.pLAYER_ID) := by
        have := List.find?_some hp2
        simpa [beq_iff_eq] using this
      have h0id : p0.player_id = pyStrD (some r0.pLAYER_ID) := by
        have := List.find?_some hp0
        simpa [beq_iff_eq] using this
      have heq : p2 = p0 := by
        have hm2 := List.mem_of_find?_eq_some hp2
        have hm0 := List.mem_of_find?_eq_some hp0
        exact List.inj_on_of_nodup_map hsids hm2 hm0 hsid
      have hstr : pyStrD (some r2.pLAYER_ID) = pyStrD (some r0.pLAYER_ID) := by
        rw [← h2id, ← h0id, heq]
      apply hndk.1
      rw [← hstr]
      exact List.mem_map.mpr ⟨r2, hr2, rfl⟩
    unfold playerStatLoop
    rcases List.mem_cons.mp hr with hreq | hrtl
    · subst hreq
      obtain ⟨y, hy, hyabs⟩ :=
        @playerStatStep_absorbs season stype teams players st r p hp
          (hfresh r (List.mem_cons_self r rest) p hp)
      refine ⟨y, ?_, hyabs⟩
      rw [playerStatLoop_frame rest (playerStatStep season stype teams players st r) ?hrest]
      · exact hy
      case hrest =>
        intro r2 hr2
        cases hl2 : players.find? (fun p3 => p3.player_id == pyStrD (some r2.pLAYER_ID)) with
        | none => exact Or.inl rfl
        | some p2 => exact Or.inr ⟨p2, rfl, hdiff r2 hr2 p2 hl2 p hp⟩
    · have hfresh1 : ∀ r2 ∈ rest, ∀ p2,
          players.find? (fun p3 => p3.player_id == pyStrD (some r2.pLAYER_ID)) = some p2 →
          (playerStatStep season stype teams players st r0).added.find?
            (playerStatsMatches p2.sid season stype) = none := by
        intro r2 hr2 p2 hp2
        apply playerStatStep_fresh ?_ (hfresh r2 (List.mem_cons_of_mem _ hr2) p2 hp2)
        cases hl0 : players.find? (fun p3 => p3.player_id == pyStrD (some r0.pLAYER_ID)) with
        | none => exact Or.inl rfl
        | some p0 => exact Or.inr ⟨p0, rfl, Ne.symm (hdiff r2 hr2 p2 hp2 p0 hl0)⟩
      exact ih (playerStatStep season stype teams players st r0) hndk.2 hsids hfresh1 r hrtl p hp

theorem playerStatLoop_absorbed_id {season : Int} {stype : String} {teams : List Team}
    {players : List Player} (B : List PlayerStatRecord) :
    ∀ st, (∀ r ∈ B, ∀ p,
        players.find? (fun p2 => p2.player_id == pyStrD (some r.pLAYER_ID)) = some p →
        ∃ y, st.rows.find? (playerStatsMatches p.sid season stype) = some y ∧
          PlayerStatsAbsorbed r y) →
      playerStatLoop season stype teams players st B = st := by
  induction B with
  | nil => intro st _; rfl
  | cons r rest ih =>
    intro st h
    have hstep : playerStatStep season stype teams players st r = st := by
      cases hl : players.find? (fun p2 => p2.player_id == pyStrD (some r.pLAYER_ID)) with
      | none => exact playerStatStep_skip hl
      | some p =>
        obtain ⟨y, hy, hyabs⟩ := h r (List.mem_cons_self r rest) p hl
        have hupd : updateFirst (playerStatsMatches p.sid season stype)
            (fun ps => update_player_stats ps r) st.rows = st.rows := by
          apply updateFirst_eq_self
          intro z hz
          rw [hy] at hz
          cases hz
          exact update_player_stats_of_absorbed hyabs
        simp only [playerStatStep, hl, hy, hupd]
    unfold playerStatLoop
    rw [hstep]
    exact ih st fun r2 hr2 => h r2 (List.mem_cons_of_mem _ hr2)

theorem commitPlayerStats_ok {s s2 : Store} {st : Staged PlayerSeasonStats}
    (h : commitPlayerStats s st = .ok s2) :
    st.added.all (fun ps => ps.team_id.isSome) = true ∧
      s2 = { s with playerStats := st.rows ++ st.added } := by
  unfold commitPlayerStats at h
  split at h
  case isTrue hcond => cases h; exact ⟨hcond, rfl⟩
  case isFalse => cases h

theorem ingest_player_stats_idem (season : Int) (stype : String) (s : Store)
    (B : List PlayerStatRecord)
    (hnd : (B.map fun r => pyStrD (some r.pLAYER_ID)).Nodup)
    (hsids : (s.players.map (·.sid)).Nodup) :
    (ingest_player_stats season stype (ingest_player_stats season stype s B).1 B).1 =
      (ingest_player_stats season stype s B).1 := by
  cases h2 : commitPlayerStats s
      (playerStatLoop season stype s.teams s.players ⟨s.playerStats, [], 0⟩ B) with
  | error e =>
    have hrun : ingest_player_stats season stype s B = (s, some e) := by
      simp [ingest_player_stats, h2]
    rw [hrun]
    show (ingest_player_stats season stype s B).1 = s
    rw [hrun]
  | ok s2 =>
    obtain ⟨hall, hs2⟩ := commitPlayerStats_ok h2
    subst hs2
    have hrun : ingest_player_stats season stype s B =
        ({ s with playerStats :=
          (playerStatLoop season stype s.teams s.players ⟨s.playerStats, [], 0⟩ B).rows ++
          (playerStatLoop season stype s.teams s.players ⟨s.playerStats, [], 0⟩ B).added },
         none) := by
      simp [ingest_player_stats, h2]
    have habs := @playerStatLoop_absorbs season stype s.teams s.players
      B ⟨s.playerStats, [], 0⟩ hnd hsids
      (fun _ _ _ _ => rfl)
    rw [hrun]
    have hloop2 : playerStatLoop season stype s.teams s.players
        ⟨(playerStatLoop season stype s.teams s.players ⟨s.playerStats, [], 0⟩ B).rows ++
          (playerStatLoop season stype s.teams s.players ⟨s.playerStats, [], 0⟩ B).added,
          [], 0⟩ B =
        ⟨(playerStatLoop season stype s.teams s.players ⟨s.playerStats, [], 0⟩ B).rows ++
          (playerStatLoop season stype s.teams s.players ⟨s.playerStats, [], 0⟩ B).added,
          [], 0⟩ := by
      apply playerStatLoop_absorbed_id
      intro r hr p hp
      exact habs r hr p hp
    have hcommit2 : commitPlayerStats
        { s with playerStats :=
          (playerStatLoop season stype s.teams s.players ⟨s.playerStats, [], 0⟩ B).rows ++
          (playerStatLoop season stype s.teams s.players ⟨s.playerStats, [], 0⟩ B).added }
        ⟨(playerStatLoop season stype s.teams s.players ⟨s.playerStats, [], 0⟩ B).rows ++
          (playerStatLoop season stype s.teams s.players ⟨s.playerStats, [], 0⟩ B).added,
          [], 0⟩ = .ok
        { s with playerStats :=
          (playerStatLoop season stype s.teams s.players ⟨s.playerStats, [], 0⟩ B).rows ++
          (playerStatLoop season stype s.teams s.players ⟨s.playerStats, [], 0⟩ B).added } := by
      unfold commitPlayerStats
      simp
    have hrun2 : ingest_player_stats season stype
        { s with playerStats := (playerStatLoop season stype s.teams s.players ⟨s.playerStats, [], 0⟩ B).rows ++
          (playerStatLoop season stype s.teams s.players ⟨s.playerStats, [], 0⟩ B).added } B =
        ({ s with playerStats := (playerStatLoop season stype s.teams s.players ⟨s.playerStats, [], 0⟩ B).rows ++
          (playerStatLoop season stype s.teams s.players ⟨s.playerStats, [], 0⟩ B).added }, none) := by
      show (match commitPlayerStats { s with playerStats := (playerStatLoop season stype s.teams s.players ⟨s.playerStats, [], 0⟩ B).rows ++
          (playerStatLoop season stype s.teams s.players ⟨s.playerStats, [], 0⟩ B).added }
          (playerStatLoop season stype s.teams s.players
            ⟨(playerStatLoop season stype s.teams s.players ⟨s.playerStats, [], 0⟩ B).rows ++
          (playerStatLoop season stype s.teams s.players ⟨s.playerStats, [], 0⟩ B).added, [], 0⟩ B) with
        | .ok s3 => (s3, (none : Option PyErr))
        | .error e => ({ s with playerStats := (playerStatLoop season stype s.teams s.players ⟨s.playerStats, [], 0⟩ B).rows ++
          (playerStatLoop season stype s.teams s.players ⟨s.playerStats, [], 0⟩ B).added }, some e)) =
        ({ s with playerStats := (playerStatLoop season stype s.teams s.players ⟨s.playerStats, [], 0⟩ B).rows ++
          (playerStatLoop season stype s.teams s.players ⟨s.playerStats, [], 0⟩ B).added }, none)
      rw [hloop2, hcommit2]
    rw [hrun2]

/-! ## Store-level facts used by the uniqueness claim -/

theorem ingest_teams_untouched (s : Store) (B : List TeamRecord) :
    (ingest_teams s B).1.players = s.players ∧ (ingest_teams s B).1.games = s.games := by
  cases h1 : teamLoop ⟨s.teams, [], s.nextTeamSid⟩ B with
  | error e => simp [ingest_teams, h1]
  | ok st =>
    cases h2 : commitTeams s st with
    | error e => simp [ingest_teams, h1, h2]
    | ok s2 =>
      obtain ⟨_, _, hs2⟩ := commitTeams_ok h2
      simp [ingest_teams, h1, h2, hs2]

theorem ingest_teams_unique (s : Store) (B : List TeamRecord)
    (h : (s.teams.map (·.team_id)).Nodup) :
    ((ingest_teams s B).1.teams.map (·.team_id)).Nodup := by
  cases h1 : teamLoop ⟨s.teams, [], s.nextTeamSid⟩ B with
  | error e =>
    have hrun : (ingest_teams s B).1 = s := by simp [ingest_teams, h1]
    rw [hrun]
    exact h
  | ok st =>
    cases h2 : commitTeams s st with
    | error e =>
      have hrun : (ingest_teams s B).1 = s := by simp [ingest_teams, h1, h2]
      rw [hrun]
      exact h
    | ok s2 =>
      obtain ⟨hnd1, _, hs2⟩ := commitTeams_ok h2
      have hrun : (ingest_teams s B).1 = s2 := by simp [ingest_teams, h1, h2]
      rw [hrun, hs2]
      exact hnd1

theorem ingest_players_untouched (s : Store) (B : List PlayerRecord) :
    (ingest_players s B).1.teams = s.teams ∧ (ingest_players s B).1.games = s.games := by
  cases h2 : commitPlayers s (playerLoop s.teams ⟨s.players, [], s.nextPlayerSid⟩ B) with
  | error e => simp [ingest_players, h2]
  | ok s2 =>
    obtain ⟨_, hs2⟩ := commitPlayers_ok h2
    simp [ingest_players, h2, hs2]

theorem ingest_players_unique (s : Store) (B : List PlayerRecord)
    (h : (s.players.map (·.player_id)).Nodup) :
    ((ingest_players s B).1.players.map (·.player_id)).Nodup := by
  cases h2 : commitPlayers s (playerLoop s.teams ⟨s.players, [], s.nextPlayerSid⟩ B) with
  | error e =>
    have hrun : (ingest_players s B).1 = s := by simp [ingest_players, h2]
    rw [hrun]
    exact h
  | ok s2 =>
    obtain ⟨hnd1, hs2⟩ := commitPlayers_ok h2
    have hrun : (ingest_players s B).1 = s2 := by simp [ingest_players, h2]
    rw [hrun, hs2]
    exact hnd1

theorem ingest_games_untouched (season : Int) (stype : String) (s : Store)
    (B : List GameRecord) :
    (ingest_games season stype s B).1.teams = s.teams ∧
      (ingest_games season stype s B).1.players = s.players := by
  cases h1 : gameLoop season stype s.teams ⟨s.games, [], 0⟩ B with
  | error e => simp [ingest_games, h1]
  | ok st =>
    cases h2 : commitGames s st with
    | error e => simp [ingest_games, h1, h2]
    | ok s2 =>
      obtain ⟨_, _, hs2⟩ := commitGames_ok h2
      simp [ingest_games, h1, h2, hs2]

theorem ingest_games_unique (season : Int) (stype : String) (s : Store)
    (B : List GameRecord) (h : (s.games.map (·.id)).Nodup) :
    ((ingest_games season stype s B).1.games.map (·.id)).Nodup := by
  cases h1 : gameLoop season stype s.teams ⟨s.games, [], 0⟩ B with
  | error e =>
    have hrun : (ingest_games season stype s B).1 = s := by simp [ingest_games, h1]
    rw [hrun]
    exact h
  | ok st =>
    cases h2 : commitGames s st with
    | error e =>
      have hrun : (ingest_games season stype s B).1 = s := by simp [ingest_games, h1, h2]
      rw [hrun]
      exact h
    | ok s2 =>
      obtain ⟨_, hnd1, hs2⟩ := commitGames_ok h2
      have hrun : (ingest_games season stype s B).1 = s2 := by simp [ingest_games, h1, h2]
      rw [hrun, hs2]
      exact hnd1

theorem ingest_player_stats_untouched (season : Int) (stype : String) (s : Store)
    (B : List PlayerStatRecord) :
    (ingest_player_stats season stype s B).1.teams = s.teams ∧
      (ingest_player_stats season stype s B).1.players = s.players ∧
      (ingest_player_stats season stype s B).1.games = s.games := by
  cases h2 : commitPlayerStats s
      (playerStatLoop season stype s.teams s.players ⟨s.playerStats, [], 0⟩ B) with
  | error e => simp [ingest_player_stats, h2]
  | ok s2 =>
    obtain ⟨_, hs2⟩ := commitPlayerStats_ok h2
    simp [ingest_player_stats, h2, hs2]

theorem runOp_preserves_unique (s : Store) (op : IngestOp) (h : ExtIdsUnique s) :
    ExtIdsUnique (runOp s op) := by
  obtain ⟨ht, hp, hg⟩ := h
  cases op with
  | opTeams B =>
    simp only [runOp]
    exact ⟨ingest_teams_unique s B ht,
      by rw [(ingest_teams_untouched s B).1]; exact hp,
      by rw [(ingest_teams_untouched s B).2]; exact hg⟩
  | opGames season stype B =>
    simp only [runOp]
    exact ⟨by rw [(ingest_games_untouched season stype s B).1]; exact ht,
      by rw [(ingest_games_untouched season stype s B).2]; exact hp,
      ingest_games_unique season stype s B hg⟩
  | opPlayers B =>
    simp only [runOp]
    exact ⟨by rw [(ingest_players_untouched s B).1]; exact ht,
      ingest_players_unique s B hp,
      by rw [(ingest_players_untouched s B).2]; exact hg⟩
  | opTeamStats season stype B => exact ⟨ht, hp, hg⟩
  | opPlayerStats season stype B =>
    simp only [runOp]
    exact ⟨by rw [(ingest_player_stats_untouched season stype s B).1]; exact ht,
      by rw [(ingest_player_stats_untouched season stype s B).2.1]; exact hp,
      by rw [(ingest_player_stats_untouched season stype s B).2.2]; exact hg⟩

theorem runOps_preserves_unique (ops : List IngestOp) :
    ∀ s, ExtIdsUnique s → ExtIdsUnique (runOps s ops) := by
  induction ops with
  | nil => intro s h; exact h
  | cons op rest ih => intro s h; exact ih (runOp s op) (runOp_preserves_unique s op h)

/-! ## Skip-and-continue facts used by the stats-skip claim -/

theorem teamStatLoop_skip_head {season : Int} {stype : String} {teams : List Team}
    {st : Staged TeamStats} {r : TeamStatRecord} (rest : List TeamStatRecord)
    (h : teams.find? (fun t => t.team_id == pyStrD (some r.tEAM_ID)) = none) :
    teamStatLoop season stype teams st (r :: rest) =
      teamStatLoop season stype teams st rest := by
  unfold teamStatLoop
  rw [teamStatStep_skip h]
  cases rest <;> rfl

theorem playerStatLoop_skip_head {season : Int} {stype : String} {teams : List Team}
    {players : List Player} {st : Staged PlayerSeasonStats} {r : PlayerStatRecord}
    (rest : List PlayerStatRecord)
    (h : players.find? (fun p => p.player_id == pyStrD (some r.pLAYER_ID)) = none) :
    playerStatLoop season stype teams players st (r :: rest) =
      playerStatLoop season stype teams players st rest := by
  unfold playerStatLoop
  rw [playerStatStep_skip h]
  cases rest <;> rfl

theorem teamStatStep_mem {season : Int} {stype : String} {teams : List Team}
    {st : Staged TeamStats} {r : TeamStatRecord} :
    ∀ z ∈ (teamStatStep season stype teams st r).rows ++
        (teamStatStep season stype teams st r).added,
      z ∈ st.rows ++ st.added ∨
        (∃ z0 ∈ st.rows ++ st.added, z.team_id = z0.team_id) ∨
        ∃ t ∈ teams, z.team_id = t.sid := by
  intro z hz
  cases hl : teams.find? (fun t => t.team_id == pyStrD (some r.tEAM_ID)) with
  | none =>
    rw [teamStatStep_skip hl] at hz
    exact Or.inl hz
  | some t =>
    unfold teamStatStep at hz
    rw [hl] at hz
    cases hrow : st.rows.find? (teamStatsMatches t.sid season stype) with
    | some y0 =>
      simp only [hrow] at hz
      rcases List.mem_append.mp hz with hz1 | hz1
      · rcases mem_updateFirst _ _ _ z hz1 with hz2 | ⟨y, hy, rfl⟩
        · exact Or.inl (List.mem_append.mpr (Or.inl hz2))
        · exact Or.inr (Or.inl ⟨y, List.mem_append.mpr (Or.inl hy), rfl⟩)
      · exact Or.inl (List.mem_append.mpr (Or.inr hz1))
    | none =>
      simp only [hrow] at hz
      rcases List.mem_append.mp hz with hz1 | hz1
      · exact Or.inl (List.mem_append.mpr (Or.inl hz1))
      · rcases List.mem_append.mp hz1 with hz2 | hz2
        · exact Or.inl (List.mem_append.mpr (Or.inr hz2))
        · rcases List.mem_singleton.mp hz2 with rfl
          exact Or.inr (Or.inr ⟨t, List.mem_of_find?_eq_some hl, rfl⟩)

theorem teamStatLoop_mem {season : Int} {stype : String} {teams : List Team}
    (B : List TeamStatRecord) :
    ∀ st, ∀ z ∈ (teamStatLoop season stype teams st B).rows ++
        (teamStatLoop season stype teams st B).added,
      z ∈ st.rows ++ st.added ∨
        (∃ z0 ∈ st.rows ++ st.added, z.team_id = z0.team_id) ∨
        ∃ t ∈ teams, z.team_id = t.sid := by
  induction B with
  | nil => intro st z hz; exact Or.inl hz
  | cons r rest ih =>
    intro st z hz
    unfold teamStatLoop at hz
    rcases ih (teamStatStep season stype teams st r) z hz with hz1 | ⟨z0, hz0, heq⟩ | h3
    · exact teamStatStep_mem z hz1
    · rcases teamStatStep_mem z0 hz0 with h | ⟨z1, hz1, heq1⟩ | ⟨t, htm, heq1⟩
      · exact Or.inr (Or.inl ⟨z0, h, heq⟩)
      · exact Or.inr (Or.inl ⟨z1, hz1, heq.trans heq1⟩)
      · exact Or.inr (Or.inr ⟨t, htm, heq.trans heq1⟩)
    · exact Or.inr (Or.inr h3)

theorem playerStatStep_mem {season : Int} {stype : String} {teams : List Team}
    {players : List Player} {st : Staged PlayerSeasonStats} {r : PlayerStatRecord} :
    ∀ z ∈ (playerStatStep season stype teams players st r).rows ++
        (playerStatStep season stype teams players st r).added,
      z ∈ st.rows ++ st.added ∨
        (∃ z0 ∈ st.rows ++ st.added, z.player_id = z0.player_id) ∨
        ∃ p ∈ players, z.player_id = p.sid := by
  intro z hz
  cases hl : players.find? (fun p => p.player_id == pyStrD (some r.pLAYER_ID)) with
  | none =>
    rw [playerStatStep_skip hl] at hz
    exact Or.inl hz
  | some p =>
    unfold playerStatStep at hz
    rw [hl] at hz
    cases hrow : st.rows.find? (playerStatsMatches p.sid season stype) with
    | some y0 =>
      simp only [hrow] at hz
      rcases List.mem_append.mp hz with hz1 | hz1
      · rcases mem_updateFirst _ _ _ z hz1 with hz2 | ⟨y, hy, rfl⟩
        · exact Or.inl (List.mem_append.mpr (Or.inl hz2))
        · exact Or.inr (Or.inl ⟨y, List.mem_append.mpr (Or.inl hy), rfl⟩)
      · exact Or.inl (List.mem_append.mpr (Or.inr hz1))
    | none =>
      simp only [hrow] at hz
      rcases List.mem_append.mp hz with hz1 | hz1
      · exact Or.inl (List.mem_append.mpr (Or.inl hz1))
      · rcases List.mem_append.mp hz1 with hz2 | hz2
        · exact Or.inl (List.mem_append.mpr (Or.inr hz2))
        · rcases List.mem_singleton.mp hz2 with rfl
          exact Or.inr (Or.inr ⟨p, List.mem_of_find?_eq_some hl, rfl⟩)

theorem playerStatLoop_mem {season : Int} {stype : String} {teams : List Team}
    {players : List Player} (B : List PlayerStatRecord) :
    ∀ st, ∀ z ∈ (playerStatLoop season stype teams players st B).rows ++
        (playerStatLoop season stype teams players st B).added,
      z ∈ st.rows ++ st.added ∨
        (∃ z0 ∈ st.rows ++ st.added, z.player_id = z0.player_id) ∨
        ∃ p ∈ players, z.player_id = p.sid := by
  induction B with
  | nil => intro st z hz; exact Or.inl hz
  | cons r rest ih =>
    intro st z hz
    unfold playerStatLoop at hz
    rcases ih (playerStatStep season stype teams players st r) z hz with
      hz1 | ⟨z0, hz0, heq⟩ | h3
    · exact playerStatStep_mem z hz1
    · rcases playerStatStep_mem z0 hz0 with h | ⟨z1, hz1, heq1⟩ | ⟨p, hpm, heq1⟩
      · exact Or.inr (Or.inl ⟨z0, h, heq⟩)
      · exact Or.inr (Or.inl ⟨z1, hz1, heq.trans heq1⟩)
      · exact Or.inr (Or.inr ⟨p, hpm, heq.trans heq1⟩)
    · exact Or.inr (Or.inr h3)

/-! ## Claim C1 -/

/-- **C1, counterexample.** Running Scenario 2 against the code refutes the
claim: ingesting a game with scores 108–104 and then re-ingesting the same
external game id with `away_score = 110` (and no `home_score`) leaves
`home_win = true` while the stored scores read 108–110, because the update path
of `ingest_games` copies raw dict values and never recomputes `home_win`. -/
theorem C1_home_win_counterexample :
    ((ingest_games 2023 "Regular Season"
        (ingest_games 2023 "Regular Season" storeEmpty [gameRec108]).1
        [gameRecAway110]).1.games.map
      (fun g => (g.home_score, g.away_score, g.home_win, gameDerivedOk g))) =
      [(some 108, some 110, some true, false)] := by decide

/-- **C1 (amended).** On the create path of `ingest_games`, `home_win` is
derived from the record: `home_score > away_score` when both scores are present
and non-null, and null when either is missing.  On the update path, `home_win`
is not recomputed from the (possibly updated) scores: it is overwritten with
the record's raw `home_win` value when that key is present and left unchanged
otherwise, even when the same update changes the stored scores. -/
theorem C1_home_win :
    (∀ (season : Int) (stype : String) (teams : List Team) (st : Staged Game)
       (r : GameRecord) (gid ha aa : String) (gd : Option PyDate),
       r.game_id = some gid →
       st.rows.find? (gameMatches gid) = none →
       r.home_team_abbr = some ha → r.away_team_abbr = some aa →
       parseRecordGameDate (getJoin r.game_date) = .ok gd →
       gameStep season stype teams st r =
         .ok { st with added := (st.added ++
           [newGameFromRecord season stype teams gid ha aa gd r]) } ∧
       (∀ h a, getJoin r.home_score = some h → getJoin r.away_score = some a →
         (newGameFromRecord season stype teams gid ha aa gd r).home_win =
           some (decide (h > a))) ∧
       ((getJoin r.home_score = none ∨ getJoin r.away_score = none) →
         (newGameFromRecord season stype teams gid ha aa gd r).home_win = none)) ∧
    (∀ (season : Int) (stype : String) (teams : List Team) (st : Staged Game)
       (r : GameRecord) (gid : String) (y : Game),
       r.game_id = some gid →
       st.rows.find? (gameMatches gid) = some y →
       gameStep season stype teams st r =
         .ok { st with rows := (updateFirst (gameMatches gid)
           (fun g => applyGameUpdate g r) st.rows) } ∧
       (updateFirst (gameMatches gid) (fun g => applyGameUpdate g r) st.rows).find?
           (gameMatches gid) = some (applyGameUpdate y r) ∧
       (applyGameUpdate y r).home_win = r.home_win.getD y.home_win ∧
       (applyGameUpdate y r).home_score = r.home_score.getD y.home_score ∧
       (applyGameUpdate y r).away_score = r.away_score.getD y.away_score) := by
  constructor
  · intro season stype teams st r gid ha aa gd hid hrow hha haa hpd
    refine ⟨?_, ?_, ?_⟩
    · simp only [gameStep, hid, hrow, hha, haa, hpd]
    · intro h a hh ha2
      show derivedHomeWin r = some (decide (h > a))
      unfold derivedHomeWin
      rw [hh, ha2]
    · intro hcase
      show derivedHomeWin r = none
      unfold derivedHomeWin
      rcases hcase with hc | hc
      · rw [hc]
      · rw [hc]
        cases getJoin r.home_score <;> rfl
  · intro season stype teams st r gid y hid hrow
    refine ⟨?_, ?_, rfl, rfl, rfl⟩
    · simp only [gameStep, hid, hrow]
    · rw [find?_updateFirst_self _ _ ?hf, hrow]
      · rfl
      case hf =>
        intro x hx
        simpa [gameMatches, applyGameUpdate_id] using hx

/-- **C1, witness.** The amended claim evaluated on Scenario 2's data: the
created row derives `home_win = (108 > 104)`, and the re-ingest of
`gameRecAway110` leaves `home_win` at the record's (absent) value, keeping the
stored `true`. -/
theorem C1_home_win_witness :
    gameRow108.home_win = some (decide ((108 : Int) > 104)) ∧
    (applyGameUpdate gameRow108 gameRecAway110).home_win =
      gameRecAway110.home_win.getD gameRow108.home_win := by
  constructor
  · exact (C1_home_win.1 2023 "Regular Season" [] ⟨[], [], 0⟩ gameRec108
      "0022300001" "LAL" "BOS" none rfl rfl rfl rfl rfl).2.1 108 104 rfl rfl
  · exact ((C1_home_win.2 2023 "Regular Season" [] ⟨[gameRow108], [], 0⟩ gameRecAway110
      "0022300001" gameRow108 rfl (by decide)).2.2.1)

/-! ## Claim C2 -/

/-- **C2, counterexample.** Ingesting the same fetched games batch twice is
not idempotent.  `get_games` normalizes a scoreboard row whose away score cell
is missing to `home_score = 103`, `away_score = 0`, `home_win = False` (the
`pd.notna` guard saw a missing cell).  The first ingest's create path derives
`home_win = (103 > 0) = True` and commits it; the second ingest's raw
`setattr` replay copies the record's `home_win = False` over it and commits
cleanly — the stored row has changed. -/
theorem C2_idempotent_counterexample :
    ((ingest_games 2023 "Regular Season" storeEmpty [gameRecMismatch]).1.games.map
        (·.home_win)) = [some true] ∧
    ((ingest_games 2023 "Regular Season"
        (ingest_games 2023 "Regular Season" storeEmpty [gameRecMismatch]).1
        [gameRecMismatch]).1.games.map (·.home_win)) = [some false] ∧
    (ingest_games 2023 "Regular Season"
        (ingest_games 2023 "Regular Season" storeEmpty [gameRecMismatch]).1
        [gameRecMismatch]).2 = none ∧
    (ingest_games 2023 "Regular Season"
        (ingest_games 2023 "Regular Season" storeEmpty [gameRecMismatch]).1
        [gameRecMismatch]).1 ≠
      (ingest_games 2023 "Regular Season" storeEmpty [gameRecMismatch]).1 := by decide

/-- **C2 (amended).** For a fetched batch whose records carry pairwise-distinct
external identifiers, ingesting the batch twice leaves the store exactly as
ingesting it once for teams, players, team stats and player stats (for the
stats pipelines, with distinct surrogate team/player ids in the store, as
autoincrement guarantees).  For games the same holds only when each record's
raw values agree with the derived values the create path stores — no raw
string `game_date`, any `home_win` value equal to the derived one, and
`season`/`season_type` values equal to the ingest arguments.  Fetched records
violate this: a missing raw score makes the normalizer emit `home_win = False`
while defaulting the score to `0`, the create path then derives `home_win`
from the 0-defaulted scores, and the second ingest's raw `setattr` replay
copies the contradicting `False` over the derived value and commits.  (A raw
string `game_date` instead makes the second run's flush raise `TypeError` and
roll back: the store is left unchanged there, but an error is surfaced.) -/
theorem C2_idempotent :
    (∀ (s : Store) (B : List TeamRecord), (B.filterMap TeamRecord.team_id).Nodup →
       (ingest_teams (ingest_teams s B).1 B).1 = (ingest_teams s B).1) ∧
    (∀ (s : Store) (B : List PlayerRecord),
       (∀ r ∈ B, ∃ pid, r.player_id = some pid) →
       (B.filterMap PlayerRecord.player_id).Nodup →
       (ingest_players (ingest_players s B).1 B).1 = (ingest_players s B).1) ∧
    (∀ (season : Int) (stype : String) (s : Store) (B : List TeamStatRecord),
       (B.map fun r => pyStrD (some r.tEAM_ID)).Nodup →
       (s.teams.map (·.sid)).Nodup →
       ingest_team_stats season stype (ingest_team_stats season stype s B) B =
         ingest_team_stats season stype s B) ∧
    (∀ (season : Int) (stype : String) (s : Store) (B : List PlayerStatRecord),
       (B.map fun r => pyStrD (some r.pLAYER_ID)).Nodup →
       (s.players.map (·.sid)).Nodup →
       (ingest_player_stats season stype (ingest_player_stats season stype s B).1 B).1 =
         (ingest_player_stats season stype s B).1) ∧
    (∀ (season : Int) (stype : String) (s : Store) (B : List GameRecord),
       (B.filterMap GameRecord.game_id).Nodup →
       (∀ r ∈ B, GameCoherent season stype r) →
       (ingest_games season stype (ingest_games season stype s B).1 B).1 =
         (ingest_games season stype s B).1) :=
  ⟨ingest_teams_idem, ingest_players_idem, ingest_team_stats_idem,
    ingest_player_stats_idem, ingest_games_idem⟩

/-- **C2, witness.** Double ingestion on concrete batches of each entity type. -/
theorem C2_idempotent_witness :
    (ingest_teams (ingest_teams storeEmpty [lakersRecord, celticsRecord]).1
        [lakersRecord, celticsRecord]).1 =
      (ingest_teams storeEmpty [lakersRecord, celticsRecord]).1 ∧
    (ingest_players (ingest_players storeWithTeam [lebronRecord]).1 [lebronRecord]).1 =
      (ingest_players storeWithTeam [lebronRecord]).1 ∧
    ingest_team_stats 2023 "Regular Season"
        (ingest_team_stats 2023 "Regular Season" storeWithTeam [statRecKnown])
        [statRecKnown] =
      ingest_team_stats 2023 "Regular Season" storeWithTeam [statRecKnown] ∧
    (ingest_player_stats 2023 "Regular Season"
        (ingest_player_stats 2023 "Regular Season" storeWithPlayer [pstatRecKnown]).1
        [pstatRecKnown]).1 =
      (ingest_player_stats 2023 "Regular Season" storeWithPlayer [pstatRecKnown]).1 ∧
    (ingest_games 2023 "Regular Season"
        (ingest_games 2023 "Regular Season" storeWithTeam [gameRecCoherent]).1
        [gameRecCoherent]).1 =
      (ingest_games 2023 "Regular Season" storeWithTeam [gameRecCoherent]).1 := by
  refine ⟨?_, ?_, ?_, ?_, ?_⟩
  · exact C2_idempotent.1 storeEmpty [lakersRecord, celticsRecord] (by decide)
  · refine C2_idempotent.2.1 storeWithTeam [lebronRecord] ?_ (by decide)
    intro r hr
    rcases List.mem_singleton.mp hr with rfl
    exact ⟨"2544", rfl⟩
  · exact C2_idempotent.2.2.1 2023 "Regular Season" storeWithTeam [statRecKnown]
      (by decide) (by decide)
  · exact C2_idempotent.2.2.2.1 2023 "Regular Season" storeWithPlayer [pstatRecKnown]
      (by decide) (by decide)
  · refine C2_idempotent.2.2.2.2 2023 "Regular Season" storeWithTeam [gameRecCoherent]
      (by decide) ?_
    intro r hr
    rcases List.mem_singleton.mp hr with rfl
    refine ⟨?_, ?_, ?_, ?_⟩
    · intro u hu
      simp [gameRecCoherent] at hu
    · intro v hv
      simp [gameRecCoherent] at hv
    · intro v hv
      simp [gameRecCoherent] at hv
    · intro v hv
      simp [gameRecCoherent] at hv

/-! ## Claim C3 -/

/-- **C3.** External identifiers stay unique.  First conjunct: over any
sequence of ingest invocations, if no two rows share a `team_id`, `player_id`
or game `id` initially, the same holds afterwards (an in-batch duplicate
insert is rejected by the UNIQUE/primary-key constraint at commit and the
whole batch rolls back).  Remaining conjuncts: when a record's external
identifier already matches a persisted row, the step takes the update path:
it mutates that row in place and stages no insert. -/
theorem C3_external_ids_unique :
    (∀ (s : Store) (ops : List IngestOp), ExtIdsUnique s → ExtIdsUnique (runOps s ops)) ∧
    (∀ (st : Staged Team) (r : TeamRecord) (tid : String) (y : Team),
       r.team_id = some tid → st.rows.find? (teamMatches tid) = some y →
       teamStep st r = .ok { st with rows := (updateFirst (teamMatches tid)
         (fun t => applyTeamUpdate t r) st.rows) }) ∧
    (∀ (teams : List Team) (st : Staged Player) (r : PlayerRecord) (pid : String)
       (y : Player), r.player_id = some pid →
       st.rows.find? (playerMatches pid) = some y →
       playerStep teams st r = { st with rows := (updateFirst (playerMatches pid)
         (fun p => update_player_data p r) st.rows) }) ∧
    (∀ (season : Int) (stype : String) (teams : List Team) (st : Staged Game)
       (r : GameRecord) (gid : String) (y : Game),
       r.game_id = some gid → st.rows.find? (gameMatches gid) = some y →
       gameStep season stype teams st r = .ok { st with rows := (updateFirst (gameMatches gid)
         (fun g => applyGameUpdate g r) st.rows) }) := by
  refine ⟨?_, ?_, ?_, ?_⟩
  · intro s ops h
    exact runOps_preserves_unique ops s h
  · intro st r tid y hid hrow
    simp only [teamStep, hid, hrow]
  · intro teams st r pid y hid hrow
    simp only [playerStep, hid, hrow]
  · intro season stype teams st r gid y hid hrow
    simp only [gameStep, hid, hrow]

/-- **C3, witness.** A concrete sequence — teams, players, a re-ingest of the
same teams batch, games, team stats — keeps external identifiers unique, and a
concrete re-ingest of an existing team identifier takes the update path. -/
theorem C3_external_ids_unique_witness :
    ExtIdsUnique (runOps storeEmpty
      [IngestOp.opTeams [lakersRecord, celticsRecord],
       IngestOp.opPlayers [lebronRecord],
       IngestOp.opTeams [lakersRecord],
       IngestOp.opGames 2023 "Regular Season" [gameRec108],
       IngestOp.opTeamStats 2023 "Regular Season" [statRecKnown]]) ∧
    teamStep ⟨(ingest_teams storeEmpty [lakersRecord]).1.teams, [], 31⟩ lakersRecord =
      .ok ⟨updateFirst (teamMatches "1610612747")
        (fun t => applyTeamUpdate t lakersRecord)
        (ingest_teams storeEmpty [lakersRecord]).1.teams, [], 31⟩ := by
  constructor
  · exact C3_external_ids_unique.1 storeEmpty _ (by decide)
  · exact C3_external_ids_unique.2.1 ⟨(ingest_teams storeEmpty [lakersRecord]).1.teams, [], 31⟩
      lakersRecord "1610612747"
      { sid := 1, team_id := "1610612747", name := "Los Angeles Lakers",
        abbreviation := "LAL", city := some "Los Angeles", state := some "CA",
        conference := some "West", division := some "Pacific" } rfl (by decide)

/-! ## Claim C5 -/

/-- **C5.** Each ingest invocation is atomic per batch: whenever the invocation
surfaces an error (a raised exception from lookup keys, date parsing, or a
constraint violation at commit), the returned store is exactly the input store
— the rollback discards every staged insert and in-place update, so no prefix
of the batch is ever committed. -/
theorem C5_batch_atomicity :
    (∀ (s : Store) (B : List TeamRecord) (e : PyErr),
       (ingest_teams s B).2 = some e → (ingest_teams s B).1 = s) ∧
    (∀ (season : Int) (stype : String) (s : Store) (B : List GameRecord) (e : PyErr),
       (ingest_games season stype s B).2 = some e → (ingest_games season stype s B).1 = s) ∧
    (∀ (s : Store) (B : List PlayerRecord) (e : PyErr),
       (ingest_players s B).2 = some e → (ingest_players s B).1 = s) ∧
    (∀ (season : Int) (stype : String) (s : Store) (B : List PlayerStatRecord) (e : PyErr),
       (ingest_player_stats season stype s B).2 = some e →
       (ingest_player_stats season stype s B).1 = s) := by
  refine ⟨?_, ?_, ?_, ?_⟩
  · intro s B e h
    cases h1 : teamLoop ⟨s.teams, [], s.nextTeamSid⟩ B with
    | error e2 => simp [ingest_teams, h1]
    | ok st =>
      cases h2 : commitTeams s st with
      | error e2 => simp [ingest_teams, h1, h2]
      | ok s2 => simp [ingest_teams, h1, h2] at h
  · intro season stype s B e h
    cases h1 : gameLoop season stype s.teams ⟨s.games, [], 0⟩ B with
    | error e2 => simp [ingest_games, h1]
    | ok st =>
      cases h2 : commitGames s st with
      | error e2 => simp [ingest_games, h1, h2]
      | ok s2 => simp [ingest_games, h1, h2] at h
  · intro s B e h
    cases h2 : commitPlayers s (playerLoop s.teams ⟨s.players, [], s.nextPlayerSid⟩ B) with
    | error e2 => simp [ingest_players, h2]
    | ok s2 => simp [ingest_players, h2] at h
  · intro season stype s B e h
    cases h2 : commitPlayerStats s
        (playerStatLoop season stype s.teams s.players ⟨s.playerStats, [], 0⟩ B) with
    | error e2 => simp [ingest_player_stats, h2]
    | ok s2 => simp [ingest_player_stats, h2] at h

/-- **C5, witness.** A games batch whose first record is valid and whose second
record carries an unparsable date string raises `ValueError` mid-batch; the
invocation leaves the store untouched — in particular the first record's
staged row is not committed. -/
theorem C5_batch_atomicity_witness :
    (ingest_games 2023 "Regular Season" storeEmpty [gameRec108, gameRecBadDate]).1 =
      storeEmpty :=
  C5_batch_atomicity.2.1 2023 "Regular Season" storeEmpty [gameRec108, gameRecBadDate]
    PyErr.valueError (by decide)

/-! ## Claim C4 -/

theorem safeGo_const_fail (e : PyErr) :
    ∀ n i : Nat, 1 ≤ n →
      safeGo (fun _ => (Except.error e : Except PyErr Unit)) i n = (some (.error e), n) := by
  intro n
  induction n with
  | zero => intro i h; exact absurd h (by omega)
  | succ m ih =>
    intro i _
    by_cases hm : m = 0
    · subst hm
      simp [safeGo]
    · simp [safeGo, ih (i + 1) (by omega), hm]

theorem clientGetGo_timeout :
    ∀ n i : Nat, 1 ≤ n →
      clientGetGo (fun _ => (HttpEvent.timeout : HttpEvent Unit)) i n =
        (.error .nbaApiError, n) := by
  intro n
  induction n with
  | zero => intro i h; exact absurd h (by omega)
  | succ m ih =>
    intro i _
    by_cases hm : m = 0
    · subst hm
      simp [clientGetGo]
    · simp [clientGetGo, ih (i + 1) (by omega), hm]

theorem clientGetGo_reqError (msg : String) :
    ∀ n i : Nat, 1 ≤ n →
      clientGetGo (fun _ => (HttpEvent.reqError msg : HttpEvent Unit)) i n =
        (.error .nbaApiError, n) := by
  intro n
  induction n with
  | zero => intro i h; exact absurd h (by omega)
  | succ m ih =>
    intro i _
    by_cases hm : m = 0
    · subst hm
      simp [clientGetGo]
    · simp [clientGetGo, ih (i + 1) (by omega), hm]

theorem clientGetGo_retryable (c : Nat) (hc : retryableStatus c = true) :
    ∀ n i : Nat,
      clientGetGo (fun _ => (HttpEvent.status c : HttpEvent Unit)) i n =
        (.error .nbaApiError, n) := by
  intro n
  induction n with
  | zero => intro i; rfl
  | succ m ih => intro i; simp [clientGetGo, hc, ih (i + 1)]

/-- **C4, counterexample.** Scenario 4 against `NBAAPIClientFixed._safe_api_call`
with `max_retries = 3` and an always-failing transport: exactly 3 attempts
occur, as the claim demands, but the exception that escapes is the raw
transport exception re-raised unchanged (`raise e`), not the dedicated
fetch-error type. -/
theorem C4_retry_counterexample :
    safeApiCall 3 alwaysTransportFail =
      (some (.error (.transport "connection refused")), 3) ∧
    PyErr.isFetchError (PyErr.transport "connection refused") = false := by
  exact ⟨rfl, rfl⟩

/-- **C4 (amended).** Against a source that fails on every call,
`NBAAPIClientFixed._safe_api_call` makes exactly `max_retries` attempts and
then re-raises the raw underlying exception — no `FetchError` wrapper exists
on that path.  `NBAAPIClient._get` does wrap: a source that times out, raises
a transport exception, or answers with a retryable status on every call yields
`NBAAPIError` after exactly `max_retries` attempts; but a non-retryable HTTP
status raises `NBAAPIError` after a single attempt, fewer than the configured
maximum. -/
theorem C4_retry_exhaustion :
    (∀ (e : PyErr) (n : Nat), 1 ≤ n →
       safeApiCall n (fun _ => (Except.error e : Except PyErr Unit)) =
         (some (.error e), n)) ∧
    (∀ n : Nat, 1 ≤ n →
       clientGet n (fun _ => (HttpEvent.timeout : HttpEvent Unit)) =
         (.error .nbaApiError, n)) ∧
    (∀ (msg : String) (n : Nat), 1 ≤ n →
       clientGet n (fun _ => (HttpEvent.reqError msg : HttpEvent Unit)) =
         (.error .nbaApiError, n)) ∧
    (∀ (c : Nat), retryableStatus c = true → ∀ n : Nat,
       clientGet n (fun _ => (HttpEvent.status c : HttpEvent Unit)) =
         (.error .nbaApiError, n)) ∧
    (∀ (c n : Nat), 1 ≤ n → retryableStatus c = false →
       clientGet n (fun _ => (HttpEvent.status c : HttpEvent Unit)) =
         (.error .nbaApiError, 1)) := by
  refine ⟨?_, ?_, ?_, ?_, ?_⟩
  · intro e n h
    exact safeGo_const_fail e n 0 h
  · intro n h
    exact clientGetGo_timeout n 0 h
  · intro msg n h
    exact clientGetGo_reqError msg n 0 h
  · intro c hc n
    exact clientGetGo_retryable c hc n 0
  · intro c n h hc
    cases n with
    | zero => exact absurd h (by omega)
    | succ m => simp [clientGet, clientGetGo, hc]

/-- **C4, witness.** The amended behaviour at `max_retries = 5` (the default of
`NBAAPIClient`): five attempts for an always-failing transport, one attempt
for a permanent 404. -/
theorem C4_retry_exhaustion_witness :
    safeApiCall 5 (fun _ => (Except.error (PyErr.transport "refused") :
        Except PyErr Unit)) = (some (.error (.transport "refused")), 5) ∧
    clientGet 5 (fun _ => (HttpEvent.timeout : HttpEvent Unit)) =
      (.error .nbaApiError, 5) ∧
    clientGet 5 (fun _ => (HttpEvent.status 404 : HttpEvent Unit)) =
      (.error .nbaApiError, 1) :=
  ⟨C4_retry_exhaustion.1 (PyErr.transport "refused") 5 (by decide),
   C4_retry_exhaustion.2.1 5 (by decide),
   C4_retry_exhaustion.2.2.2.2 404 5 (by decide) (by decide)⟩

/-! ## Claim C6 -/

/-- **C6, counterexample.** In `NBAAPIClientFixed`, a missing score cell is
normalized to the integer `0` (and a missing points-per-game to `0.0`),
contradicting the claim that a missing numeric value never resolves to a
default numeric value. -/
theorem C6_coercion_counterexample :
    sbRowMissingHome.hOME_TEAM_SCORE = none ∧
    (normalizeGameRow 2023 "Regular Season" sbRowMissingHome).home_score =
      some (some 0) ∧
    tsRowMissingPts.pTS = none ∧
    (normalizeTeamStatRow 2023 "Regular Season" tsRowMissingPts).points_per_game = 0 := by
  exact ⟨rfl, rfl, rfl, by decide⟩

/-- **C6 (amended).** The `safe_float`/`safe_int` helpers of `stats_ingest` are
best-effort as claimed: `None` and unparsable values yield `None` (never an
exception, never a substituted number), and a successful parse returns exactly
the coercion of the input.  But the normalisation inside
`NBAAPIClientFixed.get_games` and `get_team_stats` substitutes `0`/`0.0` for
missing numeric cells, so there a missing score or statistic does become `0`
in the normalized record. -/
theorem C6_numeric_coercion :
    (safe_float PyVal.vnone = none) ∧
    (safe_int PyVal.vnone = none) ∧
    (∀ s : String, pyFloat? (.vstr s) = none → safe_float (.vstr s) = none) ∧
    (∀ s : String, pyInt? (.vstr s) = none → safe_int (.vstr s) = none) ∧
    (∀ (v : PyVal) (q : ℚ), safe_float v = some q → pyFloat? v = some q) ∧
    (∀ (v : PyVal) (n : Int), safe_int v = some n → pyInt? v = some n) ∧
    (∀ (season : Int) (stype : String) (row : ScoreboardRow),
       row.hOME_TEAM_SCORE = none →
       (normalizeGameRow season stype row).home_score = some (some 0)) ∧
    (∀ (season : Int) (stype : String) (row : ScoreboardRow),
       row.vISITOR_TEAM_SCORE = none →
       (normalizeGameRow season stype row).away_score = some (some 0)) ∧
    (∀ (season : Int) (stype : String) (row : ScoreboardRow),
       row.aTTENDANCE = none →
       (normalizeGameRow season stype row).attendance = some (some 0)) ∧
    (∀ (season : Int) (stype : String) (row : TeamStatsApiRow),
       row.pTS = none → (normalizeTeamStatRow season stype row).points_per_game = 0) ∧
    (∀ (season : Int) (stype : String) (row : TeamStatsApiRow),
       row.gP = none → (normalizeTeamStatRow season stype row).games_played = 0) := by
  refine ⟨rfl, rfl, ?_, ?_, ?_, ?_, ?_, ?_, ?_, ?_, ?_⟩
  · intro s h
    exact h
  · intro s h
    exact h
  · intro v q h
    cases v with
    | vnone => exact absurd h (by simp [safe_float])
    | vint n => exact h
    | vflt x => exact h
    | vstr s => exact h
    | vbool b => exact h
  · intro v n h
    cases v with
    | vnone => exact absurd h (by simp [safe_int])
    | vint m => exact h
    | vflt x => exact h
    | vstr s => exact h
    | vbool b => exact h
  · intro season stype row h
    simp [normalizeGameRow, h]
  · intro season stype row h
    simp [normalizeGameRow, h]
  · intro season stype row h
    simp [normalizeGameRow, h]
  · intro season stype row h
    simp [normalizeTeamStatRow, h]
  · intro season stype row h
    simp [normalizeTeamStatRow, h]

/-- **C6, witness.** The amended claim on concrete values: an unparsable string
statistic parses to `None` in `stats_ingest`, while the fixed client's games
normaliser turns the missing home score into `0`. -/
theorem C6_numeric_coercion_witness :
    safe_float (PyVal.vstr "abc") = none ∧
    (normalizeGameRow 2024 "Playoffs" sbRowMissingHome).home_score = some (some 0) :=
  ⟨C6_numeric_coercion.2.2.1 "abc" (by decide),
   C6_numeric_coercion.2.2.2.2.2.2.1 2024 "Playoffs" sbRowMissingHome rfl⟩

/-! ## Claim C7 -/

/-- **C7, counterexample.** A record with a present-but-empty `position`
refutes "fields present in the record are copied onto the entity":
`update_player_data` copies a handled field only when its value is truthy, so
the stored position `"G"` survives an update that carries `position = ""`. -/
theorem C7_frame_counterexample :
    emptyPositionRecord.position = some "" ∧
    (update_player_data storedPlayerRow emptyPositionRecord).position = some "G" ∧
    (some "G" : Option String) ≠ some "" := by decide

/-- **C7 (amended).** Fields absent from the update record are always left
unchanged on the stored entity.  In the games update path every present field
is copied verbatim (including a present null), and the columns without a
matching dict key (`id`, `home_team_id`, `away_team_id`) are untouched.  In
the player update path a present field is copied only when its value is truthy
(`is_active` being presence-checked, and `weight` also requiring a successful
`int` parse); a present falsy value leaves the stored column unchanged, and
the columns outside the handled set are never touched. -/
theorem C7_absent_fields_preserved :
    (∀ (g : Game) (r : GameRecord),
      (r.home_score = none → (applyGameUpdate g r).home_score = g.home_score) ∧
      (∀ v, r.home_score = some v → (applyGameUpdate g r).home_score = v) ∧
      (r.away_score = none → (applyGameUpdate g r).away_score = g.away_score) ∧
      (∀ v, r.away_score = some v → (applyGameUpdate g r).away_score = v) ∧
      (r.game_date = none → (applyGameUpdate g r).game_date = g.game_date) ∧
      (∀ v, r.game_date = some v → (applyGameUpdate g r).game_date = v) ∧
      (r.season = none → (applyGameUpdate g r).season = g.season) ∧
      (∀ v, r.season = some v → (applyGameUpdate g r).season = some v) ∧
      (r.season_type = none → (applyGameUpdate g r).season_type = g.season_type) ∧
      (∀ v, r.season_type = some v → (applyGameUpdate g r).season_type = some v) ∧
      (r.home_team_abbr = none → (applyGameUpdate g r).home_team_abbr = g.home_team_abbr) ∧
      (∀ v, r.home_team_abbr = some v → (applyGameUpdate g r).home_team_abbr = some v) ∧
      (r.away_team_abbr = none → (applyGameUpdate g r).away_team_abbr = g.away_team_abbr) ∧
      (∀ v, r.away_team_abbr = some v → (applyGameUpdate g r).away_team_abbr = some v) ∧
      (r.home_win = none → (applyGameUpdate g r).home_win = g.home_win) ∧
      (∀ v, r.home_win = some v → (applyGameUpdate g r).home_win = v) ∧
      (r.arena = none → (applyGameUpdate g r).arena = g.arena) ∧
      (∀ v, r.arena = some v → (applyGameUpdate g r).arena = v) ∧
      (r.attendance = none → (applyGameUpdate g r).attendance = g.attendance) ∧
      (∀ v, r.attendance = some v → (applyGameUpdate g r).attendance = v) ∧
      (r.duration_minutes = none →
        (applyGameUpdate g r).duration_minutes = g.duration_minutes) ∧
      (∀ v, r.duration_minutes = some v → (applyGameUpdate g r).duration_minutes = v) ∧
      (applyGameUpdate g r).id = g.id ∧
      (applyGameUpdate g r).home_team_id = g.home_team_id ∧
      (applyGameUpdate g r).away_team_id = g.away_team_id) ∧
    (∀ (p : Player) (r : PlayerRecord),
      (r.position = none → (update_player_data p r).position = p.position) ∧
      (r.position = some "" → (update_player_data p r).position = p.position) ∧
      (∀ v, r.position = some v → v ≠ "" → (update_player_data p r).position = some v) ∧
      (r.name = none → (update_player_data p r).name = p.name ∧
        (update_player_data p r).first_name = p.first_name ∧
        (update_player_data p r).last_name = p.last_name) ∧
      (r.name = some "" → (update_player_data p r).name = p.name ∧
        (update_player_data p r).first_name = p.first_name ∧
        (update_player_data p r).last_name = p.last_name) ∧
      (∀ nm, r.name = some nm → nm ≠ "" → (update_player_data p r).name = nm ∧
        (update_player_data p r).first_name = splitFirstName nm ∧
        (update_player_data p r).last_name = splitLastName nm) ∧
      (r.height = none → (update_player_data p r).height = p.height) ∧
      (r.height = some "" → (update_player_data p r).height = p.height) ∧
      (∀ v, r.height = some v → v ≠ "" → (update_player_data p r).height = some v) ∧
      (r.weight = none → (update_player_data p r).weight = p.weight) ∧
      (∀ v, r.weight = some v → v.truthy = false →
        (update_player_data p r).weight = p.weight) ∧
      (∀ v, r.weight = some v → v.truthy = true → pyInt? v = none →
        (update_player_data p r).weight = p.weight) ∧
      (∀ v n, r.weight = some v → v.truthy = true → pyInt? v = some n →
        (update_player_data p r).weight = some n) ∧
      (r.jersey_number = none → (update_player_data p r).jersey_number = p.jersey_number) ∧
      (r.jersey_number = some "" →
        (update_player_data p r).jersey_number = p.jersey_number) ∧
      (∀ v, r.jersey_number = some v → v ≠ "" →
        (update_player_data p r).jersey_number = some v) ∧
      (r.is_active = none → (update_player_data p r).is_active = p.is_active) ∧
      (∀ b, r.is_active = some b → (update_player_data p r).is_active = b) ∧
      (update_player_data p r).player_id = p.player_id ∧
      (update_player_data p r).team_id = p.team_id ∧
      (update_player_data p r).birth_date = p.birth_date ∧
      (update_player_data p r).birth_place = p.birth_place ∧
      (update_player_data p r).college = p.college ∧
      (update_player_data p r).draft_year = p.draft_year ∧
      (update_player_data p r).draft_round = p.draft_round ∧
      (update_player_data p r).draft_number = p.draft_number) := by
  constructor
  · intro g r
    refine ⟨?_, ?_, ?_, ?_, ?_, ?_, ?_, ?_, ?_, ?_, ?_, ?_, ?_, ?_, ?_, ?_, ?_, ?_,
      ?_, ?_, ?_, ?_, rfl, rfl, rfl⟩ <;>
      first
        | (intro h; simp [applyGameUpdate, setIfPresent, h])
        | (intro v h; simp [applyGameUpdate, setIfPresent, h])
  · intro p r
    refine ⟨?_, ?_, ?_, ?_, ?_, ?_, ?_, ?_, ?_, ?_, ?_, ?_, ?_, ?_, ?_, ?_, ?_, ?_,
      rfl, rfl, rfl, rfl, rfl, rfl, rfl, rfl⟩
    · intro h
      simp [update_player_data, mergeOptStr, h]
    · intro h
      simp [update_player_data, mergeOptStr, h]
    · intro v h hv
      simp [update_player_data, mergeOptStr, h, hv]
    · intro h
      simp [update_player_data, mergeStr, mergeNamePart, h]
    · intro h
      simp [update_player_data, mergeStr, mergeNamePart, h]
    · intro nm h hnm
      simp [update_player_data, mergeStr, mergeNamePart, h, hnm]
    · intro h
      simp [update_player_data, mergeOptStr, h]
    · intro h
      simp [update_player_data, mergeOptStr, h]
    · intro v h hv
      simp [update_player_data, mergeOptStr, h, hv]
    · intro h
      simp [update_player_data, mergeWeight, h]
    · intro v h hv
      simp [update_player_data, mergeWeight, h, hv]
    · intro v h hv hn
      simp [update_player_data, mergeWeight, h, hv, hn]
    · intro v n h hv hn
      simp [update_player_data, mergeWeight, h, hv, hn]
    · intro h
      simp [update_player_data, mergeOptStr, h]
    · intro h
      simp [update_player_data, mergeOptStr, h]
    · intro v h hv
      simp [update_player_data, mergeOptStr, h, hv]
    · intro h
      simp [update_player_data, h]
    · intro b h
      simp [update_player_data, h]

/-- **C7, witness.** Frame behaviour on concrete data: the partial re-ingest
record leaves the absent `home_score` untouched, and a truthy present
`position` is copied. -/
theorem C7_absent_fields_preserved_witness :
    (applyGameUpdate gameRow108 gameRecAway110).home_score = gameRow108.home_score ∧
    (update_player_data storedPlayerRow lebronRecord).position = some "F" :=
  ⟨(C7_absent_fields_preserved.1 gameRow108 gameRecAway110).1 rfl,
   (C7_absent_fields_preserved.2 storedPlayerRow lebronRecord).2.2.1 "F" rfl (by decide)⟩

/-! ## Claim C8 -/

/-- **C8.** A team-stats record whose `TEAM_ID` matches no stored team — and a
player-stats record whose `PLAYER_ID` matches no stored player — is skipped
silently: ingesting it at the head of a batch equals ingesting the rest of the
batch (no row inserted, no error raised, processing continues).  Moreover every
stats row in the store after an ingest either was there before, shares its
reference with a pre-existing row, or references an entity that exists in the
store — no row with a dangling team/player reference is inserted. -/
theorem C8_unknown_reference_skipped :
    (∀ (season : Int) (stype : String) (s : Store) (r : TeamStatRecord)
       (rest : List TeamStatRecord),
       s.teams.find? (fun t => t.team_id == pyStrD (some r.tEAM_ID)) = none →
       ingest_team_stats season stype s (r :: rest) =
         ingest_team_stats season stype s rest) ∧
    (∀ (season : Int) (stype : String) (s : Store) (r : PlayerStatRecord)
       (rest : List PlayerStatRecord),
       s.players.find? (fun p => p.player_id == pyStrD (some r.pLAYER_ID)) = none →
       ingest_player_stats season stype s (r :: rest) =
         ingest_player_stats season stype s rest) ∧
    (∀ (season : Int) (stype : String) (s : Store) (B : List TeamStatRecord),
       ∀ ts ∈ (ingest_team_stats season stype s B).teamStats,
         ts ∈ s.teamStats ∨ (∃ ts0 ∈ s.teamStats, ts.team_id = ts0.team_id) ∨
           ∃ t ∈ s.teams, ts.team_id = t.sid) ∧
    (∀ (season : Int) (stype : String) (s : Store) (B : List PlayerStatRecord),
       ∀ ps ∈ (ingest_player_stats season stype s B).1.playerStats,
         ps ∈ s.playerStats ∨ (∃ ps0 ∈ s.playerStats, ps.player_id = ps0.player_id) ∨
           ∃ p ∈ s.players, ps.player_id = p.sid) := by
  refine ⟨?_, ?_, ?_, ?_⟩
  · intro season stype s r rest h
    unfold ingest_team_stats
    rw [teamStatLoop_skip_head rest h]
  · intro season stype s r rest h
    unfold ingest_player_stats
    rw [playerStatLoop_skip_head rest h]
  · intro season stype s B ts hts
    rcases teamStatLoop_mem B ⟨s.teamStats, [], 0⟩ ts hts with h | ⟨z0, hz0, heq⟩ | h
    · rw [List.append_nil] at h
      exact Or.inl h
    · rw [List.append_nil] at hz0
      exact Or.inr (Or.inl ⟨z0, hz0, heq⟩)
    · exact Or.inr (Or.inr h)
  · intro season stype s B ps hps
    cases h2 : commitPlayerStats s
        (playerStatLoop season stype s.teams s.players ⟨s.playerStats, [], 0⟩ B) with
    | error e =>
      have hrun : (ingest_player_stats season stype s B).1 = s := by
        simp [ingest_player_stats, h2]
      rw [hrun] at hps
      exact Or.inl hps
    | ok s2 =>
      obtain ⟨_, hs2⟩ := commitPlayerStats_ok h2
      have hrun : (ingest_player_stats season stype s B).1 = s2 := by
        simp [ingest_player_stats, h2]
      rw [hrun, hs2] at hps
      rcases playerStatLoop_mem B ⟨s.playerStats, [], 0⟩ ps hps with h | ⟨z0, hz0, heq⟩ | h
      · rw [List.append_nil] at h
        exact Or.inl h
      · rw [List.append_nil] at hz0
        exact Or.inr (Or.inl ⟨z0, hz0, heq⟩)
      · exact Or.inr (Or.inr h)

/-- **C8, witness.** Scenario 5 concretely: a stats batch headed by a record
for an unknown team (or player) ingests exactly as the batch without it — the
known records that follow are still processed. -/
theorem C8_unknown_reference_skipped_witness :
    ingest_team_stats 2023 "Regular Season" storeWithTeam
        [statRecUnknownTeam, statRecKnown] =
      ingest_team_stats 2023 "Regular Season" storeWithTeam [statRecKnown] ∧
    ingest_player_stats 2023 "Regular Season" storeWithPlayer
        [pstatRecUnknownPlayer, pstatRecKnown] =
      ingest_player_stats 2023 "Regular Season" storeWithPlayer [pstatRecKnown] :=
  ⟨C8_unknown_reference_skipped.1 2023 "Regular Season" storeWithTeam
      statRecUnknownTeam [statRecKnown] (by decide),
   C8_unknown_reference_skipped.2.1 2023 "Regular Season" storeWithPlayer
      pstatRecUnknownPlayer [pstatRecKnown] (by decide)⟩

/-! ## Claim C9 -/

/-- **C9, counterexample.** Name splitting is `full_name.split(" ", 1)` — a
split on the space character, not on whitespace.  A full name whose separator
is a tab is not split at all: the code stores the entire string as
`first_name`, while the claim's "first whitespace-delimited token" is
`"LeBron"`. -/
theorem C9_name_split_counterexample :
    (create_player_from_data [] 1 lebronTabRecord).first_name = "LeBron\tJames" ∧
    specFirstWhitespaceToken "LeBron\tJames" = "LeBron" ∧
    ("LeBron\tJames" : String) ≠ "LeBron" := by decide

/-- **C9 (amended).** Name splitting is on the first space character:
`first_name` is the prefix before the first space (the whole string when it
contains no space, in which case `last_name` is empty), `last_name` is exactly
the remainder after that first space, and the original name is recovered as
`first_name ++ " " ++ last_name`.  The update path splits identically whenever
a non-empty name is supplied. -/
theorem C9_name_split :
    ∀ (r : PlayerRecord) (nm : String) (teams : List Team) (sid : Nat),
      r.name = some nm →
      (create_player_from_data teams sid r).name = nm ∧
      ' ' ∉ (create_player_from_data teams sid r).first_name.data ∧
      (' ' ∉ nm.data → (create_player_from_data teams sid r).first_name = nm ∧
        (create_player_from_data teams sid r).last_name = "") ∧
      (' ' ∈ nm.data → nm = (create_player_from_data teams sid r).first_name ++ " " ++
        (create_player_from_data teams sid r).last_name) ∧
      (∀ p : Player, nm ≠ "" →
        (update_player_data p r).first_name =
          (create_player_from_data teams sid r).first_name ∧
        (update_player_data p r).last_name =
          (create_player_from_data teams sid r).last_name) := by
  intro r nm teams sid h
  have hname : (create_player_from_data teams sid r).name = nm := by
    simp [create_player_from_data, h]
  have hfst : (create_player_from_data teams sid r).first_name = splitFirstName nm := by
    simp [create_player_from_data, h]
  have hlst : (create_player_from_data teams sid r).last_name = splitLastName nm := by
    simp [create_player_from_data, h]
  refine ⟨hname, ?_, ?_, ?_, ?_⟩
  · rw [hfst]
    exact splitFirstChars_no_space nm.data
  · intro hns
    rw [hfst, hlst]
    constructor
    · show (⟨splitFirstChars nm.data⟩ : String) = nm
      rw [splitFirstChars_of_no_space nm.data hns]
    · show splitLastName nm = ""
      unfold splitLastName
      rw [(splitLastChars_none_iff nm.data).mpr hns]
  · intro hsp
    rw [hfst, hlst]
    cases hls : splitLastChars nm.data with
    | none => exact absurd ((splitLastChars_none_iff nm.data).mp hls) (by simpa using hsp)
    | some ls =>
      have hrec := splitChars_reconstruct nm.data ls hls
      show nm = ⟨splitFirstChars nm.data⟩ ++ " " ++ splitLastName nm
      unfold splitLastName
      rw [hls]
      apply String.ext
      show nm.data = ((⟨splitFirstChars nm.data⟩ : String) ++ " " ++ (⟨ls⟩ : String)).data
      rw [String.data_append, String.data_append]
      simpa using hrec
  · intro p hnm
    rw [hfst, hlst]
    constructor
    · simp [update_player_data, mergeNamePart, h, hnm]
    · simp [update_player_data, mergeNamePart, h, hnm]

/-- **C9, witness.** Scenario 3: `"LeBron James"` splits so that the name is
recovered from the stored parts, with `first_name = "LeBron"` and
`last_name = "James"`. -/
theorem C9_name_split_witness :
    "LeBron James" = (create_player_from_data [] 1 lebronRecord).first_name ++ " " ++
      (create_player_from_data [] 1 lebronRecord).last_name ∧
    (create_player_from_data [] 1 lebronRecord).first_name = "LeBron" ∧
    (create_player_from_data [] 1 lebronRecord).last_name = "James" :=
  ⟨(C9_name_split lebronRecord "LeBron James" [] 1 rfl).2.2.2.1 (by decide),
   by decide, by decide⟩

/-! ## Claim C10 -/

/-- **C10.** In `update_team_stats` and `update_player_stats`, whenever the
record's parsed value for a column is falsy — `None` from a missing or
unparsable cell, or a legitimate `0`/`0.0` — the truthiness-based
`new or existing` assignment keeps the stored value unchanged, for every
column; consequently a zero-valued statistic in a new record can never replace
a previously stored non-zero value. -/
theorem C10_truthy_merge_keeps_stored :
    (∀ (ts : TeamStats) (r : TeamStatRecord),
      (safe_int r.gP = none ∨ safe_int r.gP = some 0 →
        (update_team_stats ts r).games_played = ts.games_played) ∧
      (safe_int r.w = none ∨ safe_int r.w = some 0 →
        (update_team_stats ts r).wins = ts.wins) ∧
      (safe_int r.l = none ∨ safe_int r.l = some 0 →
        (update_team_stats ts r).losses = ts.losses) ∧
      (safe_float r.w_PCT = none ∨ safe_float r.w_PCT = some 0 →
        (update_team_stats ts r).win_percentage = ts.win_percentage) ∧
      (safe_float r.pTS = none ∨ safe_float r.pTS = some 0 →
        (update_team_stats ts r).points_per_game = ts.points_per_game) ∧
      (safe_float r.fG_PCT = none ∨ safe_float r.fG_PCT = some 0 →
        (update_team_stats ts r).field_goal_percentage = ts.field_goal_percentage) ∧
      (safe_float r.fG3_PCT = none ∨ safe_float r.fG3_PCT = some 0 →
        (update_team_stats ts r).three_point_percentage = ts.three_point_percentage) ∧
      (safe_float r.fT_PCT = none ∨ safe_float r.fT_PCT = some 0 →
        (update_team_stats ts r).free_throw_percentage = ts.free_throw_percentage) ∧
      (safe_float r.oREB = none ∨ safe_float r.oREB = some 0 →
        (update_team_stats ts r).offensive_rebounds_per_game =
          ts.offensive_rebounds_per_game) ∧
      (safe_float r.dREB = none ∨ safe_float r.dREB = some 0 →
        (update_team_stats ts r).defensive_rebounds_per_game =
          ts.defensive_rebounds_per_game) ∧
      (safe_float r.aST = none ∨ safe_float r.aST = some 0 →
        (update_team_stats ts r).assists_per_game = ts.assists_per_game) ∧
      (safe_float r.sTL = none ∨ safe_float r.sTL = some 0 →
        (update_team_stats ts r).steals_per_game = ts.steals_per_game) ∧
      (safe_float r.bLK = none ∨ safe_float r.bLK = some 0 →
        (update_team_stats ts r).blocks_per_game = ts.blocks_per_game) ∧
      (safe_float r.tOV = none ∨ safe_float r.tOV = some 0 →
        (update_team_stats ts r).turnovers_per_game = ts.turnovers_per_game) ∧
      (safe_float r.pF = none ∨ safe_float r.pF = some 0 →
        (update_team_stats ts r).personal_fouls_per_game = ts.personal_fouls_per_game) ∧
      (safe_float r.pACE = none ∨ safe_float r.pACE = some 0 →
        (update_team_stats ts r).pace = ts.pace) ∧
      (safe_float r.oFFRTG = none ∨ safe_float r.oFFRTG = some 0 →
        (update_team_stats ts r).offensive_rating = ts.offensive_rating) ∧
      (safe_float r.dEFRTG = none ∨ safe_float r.dEFRTG = some 0 →
        (update_team_stats ts r).defensive_rating = ts.defensive_rating) ∧
      (safe_float r.nETRTG = none ∨ safe_float r.nETRTG = some 0 →
        (update_team_stats ts r).net_rating = ts.net_rating)) ∧
    (∀ (ps : PlayerSeasonStats) (r : PlayerStatRecord),
      (safe_int r.gP = none ∨ safe_int r.gP = some 0 →
        (update_player_stats ps r).games_played = ps.games_played) ∧
      (safe_int r.gS = none ∨ safe_int r.gS = some 0 →
        (update_player_stats ps r).games_started = ps.games_started) ∧
      (safe_float r.mIN = none ∨ safe_float r.mIN = some 0 →
        (update_player_stats ps r).minutes_per_game = ps.minutes_per_game) ∧
      (safe_float r.pTS = none ∨ safe_float r.pTS = some 0 →
        (update_player_stats ps r).points_per_game = ps.points_per_game) ∧
      (safe_float r.rEB = none ∨ safe_float r.rEB = some 0 →
        (update_player_stats ps r).rebounds_per_game = ps.rebounds_per_game) ∧
      (safe_float r.aST = none ∨ safe_float r.aST = some 0 →
        (update_player_stats ps r).assists_per_game = ps.assists_per_game) ∧
      (safe_float r.sTL = none ∨ safe_float r.sTL = some 0 →
        (update_player_stats ps r).steals_per_game = ps.steals_per_game) ∧
      (safe_float r.bLK = none ∨ safe_float r.bLK = some 0 →
        (update_player_stats ps r).blocks_per_game = ps.blocks_per_game) ∧
      (safe_float r.tOV = none ∨ safe_float r.tOV = some 0 →
        (update_player_stats ps r).turnovers_per_game = ps.turnovers_per_game) ∧
      (safe_float r.pF = none ∨ safe_float r.pF = some 0 →
        (update_player_stats ps r).personal_fouls_per_game =
          ps.personal_fouls_per_game) ∧
      (safe_float r.fG_PCT = none ∨ safe_float r.fG_PCT = some 0 →
        (update_player_stats ps r).field_goal_percentage = ps.field_goal_percentage) ∧
      (safe_float r.fG3_PCT = none ∨ safe_float r.fG3_PCT = some 0 →
        (update_player_stats ps r).three_point_percentage = ps.three_point_percentage) ∧
      (safe_float r.fT_PCT = none ∨ safe_float r.fT_PCT = some 0 →
        (update_player_stats ps r).free_throw_percentage = ps.free_throw_percentage) ∧
      (safe_float r.tS_PCT = none ∨ safe_float r.tS_PCT = some 0 →
        (update_player_stats ps r).true_shooting_percentage =
          ps.true_shooting_percentage) ∧
      (safe_float r.eFG_PCT = none ∨ safe_float r.eFG_PCT = some 0 →
        (update_player_stats ps r).effective_field_goal_percentage =
          ps.effective_field_goal_percentage) ∧
      (safe_float r.oREB_PCT = none ∨ safe_float r.oREB_PCT = some 0 →
        (update_player_stats ps r).offensive_rebound_percentage =
          ps.offensive_rebound_percentage) ∧
      (safe_float r.dREB_PCT = none ∨ safe_float r.dREB_PCT = some 0 →
        (update_player_stats ps r).defensive_rebound_percentage =
          ps.defensive_rebound_percentage) ∧
      (safe_float r.aST_PCT = none ∨ safe_float r.aST_PCT = some 0 →
        (update_player_stats ps r).assist_percentage = ps.assist_percentage) ∧
      (safe_float r.tOV_PCT = none ∨ safe_float r.tOV_PCT = some 0 →
        (update_player_stats ps r).turnover_percentage = ps.turnover_percentage) ∧
      (safe_float r.uSG_PCT = none ∨ safe_float r.uSG_PCT = some 0 →
        (update_player_stats ps r).usage_percentage = ps.usage_percentage) ∧
      (safe_float r.pER = none ∨ safe_float r.pER = some 0 →
        (update_player_stats ps r).player_efficiency_rating =
          ps.player_efficiency_rating)) ∧
    (∀ (ts : TeamStats) (r : TeamStatRecord) (q : ℚ),
      safe_float r.pTS = some 0 → ts.points_per_game = some q → q ≠ 0 →
      (update_team_stats ts r).points_per_game = some q ∧
        (update_team_stats ts r).points_per_game ≠ some 0) := by
  refine ⟨fun ts r => ⟨pyOrInt_keep_of_falsy, pyOrInt_keep_of_falsy, pyOrInt_keep_of_falsy,
      pyOrRat_keep_of_falsy, pyOrRat_keep_of_falsy, pyOrRat_keep_of_falsy,
      pyOrRat_keep_of_falsy, pyOrRat_keep_of_falsy, pyOrRat_keep_of_falsy,
      pyOrRat_keep_of_falsy, pyOrRat_keep_of_falsy, pyOrRat_keep_of_falsy,
      pyOrRat_keep_of_falsy, pyOrRat_keep_of_falsy, pyOrRat_keep_of_falsy,
      pyOrRat_keep_of_falsy, pyOrRat_keep_of_falsy, pyOrRat_keep_of_falsy,
      pyOrRat_keep_of_falsy⟩,
    fun ps r => ⟨pyOrInt_keep_of_falsy, pyOrInt_keep_of_falsy,
      pyOrRat_keep_of_falsy, pyOrRat_keep_of_falsy, pyOrRat_keep_of_falsy,
      pyOrRat_keep_of_falsy, pyOrRat_keep_of_falsy, pyOrRat_keep_of_falsy,
      pyOrRat_keep_of_falsy, pyOrRat_keep_of_falsy, pyOrRat_keep_of_falsy,
      pyOrRat_keep_of_falsy, pyOrRat_keep_of_falsy, pyOrRat_keep_of_falsy,
      pyOrRat_keep_of_falsy, pyOrRat_keep_of_falsy, pyOrRat_keep_of_falsy,
      pyOrRat_keep_of_falsy, pyOrRat_keep_of_falsy, pyOrRat_keep_of_falsy,
      pyOrRat_keep_of_falsy⟩,
    ?_⟩
  intro ts r q h hq hne
  have hkeep : (update_team_stats ts r).points_per_game = ts.points_per_game :=
    pyOrRat_keep_of_falsy (Or.inr h)
  refine ⟨hkeep.trans hq, ?_⟩
  rw [hkeep, hq]
  intro hcontra
  exact hne (Option.some.inj hcontra)

/-- **C10, witness.** A record whose statistics all parse to zero leaves a
stored row with non-zero statistics completely unchanged. -/
theorem C10_truthy_merge_keeps_stored_witness :
    (update_team_stats tsRowStored statRecZeros).points_per_game = some 115 ∧
    (update_team_stats tsRowStored statRecZeros).points_per_game ≠ some 0 ∧
    (update_team_stats tsRowStored statRecZeros).wins = tsRowStored.wins := by
  refine ⟨?_, ?_, ?_⟩
  · exact ((C10_truthy_merge_keeps_stored.2.2 tsRowStored statRecZeros 115
      (by decide) (by decide) (by decide)).1)
  · exact ((C10_truthy_merge_keeps_stored.2.2 tsRowStored statRecZeros 115
      (by decide) (by decide) (by decide)).2)
  · exact (C10_truthy_merge_keeps_stored.1 tsRowStored statRecZeros).2.1
      (Or.inr (by decide))

end NBA
